import Mathlib

/-!
# Tympan_Sandbox: the SD recording controller `AudioSDWriter_F32`

A shallow embedding of `SDAudioWriter_Test/AudioSDWriter.h`.

* The controller object is the record `AudioSDWriter_F32`; every member
  function is a function from the record to the new record (paired with the
  C++ return value when there is one).
* `BufferedSDWriter` (declared in `SDWriter.h`, which is not part of the
  sources at hand) is represented by the list of member calls the controller
  has made on it, newest call first.  A value that the sink, the clock or the
  audio library hands back to the controller (`openAsWAV`, `close`,
  `writeBufferedData`, `millis`, ...) is an argument of the embedded function
  that makes the call.
* `int` is a 32 bit two's complement integer: the only arithmetic on a field
  that can leave the range is `recording_count++`, which wraps.
* Text written through `serial_ptr` is collected in `serial_out`, newest first.
-/

/-! ## Data model -/

/-- The enum `AudioSDWriter::STATE` (`UNPREPARED = -1, STOPPED, RECORDING`). -/
inductive STATE where
  | UNPREPARED
  | STOPPED
  | RECORDING
  deriving DecidableEq, Repr

/-- The enum `AudioSDWriter::WriteDataType`. -/
inductive WriteDataType where
  | INT16
  | FLOAT32
  deriving DecidableEq, Repr

/-- A `Print*` target: the two serial ports named in the source, or any other
`Print` object handed in by the caller. -/
inductive Print where
  | Serial
  | Serial1
  | other (id : Nat)
  deriving DecidableEq, Repr

/-- A `float`, carried as its 32 bit pattern; the controller only passes
floats through. -/
abbrev float32 := Nat

/-- An `audio_block_f32_t`: the samples of one channel for one tick. -/
structure audio_block_f32_t where
  data : List float32
  length : Nat
  deriving DecidableEq, Repr

/-- One member call made on the `BufferedSDWriter`, with its arguments and,
where the controller reads it, the value the sink returned. -/
inductive SinkCall where
  | init
  | enablePrintElapsedWriteTime
  | openAsWAV (fname : List Char) (ret : Bool)
  | close (ret : Int)
  | resetBuffer
  | copyToWriteBuffer (audio_blocks : List (Option audio_block_f32_t)) (numChan : Int)
  | writeBufferedData (ret : Int)
  | setNChanWAV (n : Int) (ret : Int)
  | setSampleRateWAV (fs_Hz : float32) (ret : float32)
  | setWriteSizeBytes (n : Int)
  | resetNBlocksWritten
  deriving DecidableEq, Repr

/-- The object behind `buffSDWriter`: the arguments of
`new BufferedSDWriter(serial_ptr, writeSizeBytes)` and the calls made on it
since, newest first. -/
structure BufferedSDWriter where
  serial_ptr : Option Print
  writeSizeBytes : Int
  calls : List SinkCall
  deriving DecidableEq, Repr

/-- Append one call to the sink's history. -/
def BufferedSDWriter.call (b : BufferedSDWriter) (c : SinkCall) : BufferedSDWriter :=
  { b with calls := c :: b.calls }

/-- The fields of `AudioSDWriter` and `AudioSDWriter_F32`, with the member
initialisers of the class bodies as defaults, and the text printed so far. -/
structure AudioSDWriter_F32 where
  current_SD_state : STATE := STATE.UNPREPARED
  writeDataType : WriteDataType := WriteDataType.INT16
  recording_count : Int := 0
  numWriteChannels : Int := 2
  buffSDWriter : Option BufferedSDWriter := none
  serial_ptr : Option Print := some Print.Serial
  t_start_millis : Nat := 0
  serial_out : List (Print × String) := []
  deriving DecidableEq, Repr

/-- The macro `PRINT_FULL_SD_TIMING`. -/
def PRINT_FULL_SD_TIMING : Int := 0

/-- A 32 bit `int` after an arithmetic step: two's complement wrap-around. -/
def int32 (x : Int) : Int := (x + 2147483648) % 4294967296 - 2147483648

/-- An `int` stored into a `char`: the low 8 bits. -/
def toChar (x : Int) : Char := Char.ofNat (x % 256).toNat

namespace AudioSDWriter_F32

/-! ## Printing -/

/-- `if (serial_ptr) serial_ptr->print(msg)`. -/
def print (s : AudioSDWriter_F32) (msg : String) : AudioSDWriter_F32 :=
  match s.serial_ptr with
  | some p => { s with serial_out := (p, msg) :: s.serial_out }
  | none => s

/-- `if (serial_ptr) serial_ptr->println(msg)`. -/
def println (s : AudioSDWriter_F32) (msg : String) : AudioSDWriter_F32 :=
  match s.serial_ptr with
  | some p => { s with serial_out := (p, msg ++ "\r\n") :: s.serial_out }
  | none => s

/-! ## Protected helpers -/

/-- `bool openAsWAV(char *fname)`; `ret` is what the sink's `openAsWAV`
returns when it is called. -/
def openAsWAV (s : AudioSDWriter_F32) (fname : List Char) (ret : Bool) :
    Bool × AudioSDWriter_F32 :=
  match s.buffSDWriter with
  | some b => (ret, { s with buffSDWriter := some (b.call (SinkCall.openAsWAV fname ret)) })
  | none => (false, s)

/-- `int close(void)`; `ret` is what the sink's `close` returns when it is
called. -/
def close (s : AudioSDWriter_F32) (ret : Int) : Int × AudioSDWriter_F32 :=
  match s.buffSDWriter with
  | some b => (ret, { s with buffSDWriter := some (b.call (SinkCall.close ret)) })
  | none => (0, s)

/-- `unsigned long setStartTimeMillis(void)`; `now` is the value of
`millis()`. -/
def setStartTimeMillis (s : AudioSDWriter_F32) (now : Nat) : Nat × AudioSDWriter_F32 :=
  (now, { s with t_start_millis := now })

/-- `buffSDWriter->resetBuffer()` where the source guards it with
`if (buffSDWriter)`. -/
def resetBuffer (s : AudioSDWriter_F32) : AudioSDWriter_F32 :=
  match s.buffSDWriter with
  | some b => { s with buffSDWriter := some (b.call SinkCall.resetBuffer) }
  | none => s

/-! ## The controller operations -/

/-- `void stopRecording(void)`. -/
def stopRecording (s : AudioSDWriter_F32) (closeRet : Int) : AudioSDWriter_F32 :=
  if s.current_SD_state = STATE.RECORDING then
    let s1 := (s.close closeRet).2
    let s2 := { s1 with current_SD_state := STATE.STOPPED }
    s2.resetBuffer
  else
    s

/-- `void prepareSDforRecording(void)`. -/
def prepareSDforRecording (s : AudioSDWriter_F32) : AudioSDWriter_F32 :=
  if s.current_SD_state = STATE.UNPREPARED then
    let s1 :=
      match s.buffSDWriter with
      | some b =>
        let b1 := b.call SinkCall.init
        let b2 := if PRINT_FULL_SD_TIMING ≠ 0 then b1.call SinkCall.enablePrintElapsedWriteTime else b1
        { s with buffSDWriter := some b2 }
      | none => s
    { s1 with current_SD_state := STATE.STOPPED }
  else
    s

/-- `int startRecording(char* fname)`; `openRet` is what the sink answers to
`openAsWAV`, `now` the value of `millis()`. -/
def startRecording_fname (s : AudioSDWriter_F32) (fname : List Char) (openRet : Bool)
    (now : Nat) : Int × AudioSDWriter_F32 :=
  if s.current_SD_state = STATE.STOPPED then
    match s.openAsWAV fname openRet with
    | (true, s1) =>
      let s2 := (s1.print "AudioSDWriter: Opened ").println (String.mk fname)
      -- `buffSDWriter->resetBuffer()`: the pointer is not null here, since
      -- `openAsWAV` returned true
      let s3 := s2.resetBuffer
      let s4 := { s3 with current_SD_state := STATE.RECORDING }
      (0, (s4.setStartTimeMillis now).2)
    | (false, s1) =>
      (-1, (s1.print "AudioSDWriter: start: Failed to open ").println (String.mk fname))
  else
    (-1, s.println "AudioSDWriter: start: not in correct state to start.")

/-- The file name that `startRecording(void)` builds from `recording_count`:
`"AUDIOxxx.WAV"` with the characters 5, 6, 7 overwritten. -/
def fname_of_count (recording_count : Int) : List Char :=
  let fname := "AUDIOxxx.WAV".toList
  let hundreds := Int.tdiv recording_count 100
  let fname := fname.set 5 (toChar (hundreds + 48))
  let tens := Int.tdiv (recording_count - hundreds * 100) 10
  let fname := fname.set 6 (toChar (tens + 48))
  let ones := recording_count - tens * 10 - hundreds * 100
  fname.set 7 (toChar (ones + 48))

/-- `int startRecording(void)`. -/
def startRecording (s : AudioSDWriter_F32) (openRet : Bool) (now : Nat) :
    Int × AudioSDWriter_F32 :=
  let s1 := if s.current_SD_state = STATE.UNPREPARED then s.prepareSDforRecording else s
  if s1.current_SD_state = STATE.STOPPED then
    let s2 := { s1 with recording_count := int32 (s1.recording_count + 1) }
    if s2.recording_count < 1000 then
      s2.startRecording_fname (fname_of_count s2.recording_count) openRet now
    else
      (0, s2.println "AudioSDWriter: start: Cannot do more than 999 files.")
  else
    (-1, s1.println "AudioSDWriter: start: not in correct state to start.")

/-- `void setSerial(Print *_serial_ptr)`. -/
def setSerial (s : AudioSDWriter_F32) (_serial_ptr : Option Print) : AudioSDWriter_F32 :=
  { s with serial_ptr := _serial_ptr }

/-- `void setWriteDataType(WriteDataType type, Print* serial_ptr, const int
writeSizeBytes)`; `closeRet` is what the sink answers if `stopRecording`
closes a file. -/
def setWriteDataType (s : AudioSDWriter_F32) (type : WriteDataType)
    (serial_ptr : Option Print) (writeSizeBytes : Int) (closeRet : Int) : AudioSDWriter_F32 :=
  let s1 := s.stopRecording closeRet
  let s2 := { s1 with writeDataType := type }
  match s2.buffSDWriter with
  | none => { s2 with buffSDWriter := some ⟨serial_ptr, writeSizeBytes, []⟩ }
  | some _ => s2

/-- `void setWriteDataType(WriteDataType type)`.  `DEFAULT_SDWRITE_BYTES` is
a macro of `SDWriter.h`; `sinkSerial` and `sinkWriteSize` are what the sink's
`getSerial()` and `getWriteSizeBytes()` return. -/
def setWriteDataType_type (s : AudioSDWriter_F32) (type : WriteDataType)
    (DEFAULT_SDWRITE_BYTES : Int) (sinkSerial : Option Print) (sinkWriteSize : Int)
    (closeRet : Int) : AudioSDWriter_F32 :=
  let serial_ptr : Option Print := some Print.Serial1
  let write_nbytes : Int := DEFAULT_SDWRITE_BYTES
  let (serial_ptr, write_nbytes) :=
    match s.buffSDWriter with
    | some _ => (sinkSerial, sinkWriteSize)
    | none => (serial_ptr, write_nbytes)
  s.setWriteDataType type serial_ptr write_nbytes closeRet

/-- `void setup(void)`. -/
def setup (s : AudioSDWriter_F32) (DEFAULT_SDWRITE_BYTES : Int) (closeRet : Int) :
    AudioSDWriter_F32 :=
  s.setWriteDataType WriteDataType.INT16 (some Print.Serial) DEFAULT_SDWRITE_BYTES closeRet

/-- `void setup(Print *_serial_ptr)`. -/
def setup_serial (s : AudioSDWriter_F32) (_serial_ptr : Option Print)
    (DEFAULT_SDWRITE_BYTES : Int) (closeRet : Int) : AudioSDWriter_F32 :=
  (s.setSerial _serial_ptr).setWriteDataType WriteDataType.INT16 _serial_ptr
    DEFAULT_SDWRITE_BYTES closeRet

/-- `void setup(Print *_serial_ptr, const int _writeSizeBytes)`. -/
def setup_serial_size (s : AudioSDWriter_F32) (_serial_ptr : Option Print)
    (_writeSizeBytes : Int) (closeRet : Int) : AudioSDWriter_F32 :=
  (s.setSerial _serial_ptr).setWriteDataType WriteDataType.INT16 _serial_ptr
    _writeSizeBytes closeRet

/-- `void setWriteSizeBytes(const int n)`. -/
def setWriteSizeBytes (s : AudioSDWriter_F32) (n : Int) : AudioSDWriter_F32 :=
  match s.buffSDWriter with
  | some b => { s with buffSDWriter := some (b.call (SinkCall.setWriteSizeBytes n)) }
  | none => s

/-- `virtual int setNumWriteChannels(int n)` of `AudioSDWriter_F32`, which
overrides the one of the base class; `ret` is what the sink's `setNChanWAV`
returns. -/
def setNumWriteChannels (s : AudioSDWriter_F32) (n : Int) (ret : Int) :
    Int × AudioSDWriter_F32 :=
  match s.buffSDWriter with
  | some b => (ret, { s with buffSDWriter := some (b.call (SinkCall.setNChanWAV n ret)) })
  | none => (n, s)

/-- `int getNumWriteChannels(void)`. -/
def getNumWriteChannels (s : AudioSDWriter_F32) : Int := s.numWriteChannels

/-- `STATE getState(void)`. -/
def getState (s : AudioSDWriter_F32) : STATE := s.current_SD_state

/-- `virtual float setSampleRate_Hz(float fs_Hz)`; `ret` is what the sink's
`setSampleRateWAV` returns. -/
def setSampleRate_Hz (s : AudioSDWriter_F32) (fs_Hz : float32) (ret : float32) :
    float32 × AudioSDWriter_F32 :=
  match s.buffSDWriter with
  | some b => (ret, { s with buffSDWriter := some (b.call (SinkCall.setSampleRateWAV fs_Hz ret)) })
  | none => (fs_Hz, s)

/-- `void update(void)`; `receiveReadOnly_f32 Ichan` is the block the audio
library hands out for channel `Ichan`.  The second component lists the blocks
given back with `AudioStream_F32::release`. -/
def update (s : AudioSDWriter_F32) (receiveReadOnly_f32 : Nat → Option audio_block_f32_t) :
    AudioSDWriter_F32 × List audio_block_f32_t :=
  let audio_blocks := (List.range s.numWriteChannels.toNat).map receiveReadOnly_f32
  let s1 :=
    if s.current_SD_state = STATE.RECORDING then
      match s.buffSDWriter with
      | some b =>
        let b1 := b.call (SinkCall.copyToWriteBuffer audio_blocks s.numWriteChannels)
        { s with buffSDWriter := some b1 }
      | none => s
    else
      s
  (s1, audio_blocks.filterMap id)

/-- `int serviceSD(void)`; `ret` is what the sink's `writeBufferedData`
returns. -/
def serviceSD (s : AudioSDWriter_F32) (ret : Int) : Int × AudioSDWriter_F32 :=
  match s.buffSDWriter with
  | some b => (ret, { s with buffSDWriter := some (b.call (SinkCall.writeBufferedData ret)) })
  | none => (0, s)

/-- `void resetNBlocksWritten(void)`. -/
def resetNBlocksWritten (s : AudioSDWriter_F32) : AudioSDWriter_F32 :=
  match s.buffSDWriter with
  | some b => { s with buffSDWriter := some (b.call SinkCall.resetNBlocksWritten) }
  | none => s

/-- `unsigned long getStartTimeMillis(void)`. -/
def getStartTimeMillis (s : AudioSDWriter_F32) : Nat := s.t_start_millis

/-- The constructor `AudioSDWriter_F32(void)`: the member initialisers, then
`setup()`. -/
def new (DEFAULT_SDWRITE_BYTES : Int) : AudioSDWriter_F32 :=
  ({} : AudioSDWriter_F32).setup DEFAULT_SDWRITE_BYTES 0

/-- The constructor `AudioSDWriter_F32(const AudioSettings_F32 &settings)`;
`sample_rate_Hz` is the field of `settings` that is read, `ret` the sink's
answer to `setSampleRateWAV`. -/
def new_settings (sample_rate_Hz : float32) (DEFAULT_SDWRITE_BYTES : Int) (ret : float32) :
    AudioSDWriter_F32 :=
  ((({} : AudioSDWriter_F32).setup DEFAULT_SDWRITE_BYTES 0).setSampleRate_Hz
    sample_rate_Hz ret).2

/-- The constructor `AudioSDWriter_F32(const AudioSettings_F32 &settings,
Print* _serial_ptr)`. -/
def new_settings_serial (sample_rate_Hz : float32) (_serial_ptr : Option Print)
    (DEFAULT_SDWRITE_BYTES : Int) (ret : float32) : AudioSDWriter_F32 :=
  ((({} : AudioSDWriter_F32).setup_serial _serial_ptr DEFAULT_SDWRITE_BYTES 0).setSampleRate_Hz
    sample_rate_Hz ret).2

/-- The constructor `AudioSDWriter_F32(const AudioSettings_F32 &settings,
Print* _serial_ptr, const int _writeSizeBytes)`; `sample_rate_Hz` is the field
of `settings` that is read, `ret` the sink's answer to `setSampleRateWAV`. -/
def new_settings_serial_size (sample_rate_Hz : float32) (_serial_ptr : Option Print)
    (_writeSizeBytes : Int) (ret : float32) : AudioSDWriter_F32 :=
  ((({} : AudioSDWriter_F32).setup_serial_size _serial_ptr _writeSizeBytes 0).setSampleRate_Hz
    sample_rate_Hz ret).2

/-! ## Sequences of operations -/

/-- One call of a public member function that can change the controller,
together with the values the outside world returns during the call. -/
inductive Op where
  | setup (DEFAULT_SDWRITE_BYTES : Int) (closeRet : Int)
  | setup_serial (_serial_ptr : Option Print) (DEFAULT_SDWRITE_BYTES : Int) (closeRet : Int)
  | setup_serial_size (_serial_ptr : Option Print) (_writeSizeBytes : Int) (closeRet : Int)
  | setSerial (_serial_ptr : Option Print)
  | setWriteDataType_type (type : WriteDataType) (DEFAULT_SDWRITE_BYTES : Int)
      (sinkSerial : Option Print) (sinkWriteSize : Int) (closeRet : Int)
  | setWriteDataType (type : WriteDataType) (serial_ptr : Option Print)
      (writeSizeBytes : Int) (closeRet : Int)
  | setWriteSizeBytes (n : Int)
  | setNumWriteChannels (n : Int) (ret : Int)
  | setSampleRate_Hz (fs_Hz : float32) (ret : float32)
  | prepareSDforRecording
  | startRecording (openRet : Bool) (now : Nat)
  | startRecording_fname (fname : List Char) (openRet : Bool) (now : Nat)
  | stopRecording (closeRet : Int)
  | update (receiveReadOnly_f32 : Nat → Option audio_block_f32_t)
  | serviceSD (ret : Int)
  | resetNBlocksWritten
  | setStartTimeMillis (now : Nat)

/-- The controller after one operation. -/
def step (s : AudioSDWriter_F32) : Op → AudioSDWriter_F32
  | Op.setup d c => s.setup d c
  | Op.setup_serial p d c => s.setup_serial p d c
  | Op.setup_serial_size p n c => s.setup_serial_size p n c
  | Op.setSerial p => s.setSerial p
  | Op.setWriteDataType_type t d p n c => s.setWriteDataType_type t d p n c
  | Op.setWriteDataType t p n c => s.setWriteDataType t p n c
  | Op.setWriteSizeBytes n => s.setWriteSizeBytes n
  | Op.setNumWriteChannels n r => (s.setNumWriteChannels n r).2
  | Op.setSampleRate_Hz f r => (s.setSampleRate_Hz f r).2
  | Op.prepareSDforRecording => s.prepareSDforRecording
  | Op.startRecording o t => (s.startRecording o t).2
  | Op.startRecording_fname f o t => (s.startRecording_fname f o t).2
  | Op.stopRecording c => s.stopRecording c
  | Op.update rx => (s.update rx).1
  | Op.serviceSD r => (s.serviceSD r).2
  | Op.resetNBlocksWritten => s.resetNBlocksWritten
  | Op.setStartTimeMillis t => (s.setStartTimeMillis t).2

/-- The controller after a sequence of operations, first operation first. -/
def run (s : AudioSDWriter_F32) (ops : List Op) : AudioSDWriter_F32 :=
  ops.foldl step s

/-- Recognises the call `init()` in the sink's history. -/
def isInit : SinkCall → Bool
  | SinkCall.init => true
  | _ => false

/-- Number of `init()` calls the sink has received. -/
def initCount (s : AudioSDWriter_F32) : Nat :=
  match s.buffSDWriter with
  | some b => b.calls.countP isInit
  | none => 0

/-- One auto-named session: `startRecording()` then `stopRecording()`. -/
def startStopCycle (s : AudioSDWriter_F32) (openRet : Bool) (now : Nat) (closeRet : Int) :
    AudioSDWriter_F32 :=
  (s.startRecording openRet now).2.stopRecording closeRet

/-- A run of auto-named sessions in which every `openAsWAV` of the sink
succeeds; each entry of `xs` holds the `millis()` value and the sink's answer
to `close` for one session. -/
def autoSessions (s : AudioSDWriter_F32) (xs : List (Nat × Int)) : AudioSDWriter_F32 :=
  xs.foldl (fun s x => s.startStopCycle true x.1 x.2) s

/-- The controllers that one of the four constructors can return. -/
def Constructed (s : AudioSDWriter_F32) : Prop :=
  (∃ d, s = AudioSDWriter_F32.new d) ∨
  (∃ fs d r, s = new_settings fs d r) ∨
  (∃ fs p d r, s = new_settings_serial fs p d r) ∨
  (∃ fs p n r, s = new_settings_serial_size fs p n r)

/-! ## Predicates used in the proofs -/

/-- The state between auto-named sessions: not recording, `k` names used,
sink allocated; `UNPREPARED` only before the first session. -/
def BetweenSessions (s : AudioSDWriter_F32) (k : Nat) : Prop :=
  (s.current_SD_state = STATE.STOPPED ∨ (s.current_SD_state = STATE.UNPREPARED ∧ k = 0)) ∧
  s.recording_count = k ∧ s.buffSDWriter.isSome = true

/-- The medium is initialised at most once, and not at all while the
controller is still `UNPREPARED`. -/
def InitOnce (s : AudioSDWriter_F32) : Prop :=
  (s.current_SD_state = STATE.UNPREPARED → s.initCount = 0) ∧ s.initCount ≤ 1

/-- The step from `s` to `s'` makes no `init()` call and does not fall back to
`UNPREPARED`. -/
def Quiet (s s' : AudioSDWriter_F32) : Prop :=
  s'.initCount = s.initCount ∧
  (s'.current_SD_state = STATE.UNPREPARED → s.current_SD_state = STATE.UNPREPARED)

end AudioSDWriter_F32

/-! ## The names passed to the sink by `startRecording()` -/

namespace AudioSDWriter_F32

/-- The sink's call history, empty when there is no sink. -/
def callsOf (s : AudioSDWriter_F32) : List SinkCall :=
  match s.buffSDWriter with
  | some b => b.calls
  | none => []

/-- The calls that the history of `s'` has on top of the history of `s`. -/
def newCalls (s s' : AudioSDWriter_F32) : List SinkCall :=
  (callsOf s').take ((callsOf s').length - (callsOf s).length)

/-- The file name of an `openAsWAV` call. -/
def openedName : SinkCall → Option (List Char)
  | SinkCall.openAsWAV fname _ => some fname
  | _ => none

/-- The file names that the `startRecording()` calls of a sequence of
operations pass to the sink, in the order of the calls. -/
def autoNames (s : AudioSDWriter_F32) : List Op → List (List Char)
  | [] => []
  | Op.startRecording o t :: ops =>
    (newCalls s (s.startRecording o t).2).filterMap openedName
      ++ autoNames (s.startRecording o t).2 ops
  | op :: ops => autoNames (s.step op) ops

end AudioSDWriter_F32

/-! ## Byte accounting of the capture buffer and the storage sink -/

/-- Modelled from the spec: the byte accounting of the Capture Buffer and
Storage Sink inside `BufferedSDWriter` (`SDWriter.h`, which is not among the
sources).  `chunk` is the configured write-chunk size, `buffered` the bytes
between the flush cursor and the write cursor, `accepted` and `written` the
bytes accepted by the buffer and the data bytes written to the file since the
file was opened. -/
structure SinkBytes where
  chunk : Nat
  buffered : Nat
  accepted : Nat
  written : Nat
  deriving DecidableEq, Repr

/-- Modelled from the spec: the encoded size of the blocks of one `write`,
16-bit PCM, two bytes for every sample of every block that is present
(section 4.1 of the specification; `copyToWriteBuffer` is in `SDWriter.h`). -/
def encodedBytes (audio_blocks : List (Option audio_block_f32_t)) : Nat :=
  2 * ((audio_blocks.filterMap id).map (fun blk => blk.length)).sum

/-- Modelled from the spec: the effect of one sink call on the byte accounting
(`SDWriter.h` is not among the sources).  Section 4.1: `write` advances the
write cursor by the encoded byte count; `serviceFlush` issues one write of
exactly the chunk size when at least a chunk is buffered; `reset` clears both
cursors.  Section 4.2: `open` starts a new container, `close` finalises its
metadata. -/
def SinkBytes.apply (m : SinkBytes) : SinkCall → SinkBytes
  | SinkCall.openAsWAV _ true => { m with accepted := 0, written := 0 }
  | SinkCall.resetBuffer => { m with buffered := 0 }
  | SinkCall.copyToWriteBuffer audio_blocks _ =>
    { m with
      buffered := m.buffered + encodedBytes audio_blocks
      accepted := m.accepted + encodedBytes audio_blocks }
  | SinkCall.writeBufferedData _ =>
    if m.chunk ≤ m.buffered then
      { m with buffered := m.buffered - m.chunk, written := m.written + m.chunk }
    else m
  | SinkCall.setWriteSizeBytes n => { m with chunk := n.toNat }
  | _ => m

namespace AudioSDWriter_F32

end AudioSDWriter_F32

/-! ## The file name in the words of the specification -/

/-- Left-pads a digit string with `'0'` to three characters. -/
def zeroPad3 (l : List Char) : List Char := List.replicate (3 - l.length) '0' ++ l

/-- The specification's `deriveName(counter)`: `AUDIOnnn.WAV` with `nnn` the
zero-padded decimal representation of the counter. -/
def deriveName (counter : Nat) : List Char :=
  "AUDIO".toList ++ zeroPad3 (Nat.repr counter).toList ++ ".WAV".toList

/-! ## Open files of the sink, and the base class setter -/

namespace AudioSDWriter_F32

/-- Modelled from the spec: the number of files the sink holds open after the
calls `calls` (newest first), with the sink open after a successful
`openAsWAV` and closed after `close`; the file handling itself is in
`SDWriter.h`, which is not among the sources. -/
def openFilesAfter : List SinkCall → Nat
  | [] => 0
  | SinkCall.openAsWAV _ true :: cs => openFilesAfter cs + 1
  | SinkCall.close _ :: cs => openFilesAfter cs - 1
  | _ :: cs => openFilesAfter cs

/-- The number of files open in the sink of a controller. -/
def openFiles (s : AudioSDWriter_F32) : Nat := openFilesAfter (callsOf s)

/-- The state is `RECORDING` exactly when a file is open, and at most one file
is open. -/
def FileInv (s : AudioSDWriter_F32) : Prop :=
  (s.current_SD_state = STATE.RECORDING ↔ s.openFiles = 1) ∧ s.openFiles ≤ 1

/-- `virtual int setNumWriteChannels(int n)` of the base class `AudioSDWriter`
(`return numWriteChannels = max(1, min(n, 2));`), which `AudioSDWriter_F32`
overrides. -/
def AudioSDWriter.setNumWriteChannels (s : AudioSDWriter_F32) (n : Int) :
    Int × AudioSDWriter_F32 :=
  (max 1 (min n 2), { s with numWriteChannels := max 1 (min n 2) })

end AudioSDWriter_F32

/-! ## Overflow of the file counter -/

namespace AudioSDWriter_F32

/-- Whether some `recording_count++` of `startRecording()` in the sequence of
operations overflows the `int`: the call is made in a state other than
`RECORDING` (so the increment runs) with the counter at 2147483647, where C++
leaves the increment undefined. -/
def overflows (s : AudioSDWriter_F32) : List Op → Bool
  | [] => false
  | op :: ops =>
    (match op with
      | Op.startRecording _ _ =>
        decide (s.current_SD_state ≠ STATE.RECORDING ∧ s.recording_count = 2147483647)
      | _ => false) || overflows (s.step op) ops

end AudioSDWriter_F32

/-! ## Concrete controllers -/

/-- A controller as the default constructor leaves it (write size 512). -/
def fresh : AudioSDWriter_F32 := AudioSDWriter_F32.new 512

/-- A prepared controller in state `STOPPED` that has used 5 file names. -/
def stopped5 : AudioSDWriter_F32 :=
  { fresh.prepareSDforRecording with recording_count := 5 }

/-- A prepared controller in state `STOPPED` that has used 999 file names. -/
def stopped999 : AudioSDWriter_F32 :=
  { fresh.prepareSDforRecording with recording_count := 999 }

/-- A controller that is recording into `AUDIO001.WAV`. -/
def recording1 : AudioSDWriter_F32 := (fresh.startRecording true 1234).2

/-! ## The command and binary-stream framer `SerialManager`
(`WDRC_3Band_Stereo_BTaudio_App/SerialManager.h`)
-/

namespace WDRC_3Band

/-- A `char`: one byte. -/
abbrev char := Fin 256

/-- The macro `MAX_DATASTREAM_LENGTH`. -/
def MAX_DATASTREAM_LENGTH : Nat := 1024
/-- The macro `DATASTREAM_START_CHAR`. -/
def DATASTREAM_START_CHAR : char := 2
/-- The macro `DATASTREAM_SEPARATOR`. -/
def DATASTREAM_SEPARATOR : char := 3
/-- The macro `DATASTREAM_END_CHAR`. -/
def DATASTREAM_END_CHAR : char := 4

/-- The enumerator `SINGLE_CHAR` of `read_state_options`. -/
def SINGLE_CHAR : Int := 0
/-- The enumerator `STREAM_LENGTH` of `read_state_options`. -/
def STREAM_LENGTH : Int := 1
/-- The enumerator `STREAM_DATA` of `read_state_options`. -/
def STREAM_DATA : Int := 2

/-- Modelled from the spec: the record `BTNRH_WDRC::CHA_WDRC` (`gha`), whose
declaration is in the Tympan library; the ten fields in the order in which
`sendStreamGHA` prints them and section 6 lists them. -/
structure CHA_WDRC where
  attack : float32
  release : float32
  fs : float32
  maxdB : float32
  exp_cr : float32
  exp_end_knee : float32
  tkgain : float32
  tk : float32
  cr : float32
  bolt : float32
  deriving DecidableEq, Repr

/-- Modelled from the spec: the record `BTNRH_WDRC::CHA_DSL` (`dsl`), whose
declaration is in the Tympan library; the fields in the order of the
initialiser `test_dsl` of command `b`: three floats, two ints, seven arrays of
`DSL_MXCH = 8` floats. -/
structure CHA_DSL where
  attack : float32
  release : float32
  maxdB : float32
  ear : Int
  nchannel : Int
  cross_freq : List float32
  exp_cr : List float32
  exp_end_knee : List float32
  tkgain : List float32
  cr : List float32
  tk : List float32
  bolt : List float32
  deriving DecidableEq, Repr

/-- Modelled from the spec: the record `BTNRH_WDRC::CHA_AFC` (`afc`), whose
declaration is in the Tympan library. -/
structure CHA_AFC where
  default_to_active : Int
  afl : Int
  mu : float32
  rho : float32
  eps : float32
  deriving DecidableEq, Repr

/-- An argument of `print` / `println`: text, a character, an `int`, an `int`
with `HEX`, a `float`, a `float` with the number of digits after the decimal
point. -/
inductive Printed where
  | str (s : String)
  | chr (c : char)
  | int (n : Int)
  | hex (n : Int)
  | flt (x : float32)
  | fltDigits (x : float32) (digits : Int)
  deriving DecidableEq, Repr

/-- What the serial manager does to the outside world, in the order of the
source: text written to `Serial` or `myTympan` (`newline` for `println`), the
entry into `processStream()`, the body of a `case` of
`processSingleCharacter`, and the records handed to the DSP configuration
functions of the main sketch. -/
inductive Event where
  | Serial (p : Printed) (newline : Bool)
  | myTympan (p : Printed) (newline : Bool)
  | processStream
  | command (c : char)
  | updateGHA (gha : CHA_WDRC)
  | updateDSL (dsl : CHA_DSL)
  | updateAFC (afc : CHA_AFC)
  deriving DecidableEq, Repr

/-- An access outside `stream_data[0 .. MAX_DATASTREAM_LENGTH - 1]`; what the
program does after it is not defined. -/
inductive Fault where
  | read_out_of_bounds (idx : Int)
  | store_out_of_bounds (idx : Int)
  deriving DecidableEq, Repr

/-- The members of `SerialManager` that the framer and the stream decoder use,
and the events so far, newest first.  `stream_data i` is `stream_data[i]` for
`i < MAX_DATASTREAM_LENGTH`. -/
structure SerialManager where
  N_CHAN : Int
  serial_read_state : Int
  stream_data : Nat → char
  stream_length : Int
  stream_chars_received : Int
  events : List Event

namespace SerialManager

/-- Record one event. -/
def log (s : SerialManager) (e : Event) : SerialManager :=
  { s with events := e :: s.events }

/-- The constructor: `N_CHAN = n; serial_read_state = SINGLE_CHAR;`.  The
other members are not initialised by it; `stream_data`, `stream_length` and
`stream_chars_received` are given as found in memory. -/
def new (n : Int) (stream_data : Nat → char) (stream_length stream_chars_received : Int) :
    SerialManager :=
  { N_CHAN := n, serial_read_state := SINGLE_CHAR, stream_data := stream_data,
    stream_length := stream_length, stream_chars_received := stream_chars_received,
    events := [] }

/-- The characters that have a `case` in `processSingleCharacter`. -/
def commandChars : List Char :=
  "h?gGkK12345678!@#$%^&*AcC]\x7ddDFfqQsSJlLuUb".toList

/-- `void processSingleCharacter(char c)`.  The body of every `case` prints,
calls functions of the main sketch and of the test and DSP objects, and
changes `myState` and `FAKE_GAIN_LEVEL`; none of them touches
`serial_read_state`, `stream_data`, `stream_length` or
`stream_chars_received`.  The embedding records which `case` ran; a character
without a `case` does nothing. -/
def processSingleCharacter (s : SerialManager) (c : char) : SerialManager :=
  if Char.ofNat c.val ∈ commandChars then s.log (Event.command c) else s

/-- The four bytes at `stream_data + idx` as a little-endian 32 bit word,
the value of `*((int*)(stream_data+idx))` or `*((float*)(stream_data+idx))`
before it is given its type. -/
def read32 (s : SerialManager) (idx : Int) : Except Fault Nat :=
  if 0 ≤ idx ∧ idx + 4 ≤ MAX_DATASTREAM_LENGTH then
    Except.ok ((s.stream_data idx.toNat).val + 256 * (s.stream_data (idx.toNat + 1)).val
      + 65536 * (s.stream_data (idx.toNat + 2)).val
      + 16777216 * (s.stream_data (idx.toNat + 3)).val)
  else Except.error (Fault.read_out_of_bounds idx)

/-- `*((int*)(stream_data+idx))`. -/
def readInt (s : SerialManager) (idx : Int) : Except Fault Int :=
  (s.read32 idx).map (fun w => int32 w)

/-- `*((float*)(stream_data+idx))`, as its bit pattern. -/
def readFloat (s : SerialManager) (idx : Int) : Except Fault float32 :=
  s.read32 idx

/-- `stream_data[stream_chars_received] = c; stream_chars_received++;`. -/
def store (s : SerialManager) (c : char) : Except Fault SerialManager :=
  if 0 ≤ s.stream_chars_received ∧ s.stream_chars_received < MAX_DATASTREAM_LENGTH then
    Except.ok { s with
      stream_data := Function.update s.stream_data s.stream_chars_received.toNat c
      stream_chars_received := int32 (s.stream_chars_received + 1) }
  else Except.error (Fault.store_out_of_bounds s.stream_chars_received)

/-- `int readStreamFloatArray(int idx, float* arr, int len)`: the array read
and the returned index. -/
def readStreamFloatArray (s : SerialManager) (idx : Int) :
    Nat → Except Fault (List float32 × Int)
  | 0 => Except.ok ([], idx)
  | len + 1 => do
    let x ← s.readFloat idx
    let (arr, idx') ← readStreamFloatArray s (idx + 4) len
    pure (x :: arr, idx')

/-- `int readStreamIntArray(int idx, int* arr, int len)`. -/
def readStreamIntArray (s : SerialManager) (idx : Int) :
    Nat → Except Fault (List Int × Int)
  | 0 => Except.ok ([], idx)
  | len + 1 => do
    let x ← s.readInt idx
    let (arr, idx') ← readStreamIntArray s (idx + 4) len
    pure (x :: arr, idx')

/-- `void interpretStreamGHA(int idx)`. -/
def interpretStreamGHA (s : SerialManager) (idx : Int) : Except Fault SerialManager := do
  let attack ← s.readFloat idx
  let release ← s.readFloat (idx + 4)
  let sampRate ← s.readFloat (idx + 8)
  let maxdB ← s.readFloat (idx + 12)
  let compRatioLow ← s.readFloat (idx + 16)
  let kneepoint ← s.readFloat (idx + 20)
  let compStartGain ← s.readFloat (idx + 24)
  let compStartKnee ← s.readFloat (idx + 28)
  let compRatioHigh ← s.readFloat (idx + 32)
  let threshold ← s.readFloat (idx + 36)
  let s1 := s.log (Event.myTympan (Printed.str "SUCCESS.") true)
  let gha : CHA_WDRC := ⟨attack, release, sampRate, maxdB, compRatioLow, kneepoint,
    compStartGain, compStartKnee, compRatioHigh, threshold⟩
  pure (s1.log (Event.updateGHA gha))

/-- The aggregate initialisation `CHA_DSL dsl = {attack, release, maxdB, ear,
nchannel, x0, x1, ...}` with unbraced scalars `x0, x1, ...` after the first
five: by brace elision they fill the elements of `cross_freq`, `exp_cr`,
`exp_end_knee`, `tkgain`, `cr`, `tk`, `bolt` one after the other, and the
elements without an initialiser are zero. -/
def CHA_DSL.aggregate (attack release maxdB : float32) (ear nchannel : Int)
    (rest : List float32) : CHA_DSL :=
  let flat := rest ++ List.replicate (56 - rest.length) 0
  { attack := attack, release := release, maxdB := maxdB, ear := ear, nchannel := nchannel,
    cross_freq := flat.take 8,
    exp_cr := (flat.drop 8).take 8,
    exp_end_knee := (flat.drop 16).take 8,
    tkgain := (flat.drop 24).take 8,
    cr := (flat.drop 32).take 8,
    tk := (flat.drop 40).take 8,
    bolt := (flat.drop 48).take 8 }

/-- `myTympan.print(arr[0]); for (i=1; i<8; i++) { myTympan.print(", ");
myTympan.print(arr[i]); }`, newest event first. -/
def printFloats : List float32 → List Event
  | [] => []
  | x :: xs =>
    (xs.foldl (fun evs y =>
        Event.myTympan (Printed.flt y) false :: Event.myTympan (Printed.str ", ") false :: evs)
      [Event.myTympan (Printed.flt x) false])

/-- `void interpretStreamDSL(int idx)`. -/
def interpretStreamDSL (s : SerialManager) (idx : Int) : Except Fault SerialManager := do
  let attack ← s.readFloat idx
  let release ← s.readFloat (idx + 4)
  let numChannels ← s.readInt (idx + 8)
  let maxdB ← s.readFloat (idx + 12)
  let (freq, idx) ← s.readStreamFloatArray (idx + 16) 8
  let (lowSPLRatio, idx) ← s.readStreamFloatArray idx 8
  let (expansionKneepoint, idx) ← s.readStreamFloatArray idx 8
  let (compStartGain, idx) ← s.readStreamFloatArray idx 8
  let (compRatio, idx) ← s.readStreamFloatArray idx 8
  let (compStartKnee, idx) ← s.readStreamFloatArray idx 8
  let (threshold, _) ← s.readStreamFloatArray idx 8
  let s1 := s.log (Event.myTympan (Printed.str "  freq = \x7b") false)
  let s2 := { s1 with events := printFloats freq ++ s1.events }
  let s3 := s2.log (Event.myTympan (Printed.str "\x7d") true)
  let s4 := s3.log (Event.myTympan (Printed.str "  lowSPLRatio = \x7b") false)
  let s5 := { s4 with events := printFloats lowSPLRatio ++ s4.events }
  let s6 := s5.log (Event.myTympan (Printed.str "\x7d") true)
  -- `*freq`, `*lowSPLRatio`, ... are the first elements of the seven arrays
  let dsl := CHA_DSL.aggregate attack release maxdB 0 numChannels
    [freq.headD 0, lowSPLRatio.headD 0, expansionKneepoint.headD 0, compStartGain.headD 0,
      compRatio.headD 0, compStartKnee.headD 0, threshold.headD 0]
  let s7 := s6.log (Event.updateDSL dsl)
  pure (s7.log (Event.myTympan (Printed.str "SUCCESS.") true))

/-- `void interpretStreamAFC(int idx)`. -/
def interpretStreamAFC (s : SerialManager) (idx : Int) : Except Fault SerialManager := do
  let default_to_active ← s.readInt idx
  let afl ← s.readInt (idx + 4)
  let mu ← s.readFloat (idx + 8)
  let rho ← s.readFloat (idx + 12)
  let eps ← s.readFloat (idx + 16)
  let afc : CHA_AFC := ⟨default_to_active, afl, mu, rho, eps⟩
  let s1 := s.log (Event.updateAFC afc)
  pure (s1.log (Event.myTympan (Printed.str "SUCCESS.") true))

/-- A string literal as bytes. -/
def cstr (lit : String) : List char := lit.toList.map (fun ch => Fin.ofNat ch.toNat)

/-- The bytes collected in a `String` as text. -/
def toText (bytes : List char) : String := String.mk (bytes.map (fun b => Char.ofNat b.val))

/-- The loop `while (stream_data[idx] != DATASTREAM_SEPARATOR) {
streamType.append(stream_data[idx]); idx++; }` of `processStream`, started at
`idx` with `fuel` elements of `stream_data` left from `idx` on: the characters
appended and the index of the separator, or the fault of reading
`stream_data[MAX_DATASTREAM_LENGTH]`. -/
def scanTag (stream_data : Nat → char) : Nat → Nat → Except Fault (List char × Nat)
  | idx, 0 => Except.error (Fault.read_out_of_bounds idx)
  | idx, fuel + 1 =>
    if stream_data idx = DATASTREAM_SEPARATOR then Except.ok ([], idx)
    else (scanTag stream_data (idx + 1) fuel).map (fun r => (stream_data idx :: r.1, r.2))

/-- `void processStream(void)`.  `streamType == "gha"` is taken as equality of
the appended characters with the characters of the literal, which is what the
`String` comparison gives for tags without a NUL character. -/
def processStream (s : SerialManager) : Except Fault SerialManager := do
  let s := s.log Event.processStream
  let (streamType, idx) ← scanTag s.stream_data 0 MAX_DATASTREAM_LENGTH
  let idx : Int := idx + 1
  if streamType = cstr "gha" then
    (s.log (Event.myTympan (Printed.str "Stream is of type 'gha'.") true)).interpretStreamGHA idx
  else if streamType = cstr "dsl" then
    (s.log (Event.myTympan (Printed.str "Stream is of type 'dsl'.") true)).interpretStreamDSL idx
  else if streamType = cstr "afc" then
    (s.log (Event.myTympan (Printed.str "Stream is of type 'afc'.") true)).interpretStreamAFC idx
  else if streamType = cstr "test" then do
    let s1 := s.log (Event.myTympan (Printed.str "Stream is of type 'test'.") true)
    let tmpInt ← s1.readInt idx
    let s2 := (s1.log (Event.myTympan (Printed.str "int is ") false)).log
      (Event.myTympan (Printed.int tmpInt) true)
    let tmpFloat ← s2.readFloat (idx + 4)
    pure ((s2.log (Event.myTympan (Printed.str "float is ") false)).log
      (Event.myTympan (Printed.flt tmpFloat) true))
  else
    pure ((s.log (Event.myTympan (Printed.str "Unknown stream type: ") false)).log
      (Event.myTympan (Printed.str (toText streamType)) true))

/-- `void respondToByte(char c)`. -/
def respondToByte (s : SerialManager) (c : char) : Except Fault SerialManager :=
  if s.serial_read_state = SINGLE_CHAR then
    if c = DATASTREAM_START_CHAR then
      let s1 := s.log (Event.Serial (Printed.str "Start data stream.") true)
      pure { s1 with serial_read_state := STREAM_LENGTH, stream_chars_received := 0 }
    else
      let s1 := s.log (Event.Serial (Printed.str "Processing character ") false)
      let s2 := s1.log (Event.Serial (Printed.chr c) true)
      pure (s2.processSingleCharacter c)
  else if s.serial_read_state = STREAM_LENGTH then
    if c = DATASTREAM_SEPARATOR then do
      let len ← s.readInt 0
      let s1 := { s with
        stream_length := len, serial_read_state := STREAM_DATA, stream_chars_received := 0 }
      let s2 := s1.log (Event.Serial (Printed.str "Stream length = ") false)
      pure (s2.log (Event.Serial (Printed.int len) true))
    else
      s.store c
  else if s.serial_read_state = STREAM_DATA then
    if s.stream_chars_received < s.stream_length then
      s.store c
    else do
      let s1 ←
        if c = DATASTREAM_END_CHAR then
          (s.log (Event.Serial (Printed.str "Time to process stream!") true)).processStream
        else
          let e1 := s.log (Event.myTympan (Printed.str "ERROR: Expected string terminator ") false)
          let e2 := e1.log (Event.myTympan (Printed.hex DATASTREAM_END_CHAR.val) false)
          let e3 := e2.log (Event.myTympan (Printed.str "; found ") false)
          let e4 := e3.log (Event.myTympan (Printed.hex c.val) false)
          pure (e4.log (Event.myTympan (Printed.str " instead.") true))
      pure { s1 with serial_read_state := SINGLE_CHAR, stream_chars_received := 0 }
  else
    pure s

/-- The bytes of a list fed to `respondToByte` one after the other. -/
def respondToBytes (s : SerialManager) : List char → Except Fault SerialManager
  | [] => pure s
  | c :: cs => do
    let s1 ← s.respondToByte c
    respondToBytes s1 cs

end SerialManager

/-- The four bytes of a length, least significant first. -/
def le32 (n : Nat) : List char :=
  [Fin.ofNat (n % 256), Fin.ofNat (n / 256 % 256), Fin.ofNat (n / 65536 % 256),
    Fin.ofNat (n / 16777216 % 256)]

end WDRC_3Band

/-! ## Observers and concrete serial managers -/

namespace WDRC_3Band
namespace SerialManager

/-- Recognises the entry into `processStream()`. -/
def isProcessStream : Event → Bool
  | Event.processStream => true
  | _ => false

/-- Recognises a record handed to `updateGHA`, `updateDSL` or `updateAFC`. -/
def isUpdate : Event → Bool
  | Event.updateGHA _ => true
  | Event.updateDSL _ => true
  | Event.updateAFC _ => true
  | _ => false

/-- Number of `processStream()` calls among the events. -/
def processStreamCalls (s : SerialManager) : Nat := s.events.countP isProcessStream

/-- Number of decoded records handed to the DSP configuration functions. -/
def decodedRecords (s : SerialManager) : Nat := s.events.countP isUpdate

/-- The framer fields of `s'` are those of `s`. -/
def SameFramer (s s' : SerialManager) : Prop :=
  s'.N_CHAN = s.N_CHAN ∧ s'.serial_read_state = s.serial_read_state ∧
  s'.stream_data = s.stream_data ∧ s'.stream_length = s.stream_length ∧
  s'.stream_chars_received = s.stream_chars_received

/-- A freshly constructed serial manager with three channels whose
uninitialised members are zero. -/
def zeroed : SerialManager := SerialManager.new 3 (fun _ => 0) 0 0

/-- A manager in state `STREAM_DATA` whose declared two payload bytes, the tag
`t` and the separator, have been received. -/
def tagReceived : SerialManager :=
  { SerialManager.new 3 (fun i => if i = 0 then 116 else if i = 1 then 3 else 0) 2 2 with
    serial_read_state := STREAM_DATA }

/-- A manager in state `STREAM_LENGTH` right after the start marker. -/
def lengthPending : SerialManager :=
  { zeroed with serial_read_state := STREAM_LENGTH }

end SerialManager
end WDRC_3Band

/-! ## A received `dsl` payload -/

namespace WDRC_3Band
namespace SerialManager

/-- A manager in state `STREAM_DATA` that has received the 244 bytes of a
`dsl` payload: the tag, the separator, and a record whose byte at index `i` is
`i`. -/
def dslReceived : SerialManager :=
  { SerialManager.new 3
      (fun i => if i = 0 then 100 else if i = 1 then 115 else if i = 2 then 108
        else if i = 3 then 3 else Fin.ofNat i) 244 244 with
    serial_read_state := STREAM_DATA }

end SerialManager
end WDRC_3Band

/-! ## Words of the buffer, the forwarded record, stores inside the array -/

namespace WDRC_3Band
namespace SerialManager

/-- The little-endian 32 bit word of the four bytes of `data` from index `i`
on. -/
def wordAt (data : Nat → char) (i : Nat) : Nat :=
  (data i).val + 256 * (data (i + 1)).val + 65536 * (data (i + 2)).val
    + 16777216 * (data (i + 3)).val

/-- The record of the newest `updateDSL` call among the events. -/
def lastDSL : List Event → Option CHA_DSL
  | [] => none
  | Event.updateDSL dsl :: _ => some dsl
  | _ :: es => lastDSL es

/-- One item of a well-formed input: a command byte, or a frame made of the
start marker, the four little-endian bytes of the payload length, the
separator, the payload and one terminating byte. -/
inductive Item where
  | command (c : char)
  | frame (payload : List char) (terminator : char)

/-- The bytes of an item. -/
def Item.bytes : Item → List char
  | Item.command c => [c]
  | Item.frame payload terminator =>
    [DATASTREAM_START_CHAR] ++ le32 payload.length ++ [DATASTREAM_SEPARATOR] ++ payload
      ++ [terminator]

end SerialManager
end WDRC_3Band

/-! ## The sender-side formatter `sendStreamDSL` and the text it writes -/

namespace WDRC_3Band

namespace SerialManager

end SerialManager
end WDRC_3Band

/-! ## The command handler of the nRF52840 treble-boost sketch
(`Tympan_TrebleBoost_wApp_nRF52840/SerialManager.h`)
-/

namespace TrebleBoost_nRF52840

/-- A `char`: one byte. -/
abbrev char := Fin 256

/-- A character literal as a byte. -/
def ch (x : Char) : char := Fin.ofNat x.toNat

/-- The fields of `myState` (`State.h`, not among the sources) that this file
reads or writes. -/
structure State where
  printCPUtoGUI : Bool
  input_gain_dB : float32
  digital_gain_dB : float32
  cutoff_Hz : float32
  deriving DecidableEq, Repr

/-- A `float` argument built by the command handler: a member as it is,
negated (`-gainIncrement_dB`), or its reciprocal (`1.0/freqIncrement`). -/
inductive FloatArg where
  | val (x : float32)
  | neg (x : float32)
  | recip (x : float32)
  deriving DecidableEq, Repr

/-- One call made on a collaborator: `Serial`, the BLE module `ble`, the
functions of the main sketch, the GUI builder `myGUI` and the pages and cards
it hands out. -/
inductive Call where
  | Serial_println (s : String)
  | ble_sendMessage (msg : String)
  | ble_version
  | ble_getBleName (name : String)
  | ble_setBleName (name : String)
  | ble_isAdvertising
  | ble_enableAdvertising (enable : Bool)
  | ble_isConnected
  | ble_getLedMode
  | ble_setLedMode (mode : Int)
  | changeGain (x : FloatArg)
  | printGainLevels
  | incrementHighpassFilters (x : FloatArg)
  | printHighpassCutoff
  | myGUI_get_nPages
  | myGUI_addPage (name : String)
  | addCard (name : String)
  | addButton (label command id : String) (width : Int)
  | myGUI_addPredefinedPage (name : String)
  | myGUI_asString
  deriving DecidableEq, Repr

/-- What the collaborators answer and do during one command: the strings and
numbers they return, the text of `String(float, digits)`, and what the two
functions of the main sketch that take a float do to `myState`. -/
structure Answers where
  ble_version : String
  ble_getBleName : String
  ble_isAdvertising : Int
  ble_isConnected : Int
  ble_getLedMode : Int
  myGUI_get_nPages : Int
  myGUI_asString : String
  String_float : float32 → Int → String
  changeGain : FloatArg → State → State
  incrementHighpassFilters : FloatArg → State → State

/-- The members of `SerialManager` and the objects of the main sketch it
works on: the two increments, `myState`, and the calls made on the
collaborators so far, newest first. -/
structure SerialManager where
  gainIncrement_dB : float32
  freqIncrement : float32
  myState : State
  calls : List Call

namespace SerialManager

/-- Record one call. -/
def call (s : SerialManager) (c : Call) : SerialManager :=
  { s with calls := c :: s.calls }

/-- `void setButtonText(String btnId, String text)`. -/
def setButtonText (s : SerialManager) (btnId text : String) : SerialManager :=
  let msg := "TEXT=BTN:" ++ btnId ++ ":" ++ text
  let s1 := s.call (Call.Serial_println ("serialManager: setButtonText: sending = " ++ msg))
  s1.call (Call.ble_sendMessage msg)

/-- `void printHelp(void)`. -/
def printHelp (s : SerialManager) : SerialManager :=
  let s := s.call (Call.Serial_println "SerialManager Help: Available Commands:")
  let s := s.call (Call.Serial_println " h: Print this help")
  let s := s.call (Call.Serial_println " k/K: AUDIO: Incr/Decrease Digital Gain")
  let s := s.call (Call.Serial_println " t/T: AUDIO: Incr/Decrease Cutoff of Highpass Filter")
  let s := s.call (Call.Serial_println
    " c/C: SYSTEM: Enable/Disable printing of CPU and Memory usage")
  let s := s.call (Call.Serial_println " v:   BLE: Get firmware info from BLE module")
  let s := s.call (Call.Serial_println " n:   BLE: Get BLE name of the BLE module")
  let s := s.call (Call.Serial_println
    " N:   BLE: Set BLE name of the BLE module to TYMP-TYMP")
  let s := s.call (Call.Serial_println " G:   BLE: Get BLE status of Connected")
  let s := s.call (Call.Serial_println " g:   BLE: Get BLE status of Advertising")
  let s := s.call (Call.Serial_println " f/F: BLE: Enable/Disable Advertising")
  let s := s.call (Call.Serial_println " m:   BLE: Get BLE status of LedMode")
  let s := s.call (Call.Serial_println " b/B: BLE: Set LedMode: b=1, B=0")
  let s := s.call (Call.Serial_println
    " J:   Send JSON for the GUI for the Tympan Remote App")
  s.call (Call.Serial_println "")

/-- `void createTympanRemoteLayout(void)`. -/
def createTympanRemoteLayout (s : SerialManager) : SerialManager :=
  let s := s.call (Call.myGUI_addPage "Treble Boost Demo")
  let s := s.call (Call.addCard "Highpass Gain (dB)")
  let s := s.call (Call.addButton "-" "K" "" 4)
  let s := s.call (Call.addButton "" "" "gainIndicator" 4)
  let s := s.call (Call.addButton "+" "k" "" 4)
  let s := s.call (Call.addCard "Highpass Cutoff (Hz)")
  let s := s.call (Call.addButton "-" "T" "" 4)
  let s := s.call (Call.addButton "" "" "cutoffHz" 4)
  let s := s.call (Call.addButton "+" "t" "" 4)
  let s := s.call (Call.myGUI_addPage "Globals")
  let s := s.call (Call.addCard "Analog Input Gain (dB)")
  let s := s.call (Call.addButton "" "" "inpGain" 12)
  s.call (Call.myGUI_addPredefinedPage "serialMonitor")

/-- `void updateGainDisplay(void)`. -/
def updateGainDisplay (s : SerialManager) (a : Answers) : SerialManager :=
  s.setButtonText "gainIndicator" (a.String_float s.myState.digital_gain_dB 1)

/-- `void updateFilterDisplay(void)`. -/
def updateFilterDisplay (s : SerialManager) (a : Answers) : SerialManager :=
  s.setButtonText "cutoffHz" (a.String_float s.myState.cutoff_Hz 0)

/-- `void updateCpuDisplayOnOff(void)`, whose only statement is commented
out. -/
def updateCpuDisplayOnOff (s : SerialManager) : SerialManager := s

/-- `void setFullGUIState(bool activeButtonsOnly)`. -/
def setFullGUIState (s : SerialManager) (a : Answers) : SerialManager :=
  let s := s.updateGainDisplay a
  let s := s.updateFilterDisplay a
  let s := s.setButtonText "inpGain" (a.String_float s.myState.input_gain_dB 1)
  s.updateCpuDisplayOnOff

/-- `void printTympanRemoteLayout(void)`. -/
def printTympanRemoteLayout (s : SerialManager) (a : Answers) : SerialManager :=
  let s := s.call (Call.Serial_println "SerialManager: printTympanRemoteLayout: sending JSON...")
  let s := s.call Call.myGUI_get_nPages
  let s := if a.myGUI_get_nPages < 1 then s.createTympanRemoteLayout else s
  let s := s.call Call.myGUI_asString
  let s := s.call (Call.Serial_println a.myGUI_asString)
  let s := s.call (Call.ble_sendMessage a.myGUI_asString)
  s.setFullGUIState a

/-- `bool processCharacter(char c)`: the return value and the manager after
the call. -/
def processCharacter (s : SerialManager) (a : Answers) (c : char) : Bool × SerialManager :=
  if c = ch 'h' then
    (true, s.printHelp)
  else if c = ch 'J' ∨ c = ch 'j' then
    (true, s.printTympanRemoteLayout a)
  else if c = ch 'v' then
    let s := s.call Call.ble_version
    (true, s.call (Call.Serial_println
      ("serialManager: BLE module firmware: " ++ a.ble_version)))
  else if c = ch 'n' then
    let s := s.call (Call.ble_getBleName "")
    (true, s.call (Call.Serial_println
      ("serialManager: retrieving BLE module name.  name = " ++ a.ble_getBleName)))
  else if c = ch 'N' then
    let s := s.call (Call.Serial_println
      ("serialManager: setting BLE module name: " ++ "TympTymp"))
    (true, s.call (Call.ble_setBleName "TympTymp"))
  else if c = ch 'g' then
    let s := s.call Call.ble_isAdvertising
    (true, s.call (Call.Serial_println
      ("serialManager: BLE: isAdvertising = " ++ toString a.ble_isAdvertising)))
  else if c = ch 'f' then
    let s := s.call (Call.Serial_println "serialManager: BLE: enable Advertising...")
    (true, s.call (Call.ble_enableAdvertising true))
  else if c = ch 'F' then
    let s := s.call (Call.Serial_println "serialManager: BLE: disable Advertising...")
    (true, s.call (Call.ble_enableAdvertising false))
  else if c = ch 'G' then
    let s := s.call Call.ble_isConnected
    (true, s.call (Call.Serial_println
      ("serialManager: BLE: isConnected = " ++ toString a.ble_isConnected)))
  else if c = ch 'm' then
    let s := s.call Call.ble_getLedMode
    (true, s.call (Call.Serial_println
      ("serialManager: BLE: getLedMode = " ++ toString a.ble_getLedMode)))
  else if c = ch 'b' then
    let s := s.call (Call.Serial_println "serialManager: BLE: setLedMode to 1...")
    (true, s.call (Call.ble_setLedMode 1))
  else if c = ch 'B' then
    let s := s.call (Call.Serial_println "serialManager: BLE: setLedMode to 0...")
    (true, s.call (Call.ble_setLedMode 0))
  else if c = ch 'k' then
    let x := FloatArg.val s.gainIncrement_dB
    let s := { s.call (Call.changeGain x) with myState := a.changeGain x s.myState }
    let s := s.call Call.printGainLevels
    (true, s.updateGainDisplay a)
  else if c = ch 'K' then
    let x := FloatArg.neg s.gainIncrement_dB
    let s := { s.call (Call.changeGain x) with myState := a.changeGain x s.myState }
    let s := s.call Call.printGainLevels
    (true, s.updateGainDisplay a)
  else if c = ch 't' then
    let x := FloatArg.val s.freqIncrement
    let s := { s.call (Call.incrementHighpassFilters x) with
      myState := a.incrementHighpassFilters x s.myState }
    let s := s.call Call.printHighpassCutoff
    (true, s.updateFilterDisplay a)
  else if c = ch 'T' then
    let x := FloatArg.recip s.freqIncrement
    let s := { s.call (Call.incrementHighpassFilters x) with
      myState := a.incrementHighpassFilters x s.myState }
    let s := s.call Call.printHighpassCutoff
    (true, s.updateFilterDisplay a)
  else if c = ch 'c' then
    let s := s.call (Call.Serial_println "Starting CPU reporting...")
    let s := { s with myState := { s.myState with printCPUtoGUI := true } }
    (true, s.updateCpuDisplayOnOff)
  else if c = ch 'C' then
    let s := s.call (Call.Serial_println "Stopping CPU reporting...")
    let s := { s with myState := { s.myState with printCPUtoGUI := false } }
    (true, s.updateCpuDisplayOnOff)
  else
    (false, s)

/-- `bool respondToByte(char c)`. -/
def respondToByte (s : SerialManager) (a : Answers) (c : char) : Bool × SerialManager :=
  s.processCharacter a c

end SerialManager

/-- The command set in the words of the specification:
`h, J, j, v, n, N, g, f, F, G, m, b, B, k, K, t, T, c, C`. -/
def recognizedCommands : List char :=
  [ch 'h', ch 'J', ch 'j', ch 'v', ch 'n', ch 'N', ch 'g', ch 'f', ch 'F', ch 'G', ch 'm',
    ch 'b', ch 'B', ch 'k', ch 'K', ch 't', ch 'T', ch 'c', ch 'C']

end TrebleBoost_nRF52840

/-! ## Basic facts about the helpers -/

namespace AudioSDWriter_F32

theorem int32_of_small (x : Int) (h0 : -2147483648 ≤ x) (h1 : x < 2147483648) :
    int32 x = x := by
  unfold int32
  omega

theorem betweenSessions_new (d : Int) : BetweenSessions (AudioSDWriter_F32.new d) 0 := by
  simp [BetweenSessions, AudioSDWriter_F32.new, setup, setWriteDataType, stopRecording]

theorem betweenSessions_constructed (s : AudioSDWriter_F32) (h : Constructed s) :
    BetweenSessions s 0 := by
  rcases h with ⟨d, rfl⟩ | ⟨fs, d, r, rfl⟩ | ⟨fs, p, d, r, rfl⟩ | ⟨fs, p, n, r, rfl⟩
  · exact betweenSessions_new d
  · simp [BetweenSessions, new_settings, setup, setWriteDataType, stopRecording,
      setSampleRate_Hz]
  · simp [BetweenSessions, new_settings_serial, setup_serial, setSerial, setWriteDataType,
      stopRecording, setSampleRate_Hz]
  · simp [BetweenSessions, new_settings_serial_size, setup_serial_size, setSerial,
      setWriteDataType, stopRecording, setSampleRate_Hz]

theorem betweenSessions_start (s : AudioSDWriter_F32) (k : Nat) (now : Nat)
    (h : BetweenSessions s k) (hk : k < 999) :
    (s.startRecording true now).1 = 0 ∧
    (s.startRecording true now).2.current_SD_state = STATE.RECORDING ∧
    (s.startRecording true now).2.recording_count = k + 1 ∧
    (s.startRecording true now).2.buffSDWriter.isSome = true := by
  obtain ⟨hst, hc, hb⟩ := h
  obtain ⟨b, hb⟩ := Option.isSome_iff_exists.mp hb
  have hw : int32 ((k : Int) + 1) = k + 1 := int32_of_small _ (by omega) (by omega)
  have hlt : ((k : Int) + 1) < 1000 := by omega
  rcases hst with hst | ⟨hst, _⟩ <;>
    cases hp : s.serial_ptr <;>
    simp [startRecording, startRecording_fname, openAsWAV, resetBuffer, print, println,
      setStartTimeMillis, prepareSDforRecording, PRINT_FULL_SD_TIMING, hst, hb, hc, hw, hlt, hp]

theorem betweenSessions_ceiling (s : AudioSDWriter_F32) (o : Bool) (now : Nat)
    (h : BetweenSessions s 999) :
    (s.startRecording o now).1 = 0 ∧
    (s.startRecording o now).2.current_SD_state = STATE.STOPPED ∧
    (s.startRecording o now).2.buffSDWriter = s.buffSDWriter := by
  obtain ⟨hst, hc, _⟩ := h
  have hst2 : s.current_SD_state = STATE.STOPPED := by
    rcases hst with hst | ⟨_, h0⟩
    · exact hst
    · omega
  have hw : int32 1000 = 1000 := by decide
  cases hp : s.serial_ptr <;> simp [startRecording, println, hst2, hc, hw, hp]

theorem betweenSessions_cycle (s : AudioSDWriter_F32) (k : Nat) (now : Nat) (c : Int)
    (h : BetweenSessions s k) (hk : k < 999) :
    BetweenSessions (s.startStopCycle true now c) (k + 1) := by
  obtain ⟨h1, h2, h3, h4⟩ := betweenSessions_start s k now h hk
  obtain ⟨b, hb⟩ := Option.isSome_iff_exists.mp h4
  simp [BetweenSessions, startStopCycle, stopRecording, close, resetBuffer, h2, h3, hb]

theorem betweenSessions_autoSessions (xs : List (Nat × Int)) :
    ∀ (s : AudioSDWriter_F32) (k : Nat), BetweenSessions s k → k + xs.length ≤ 999 →
      BetweenSessions (s.autoSessions xs) (k + xs.length) := by
  induction xs with
  | nil => intro s k h _; simpa [autoSessions] using h
  | cons x xs ih =>
    intro s k h hk
    simp only [List.length_cons] at hk
    have h1 := betweenSessions_cycle s k x.1 x.2 h (by omega)
    have h2 := ih (s.startStopCycle true x.1 x.2) (k + 1) h1 (by omega)
    simp only [autoSessions, List.foldl_cons, List.length_cons] at h2 ⊢
    have e : k + (xs.length + 1) = k + 1 + xs.length := by omega
    rw [e]
    exact h2

theorem initOnce_new (d : Int) : InitOnce (AudioSDWriter_F32.new d) := by
  simp [InitOnce, initCount, AudioSDWriter_F32.new, setup, setWriteDataType, stopRecording]

theorem Quiet.refl (s : AudioSDWriter_F32) : Quiet s s := ⟨rfl, id⟩

theorem Quiet.trans {a b c : AudioSDWriter_F32} (h1 : Quiet a b) (h2 : Quiet b c) :
    Quiet a c :=
  ⟨h2.1.trans h1.1, fun h => h1.2 (h2.2 h)⟩

theorem InitOnce.of_quiet {s s' : AudioSDWriter_F32} (h : InitOnce s) (q : Quiet s s') :
    InitOnce s' :=
  ⟨fun hu => q.1.trans (h.1 (q.2 hu)), q.1 ▸ h.2⟩

theorem quiet_print (s : AudioSDWriter_F32) (msg : String) : Quiet s (s.print msg) := by
  cases hp : s.serial_ptr <;> simp [Quiet, print, initCount, hp]

theorem quiet_println (s : AudioSDWriter_F32) (msg : String) : Quiet s (s.println msg) := by
  cases hp : s.serial_ptr <;> simp [Quiet, println, initCount, hp]

/-- Logging any call other than `init()` on the sink is quiet. -/
theorem quiet_call (s : AudioSDWriter_F32) (b : BufferedSDWriter) (c : SinkCall)
    (hb : s.buffSDWriter = some b) (hc : isInit c = false) :
    Quiet s { s with buffSDWriter := some (b.call c) } := by
  simp [Quiet, initCount, hb, BufferedSDWriter.call, hc]

theorem quiet_openAsWAV (s : AudioSDWriter_F32) (fname : List Char) (ret : Bool) :
    Quiet s (s.openAsWAV fname ret).2 := by
  cases hb : s.buffSDWriter with
  | none => simp [openAsWAV, hb, Quiet.refl]
  | some b => simpa [openAsWAV, hb] using quiet_call s b (SinkCall.openAsWAV fname ret) hb rfl

theorem quiet_close (s : AudioSDWriter_F32) (ret : Int) : Quiet s (s.close ret).2 := by
  cases hb : s.buffSDWriter with
  | none => simp [close, hb, Quiet.refl]
  | some b => simpa [close, hb] using quiet_call s b (SinkCall.close ret) hb rfl

theorem quiet_resetBuffer (s : AudioSDWriter_F32) : Quiet s s.resetBuffer := by
  cases hb : s.buffSDWriter with
  | none => simp [resetBuffer, hb, Quiet.refl]
  | some b => simpa [resetBuffer, hb] using quiet_call s b SinkCall.resetBuffer hb rfl

/-- Moving to `STOPPED` or `RECORDING` is quiet. -/
theorem quiet_setState (s : AudioSDWriter_F32) (st : STATE) (h : st ≠ STATE.UNPREPARED) :
    Quiet s { s with current_SD_state := st } := by
  simp [Quiet, initCount, h]

theorem quiet_stopRecording (s : AudioSDWriter_F32) (c : Int) :
    Quiet s (s.stopRecording c) := by
  unfold stopRecording
  split
  · exact ((quiet_close s c).trans (quiet_setState _ _ (by decide))).trans
      (quiet_resetBuffer _)
  · exact Quiet.refl s

theorem quiet_startRecording_fname (s : AudioSDWriter_F32) (fname : List Char) (o : Bool)
    (now : Nat) : Quiet s (s.startRecording_fname fname o now).2 := by
  unfold startRecording_fname
  split
  · split
    · next s1 heq =>
      have h1 : Quiet s s1 := by
        have := quiet_openAsWAV s fname o
        rwa [heq] at this
      refine h1.trans ?_
      refine (quiet_print s1 "AudioSDWriter: Opened ").trans ?_
      refine (quiet_println _ (String.mk fname)).trans ?_
      refine (quiet_resetBuffer _).trans ?_
      refine (quiet_setState _ STATE.RECORDING (by decide)).trans ?_
      simp [setStartTimeMillis, Quiet, initCount]
    · next s1 heq =>
      have h1 : Quiet s s1 := by
        have := quiet_openAsWAV s fname o
        rwa [heq] at this
      exact (h1.trans (quiet_print s1 "AudioSDWriter: start: Failed to open ")).trans
        (quiet_println _ (String.mk fname))
  · exact quiet_println _ _

theorem initOnce_prepareSDforRecording (s : AudioSDWriter_F32) (h : InitOnce s) :
    InitOnce s.prepareSDforRecording := by
  by_cases hs : s.current_SD_state = STATE.UNPREPARED
  · have h0 := h.1 hs
    cases hb : s.buffSDWriter <;>
      simp_all [InitOnce, prepareSDforRecording, initCount, PRINT_FULL_SD_TIMING,
        BufferedSDWriter.call, isInit]
  · simpa [prepareSDforRecording, hs] using h

theorem initOnce_startRecording (s : AudioSDWriter_F32) (o : Bool) (now : Nat)
    (h : InitOnce s) : InitOnce (s.startRecording o now).2 := by
  have h1 : InitOnce
      (if s.current_SD_state = STATE.UNPREPARED then s.prepareSDforRecording else s) := by
    split
    · exact initOnce_prepareSDforRecording s h
    · exact h
  revert h1
  unfold startRecording
  generalize (if s.current_SD_state = STATE.UNPREPARED then s.prepareSDforRecording else s) = s1
  intro h1
  have hq : Quiet s1 { s1 with recording_count := int32 (s1.recording_count + 1) } := by
    simp [Quiet, initCount]
  simp only
  split
  · split
    · exact h1.of_quiet (hq.trans (quiet_startRecording_fname _ _ _ _))
    · exact h1.of_quiet (hq.trans (quiet_println _ _))
  · exact h1.of_quiet (quiet_println _ _)

theorem quiet_setWriteDataType (s : AudioSDWriter_F32) (ty : WriteDataType)
    (p : Option Print) (n : Int) (c : Int) : Quiet s (s.setWriteDataType ty p n c) := by
  unfold setWriteDataType
  refine (quiet_stopRecording s c).trans ?_
  generalize s.stopRecording c = s1
  cases hb : s1.buffSDWriter <;> simp [Quiet, initCount, hb]

theorem initOnce_constructed (s : AudioSDWriter_F32) (h : Constructed s) : InitOnce s := by
  rcases h with ⟨d, rfl⟩ | ⟨fs, d, r, rfl⟩ | ⟨fs, p, d, r, rfl⟩ | ⟨fs, p, n, r, rfl⟩
  · exact initOnce_new d
  · simp [InitOnce, initCount, new_settings, setup, setWriteDataType, stopRecording,
      setSampleRate_Hz, BufferedSDWriter.call, isInit]
  · simp [InitOnce, initCount, new_settings_serial, setup_serial, setSerial,
      setWriteDataType, stopRecording, setSampleRate_Hz, BufferedSDWriter.call, isInit]
  · simp [InitOnce, initCount, new_settings_serial_size, setup_serial_size, setSerial,
      setWriteDataType, stopRecording, setSampleRate_Hz, BufferedSDWriter.call, isInit]

theorem initOnce_step (s : AudioSDWriter_F32) (op : Op) (h : InitOnce s) :
    InitOnce (s.step op) := by
  cases op with
  | setup d c => exact h.of_quiet (quiet_setWriteDataType _ _ _ _ _)
  | setup_serial p d c =>
    refine h.of_quiet (Quiet.trans ?_ (quiet_setWriteDataType _ _ _ _ _))
    simp [Quiet, setSerial, initCount]
  | setup_serial_size p n c =>
    refine h.of_quiet (Quiet.trans ?_ (quiet_setWriteDataType _ _ _ _ _))
    simp [Quiet, setSerial, initCount]
  | setSerial p => exact h.of_quiet (by simp [Quiet, step, setSerial, initCount])
  | setWriteDataType_type t d p n c =>
    exact h.of_quiet (by
      simp only [step, setWriteDataType_type]
      exact quiet_setWriteDataType _ _ _ _ _)
  | setWriteDataType t p n c => exact h.of_quiet (quiet_setWriteDataType _ _ _ _ _)
  | setWriteSizeBytes n =>
    refine h.of_quiet ?_
    cases hb : s.buffSDWriter with
    | none => simp [step, setWriteSizeBytes, hb, Quiet.refl]
    | some b =>
      simpa [step, setWriteSizeBytes, hb] using quiet_call s b (SinkCall.setWriteSizeBytes n) hb rfl
  | setNumWriteChannels n r =>
    refine h.of_quiet ?_
    cases hb : s.buffSDWriter with
    | none => simp [step, setNumWriteChannels, hb, Quiet.refl]
    | some b =>
      simpa [step, setNumWriteChannels, hb] using quiet_call s b (SinkCall.setNChanWAV n r) hb rfl
  | setSampleRate_Hz f r =>
    refine h.of_quiet ?_
    cases hb : s.buffSDWriter with
    | none => simp [step, setSampleRate_Hz, hb, Quiet.refl]
    | some b =>
      simpa [step, setSampleRate_Hz, hb] using
        quiet_call s b (SinkCall.setSampleRateWAV f r) hb rfl
  | prepareSDforRecording => exact initOnce_prepareSDforRecording s h
  | startRecording o t => exact initOnce_startRecording s o t h
  | startRecording_fname f o t => exact h.of_quiet (quiet_startRecording_fname _ _ _ _)
  | stopRecording c => exact h.of_quiet (quiet_stopRecording _ _)
  | update rx =>
    refine h.of_quiet ?_
    simp only [step, update]
    split
    · cases hb : s.buffSDWriter with
      | none => simp [Quiet.refl]
      | some b =>
        simpa using quiet_call s b (SinkCall.copyToWriteBuffer
          ((List.range s.numWriteChannels.toNat).map rx) s.numWriteChannels) hb rfl
    · exact Quiet.refl s
  | serviceSD r =>
    refine h.of_quiet ?_
    cases hb : s.buffSDWriter with
    | none => simp [step, serviceSD, hb, Quiet.refl]
    | some b =>
      simpa [step, serviceSD, hb] using quiet_call s b (SinkCall.writeBufferedData r) hb rfl
  | resetNBlocksWritten =>
    refine h.of_quiet ?_
    cases hb : s.buffSDWriter with
    | none => simp [step, resetNBlocksWritten, hb, Quiet.refl]
    | some b =>
      simpa [step, resetNBlocksWritten, hb] using quiet_call s b SinkCall.resetNBlocksWritten hb rfl
  | setStartTimeMillis t =>
    exact h.of_quiet (by simp [Quiet, step, setStartTimeMillis, initCount])

theorem initOnce_run (ops : List Op) :
    ∀ s : AudioSDWriter_F32, InitOnce s → InitOnce (s.run ops) := by
  induction ops with
  | nil => intro s h; simpa [run] using h
  | cons op ops ih =>
    intro s h
    simpa [run] using ih (s.step op) (initOnce_step s op h)

end AudioSDWriter_F32

/-! ## Claims -/

namespace AudioSDWriter_F32

/-- C1: in state `STOPPED`, with a sink whose `openAsWAV` answers true and an
incremented `recording_count` below 1000, `startRecording()` returns 0, ends in
`RECORDING`, has opened the derived file name and then called `resetBuffer`
on the sink, and has stored `millis()` in `t_start_millis`. -/
theorem startRecording_success (s : AudioSDWriter_F32) (b : BufferedSDWriter) (now : Nat)
    (hstate : s.current_SD_state = STATE.STOPPED)
    (hsink : s.buffSDWriter = some b)
    (hcount : int32 (s.recording_count + 1) < 1000) :
    (s.startRecording true now).1 = 0 ∧
    (s.startRecording true now).2.current_SD_state = STATE.RECORDING ∧
    (s.startRecording true now).2.buffSDWriter =
      some ((b.call (SinkCall.openAsWAV
        (fname_of_count (int32 (s.recording_count + 1))) true)).call SinkCall.resetBuffer) ∧
    (s.startRecording true now).2.t_start_millis = now ∧
    (s.startRecording true now).2.recording_count = int32 (s.recording_count + 1) := by
  simp [startRecording, startRecording_fname, openAsWAV, resetBuffer, print, println,
    setStartTimeMillis, hstate, hsink, hcount]
  cases s.serial_ptr <;> simp [hsink]

/-- Witness for C1 at `stopped5`. -/
theorem startRecording_success_witness :
    stopped5.current_SD_state = STATE.STOPPED ∧
    stopped5.buffSDWriter = some ⟨some Print.Serial, 512, [SinkCall.init]⟩ ∧
    int32 (stopped5.recording_count + 1) < 1000 ∧
    (stopped5.startRecording true 77).1 = 0 ∧
    (stopped5.startRecording true 77).2.current_SD_state = STATE.RECORDING ∧
    (stopped5.startRecording true 77).2.buffSDWriter =
      some ((BufferedSDWriter.call ⟨some Print.Serial, 512, [SinkCall.init]⟩
        (SinkCall.openAsWAV (fname_of_count (int32 (stopped5.recording_count + 1))) true)).call
          SinkCall.resetBuffer) ∧
    (stopped5.startRecording true 77).2.t_start_millis = 77 ∧
    (stopped5.startRecording true 77).2.recording_count =
      int32 (stopped5.recording_count + 1) :=
  ⟨by decide, by decide, by decide,
    startRecording_success stopped5 ⟨some Print.Serial, 512, [SinkCall.init]⟩ 77
      (by decide) (by decide) (by decide)⟩

/-- C2 (what the code does): at the ceiling, that is on the controller reached
by 999 auto-named sessions from construction and on `stopped999`,
`startRecording()` leaves the state `STOPPED`, opens no file, and returns 0,
the value it also returns on success. -/
theorem startRecording_ceiling_returns_zero :
    ((((AudioSDWriter_F32.new 512).autoSessions
        (List.replicate 999 (0, 0))).startRecording true 0).1 = 0 ∧
      (((AudioSDWriter_F32.new 512).autoSessions
        (List.replicate 999 (0, 0))).startRecording true 0).2.current_SD_state
          = STATE.STOPPED) ∧
    (stopped999.current_SD_state = STATE.STOPPED ∧
      1000 ≤ int32 (stopped999.recording_count + 1) ∧
      (stopped999.startRecording true 0).1 = 0 ∧
      (stopped999.startRecording true 0).2.current_SD_state = STATE.STOPPED ∧
      (stopped999.startRecording true 0).2.buffSDWriter = stopped999.buffSDWriter) := by
  constructor
  · have hlen : (List.replicate 999 ((0 : Nat), (0 : Int))).length = 999 :=
      List.length_replicate _ _
    have h := betweenSessions_autoSessions (List.replicate 999 (0, 0)) _ 0
      (betweenSessions_new 512) (by rw [hlen])
    rw [hlen] at h
    have h2 := betweenSessions_ceiling _ true 0 h
    exact ⟨h2.1, h2.2.1⟩
  · decide

/-- C3: starting from a freshly constructed controller and running auto-named
start/stop sessions in which every open succeeds, the `startRecording()` call
that follows fewer than 999 completed sessions returns 0 and enters
`RECORDING`, and the one that follows 999 completed sessions (the 1000th call)
stays in `STOPPED` and makes no call on the sink. -/
theorem startRecording_exhausts_at_1000th (s0 : AudioSDWriter_F32) (xs : List (Nat × Int))
    (now : Nat) (h0 : Constructed s0) :
    (xs.length < 999 →
      ((s0.autoSessions xs).startRecording true now).1 = 0 ∧
      ((s0.autoSessions xs).startRecording true now).2.current_SD_state = STATE.RECORDING) ∧
    (xs.length = 999 →
      ((s0.autoSessions xs).startRecording true now).2.current_SD_state = STATE.STOPPED ∧
      ((s0.autoSessions xs).startRecording true now).2.buffSDWriter
        = (s0.autoSessions xs).buffSDWriter) := by
  constructor
  · intro hlen
    have h := betweenSessions_autoSessions xs s0 0 (betweenSessions_constructed s0 h0)
      (by omega)
    have h2 := betweenSessions_start _ _ now h (by omega)
    exact ⟨h2.1, h2.2.1⟩
  · intro hlen
    have h := betweenSessions_autoSessions xs s0 0 (betweenSessions_constructed s0 h0)
      (by omega)
    simp only [hlen] at h
    have h2 := betweenSessions_ceiling _ true now h
    exact ⟨h2.2.1, h2.2.2⟩

/-- Witness for C3: the first call on a fresh controller, and the call after
999 sessions. -/
theorem startRecording_exhausts_at_1000th_witness :
    Constructed fresh ∧
    ((([] : List (Nat × Int)).length < 999) ∧
      ((fresh.autoSessions []).startRecording true 7).1 = 0 ∧
      ((fresh.autoSessions []).startRecording true 7).2.current_SD_state = STATE.RECORDING) ∧
    ((List.replicate 999 ((3 : Nat), (0 : Int))).length = 999 ∧
      ((fresh.autoSessions (List.replicate 999 (3, 0))).startRecording true 7).2.current_SD_state
        = STATE.STOPPED ∧
      ((fresh.autoSessions (List.replicate 999 (3, 0))).startRecording true 7).2.buffSDWriter
        = (fresh.autoSessions (List.replicate 999 (3, 0))).buffSDWriter) :=
  ⟨Or.inl ⟨512, rfl⟩,
    ⟨by decide,
      (startRecording_exhausts_at_1000th fresh [] 7 (Or.inl ⟨512, rfl⟩)).1 (by decide)⟩,
    ⟨List.length_replicate _ _,
      (startRecording_exhausts_at_1000th fresh (List.replicate 999 (3, 0)) 7
        (Or.inl ⟨512, rfl⟩)).2 (List.length_replicate _ _)⟩⟩

/-- C4: in state `RECORDING` both `startRecording()` and `startRecording(name)`
return -1 and change nothing but the text printed: the state stays `RECORDING`,
`recording_count` and the sink (its call history: no open, close or buffer
reset) are as before. -/
theorem startRecording_while_recording (s : AudioSDWriter_F32) (fname : List Char)
    (openRet : Bool) (now : Nat) (h : s.current_SD_state = STATE.RECORDING) :
    ((s.startRecording openRet now).1 = -1 ∧
      (s.startRecording openRet now).2.current_SD_state = STATE.RECORDING ∧
      (s.startRecording openRet now).2.recording_count = s.recording_count ∧
      (s.startRecording openRet now).2.buffSDWriter = s.buffSDWriter ∧
      (s.startRecording openRet now).2 =
        { s with serial_out := (s.startRecording openRet now).2.serial_out }) ∧
    ((s.startRecording_fname fname openRet now).1 = -1 ∧
      (s.startRecording_fname fname openRet now).2.current_SD_state = STATE.RECORDING ∧
      (s.startRecording_fname fname openRet now).2.recording_count = s.recording_count ∧
      (s.startRecording_fname fname openRet now).2.buffSDWriter = s.buffSDWriter ∧
      (s.startRecording_fname fname openRet now).2 =
        { s with serial_out := (s.startRecording_fname fname openRet now).2.serial_out }) := by
  obtain ⟨st, wd, rc, nw, bs, sp, ts, so⟩ := s
  simp only at h
  subst h
  cases sp <;> simp [startRecording, startRecording_fname, println]

/-- Witness for C4 at `recording1`. -/
theorem startRecording_while_recording_witness :
    recording1.current_SD_state = STATE.RECORDING ∧
    ((recording1.startRecording true 9).1 = -1 ∧
      (recording1.startRecording true 9).2.current_SD_state = STATE.RECORDING ∧
      (recording1.startRecording true 9).2.recording_count = recording1.recording_count ∧
      (recording1.startRecording true 9).2.buffSDWriter = recording1.buffSDWriter ∧
      (recording1.startRecording true 9).2 =
        { recording1 with serial_out := (recording1.startRecording true 9).2.serial_out }) ∧
    ((recording1.startRecording_fname "REC.WAV".toList true 9).1 = -1 ∧
      (recording1.startRecording_fname "REC.WAV".toList true 9).2.current_SD_state
        = STATE.RECORDING ∧
      (recording1.startRecording_fname "REC.WAV".toList true 9).2.recording_count
        = recording1.recording_count ∧
      (recording1.startRecording_fname "REC.WAV".toList true 9).2.buffSDWriter
        = recording1.buffSDWriter ∧
      (recording1.startRecording_fname "REC.WAV".toList true 9).2 =
        { recording1 with
          serial_out := (recording1.startRecording_fname "REC.WAV".toList true 9).2.serial_out }) :=
  ⟨by decide, startRecording_while_recording recording1 "REC.WAV".toList true 9 (by decide)⟩

/-- C5: `stopRecording()` in state `RECORDING` calls `close` and then
`resetBuffer` on the sink and sets the state to `STOPPED`, leaving every other
field alone; in state `UNPREPARED` or `STOPPED` it returns the controller
unchanged (so the sink sees neither `close` nor `resetBuffer`). -/
theorem stopRecording_spec (s : AudioSDWriter_F32) (closeRet : Int) :
    (s.current_SD_state = STATE.RECORDING → ∀ b, s.buffSDWriter = some b →
      s.stopRecording closeRet =
        { s with
          current_SD_state := STATE.STOPPED
          buffSDWriter := some ((b.call (SinkCall.close closeRet)).call SinkCall.resetBuffer) }) ∧
    (s.current_SD_state ≠ STATE.RECORDING → s.stopRecording closeRet = s) := by
  constructor
  · intro h b hb
    simp [stopRecording, close, resetBuffer, h, hb]
  · intro h
    simp [stopRecording, h]

/-- Witness for C5 at `recording1` (recording), `stopped5` (stopped) and
`fresh` (unprepared). -/
theorem stopRecording_spec_witness :
    (recording1.current_SD_state = STATE.RECORDING ∧
      recording1.stopRecording 0 =
        { recording1 with
          current_SD_state := STATE.STOPPED
          buffSDWriter := some ((BufferedSDWriter.call ⟨some Print.Serial, 512,
            [SinkCall.resetBuffer, SinkCall.openAsWAV "AUDIO001.WAV".toList true, SinkCall.init]⟩
            (SinkCall.close 0)).call SinkCall.resetBuffer) }) ∧
    (stopped5.current_SD_state ≠ STATE.RECORDING ∧ stopped5.stopRecording 0 = stopped5) ∧
    (fresh.current_SD_state ≠ STATE.RECORDING ∧ fresh.stopRecording 0 = fresh) :=
  ⟨⟨by decide, (stopRecording_spec recording1 0).1 (by decide) _ (by decide)⟩,
    ⟨by decide, (stopRecording_spec stopped5 0).2 (by decide)⟩,
    ⟨by decide, (stopRecording_spec fresh 0).2 (by decide)⟩⟩

/-- C6, counterexample: `stopRecording()` on a freshly constructed controller,
and also right after a `startRecording(name)` that failed on it, leaves the
state `UNPREPARED`, not `STOPPED`. -/
theorem stopRecording_unprepared_not_stopped :
    (fresh.stopRecording 0).current_SD_state ≠ STATE.STOPPED ∧
    (fresh.startRecording_fname "REC.WAV".toList true 0).1 = -1 ∧
    ((fresh.startRecording_fname "REC.WAV".toList true 0).2.stopRecording 0).current_SD_state
      ≠ STATE.STOPPED := by
  decide

/-- C6, amended: after `stopRecording()` the state is `STOPPED` when it was
`STOPPED` or `RECORDING`, and `UNPREPARED` when it was `UNPREPARED`; after an
auto-named `startRecording()`, failed or not, `stopRecording()` always leaves
`STOPPED`. -/
theorem stopRecording_final_state (s : AudioSDWriter_F32) (openRet : Bool) (now : Nat)
    (closeRet : Int) :
    (s.stopRecording closeRet).current_SD_state =
      (if s.current_SD_state = STATE.UNPREPARED then STATE.UNPREPARED else STATE.STOPPED) ∧
    ((s.startRecording openRet now).2.stopRecording closeRet).current_SD_state
      = STATE.STOPPED := by
  constructor
  · cases hb : s.buffSDWriter <;> cases hs : s.current_SD_state <;>
      simp [stopRecording, close, resetBuffer, hs, hb]
  · cases hb : s.buffSDWriter <;> cases hs : s.current_SD_state <;>
      cases hp : s.serial_ptr <;> cases openRet <;>
      by_cases hc : int32 (s.recording_count + 1) < 1000 <;>
      simp [stopRecording, close, resetBuffer, startRecording, startRecording_fname,
        prepareSDforRecording, openAsWAV, print, println, setStartTimeMillis,
        PRINT_FULL_SD_TIMING, hs, hb, hp, hc]

/-- C7: `prepareSDforRecording()` in state `UNPREPARED` calls `init()` on the
sink and moves to `STOPPED`, touching nothing else; in `STOPPED` or
`RECORDING` it returns the controller unchanged, so calling it twice equals
calling it once; and after any sequence of public operations on a constructed
controller the sink has received at most one `init()`. -/
theorem prepareSDforRecording_spec (s : AudioSDWriter_F32) :
    (s.current_SD_state = STATE.UNPREPARED →
      s.prepareSDforRecording.current_SD_state = STATE.STOPPED ∧
      ∀ b, s.buffSDWriter = some b →
        s.prepareSDforRecording =
          { s with
            current_SD_state := STATE.STOPPED
            buffSDWriter := some (b.call SinkCall.init) }) ∧
    (s.current_SD_state ≠ STATE.UNPREPARED → s.prepareSDforRecording = s) ∧
    s.prepareSDforRecording.prepareSDforRecording = s.prepareSDforRecording ∧
    (∀ (s0 : AudioSDWriter_F32) (ops : List Op), Constructed s0 →
      (s0.run ops).initCount ≤ 1) := by
  refine ⟨?_, ?_, ?_, ?_⟩
  · intro h
    constructor
    · cases hb : s.buffSDWriter <;> simp [prepareSDforRecording, h, hb]
    · intro b hb
      simp [prepareSDforRecording, h, hb, PRINT_FULL_SD_TIMING]
  · intro h
    simp [prepareSDforRecording, h]
  · cases hb : s.buffSDWriter <;> cases hs : s.current_SD_state <;>
      simp [prepareSDforRecording, hb, hs]
  · intro s0 ops h0
    exact (initOnce_run ops s0 (initOnce_constructed s0 h0)).2

/-- Witness for C7 at `fresh` (unprepared) and `stopped5` (prepared). -/
theorem prepareSDforRecording_spec_witness :
    (fresh.current_SD_state = STATE.UNPREPARED ∧
      fresh.prepareSDforRecording.current_SD_state = STATE.STOPPED ∧
      fresh.prepareSDforRecording =
        { fresh with
          current_SD_state := STATE.STOPPED
          buffSDWriter :=
            some (BufferedSDWriter.call ⟨some Print.Serial, 512, []⟩ SinkCall.init) }) ∧
    (stopped5.current_SD_state ≠ STATE.UNPREPARED ∧ stopped5.prepareSDforRecording = stopped5) ∧
    (Constructed fresh ∧
      (fresh.run [Op.prepareSDforRecording, Op.startRecording true 0, Op.stopRecording 0,
        Op.prepareSDforRecording, Op.startRecording_fname "REC.WAV".toList true 9]).initCount
          ≤ 1) :=
  ⟨⟨by decide, ((prepareSDforRecording_spec fresh).1 (by decide)).1,
      ((prepareSDforRecording_spec fresh).1 (by decide)).2 _ (by decide)⟩,
    ⟨by decide, (prepareSDforRecording_spec stopped5).2.1 (by decide)⟩,
    ⟨Or.inl ⟨512, rfl⟩,
      (prepareSDforRecording_spec fresh).2.2.2 fresh _ (Or.inl ⟨512, rfl⟩)⟩⟩

/-- C8 (what the code does): on a freshly constructed controller, with a sink
whose open would succeed, `startRecording(name)` returns -1, stays
`UNPREPARED` and makes no call on the sink, while `startRecording()` on the
same controller initialises the medium, returns 0 and enters `RECORDING`. -/
theorem startRecording_fname_does_not_prepare :
    fresh.current_SD_state = STATE.UNPREPARED ∧
    (fresh.startRecording_fname "REC.WAV".toList true 0).1 = -1 ∧
    (fresh.startRecording_fname "REC.WAV".toList true 0).2.current_SD_state
      = STATE.UNPREPARED ∧
    (fresh.startRecording_fname "REC.WAV".toList true 0).2.buffSDWriter = fresh.buffSDWriter ∧
    (fresh.startRecording true 0).1 = 0 ∧
    (fresh.startRecording true 0).2.current_SD_state = STATE.RECORDING ∧
    (fresh.startRecording true 0).2.initCount = 1 := by
  decide

/-- C9: in state `STOPPED`, when the open fails (the sink answers false, or
there is no sink), `startRecording(name)` returns -1, stays `STOPPED`, leaves
`t_start_millis` alone and makes no call on the sink but the failed
`openAsWAV`; the same holds for `startRecording()` whenever it requests a file
(the incremented `recording_count` is below 1000). -/
theorem startRecording_open_fails (s : AudioSDWriter_F32) (fname : List Char)
    (openRet : Bool) (now : Nat)
    (hstate : s.current_SD_state = STATE.STOPPED)
    (hopen : s.buffSDWriter = none ∨ openRet = false) :
    ((s.startRecording_fname fname openRet now).1 = -1 ∧
      (s.startRecording_fname fname openRet now).2.current_SD_state = STATE.STOPPED ∧
      (s.startRecording_fname fname openRet now).2.t_start_millis = s.t_start_millis ∧
      (s.startRecording_fname fname openRet now).2.buffSDWriter =
        s.buffSDWriter.map (fun b => b.call (SinkCall.openAsWAV fname false))) ∧
    (int32 (s.recording_count + 1) < 1000 →
      (s.startRecording openRet now).1 = -1 ∧
      (s.startRecording openRet now).2.current_SD_state = STATE.STOPPED ∧
      (s.startRecording openRet now).2.t_start_millis = s.t_start_millis ∧
      (s.startRecording openRet now).2.buffSDWriter =
        s.buffSDWriter.map (fun b => b.call (SinkCall.openAsWAV
          (fname_of_count (int32 (s.recording_count + 1))) false))) := by
  obtain ⟨st, wd, rc, nw, bs, sp, ts, so⟩ := s
  simp only at hstate hopen
  subst hstate
  constructor
  · cases bs <;> cases sp <;> cases openRet <;>
      simp_all [startRecording_fname, openAsWAV, print, println]
  · intro hc
    simp only at hc
    cases bs <;> cases sp <;> cases openRet <;>
      simp_all [startRecording, startRecording_fname, openAsWAV, print, println]

/-- Witness for C9 at `stopped5` with a sink that refuses the open. -/
theorem startRecording_open_fails_witness :
    stopped5.current_SD_state = STATE.STOPPED ∧
    ((stopped5.startRecording_fname "REC.WAV".toList false 3).1 = -1 ∧
      (stopped5.startRecording_fname "REC.WAV".toList false 3).2.current_SD_state
        = STATE.STOPPED ∧
      (stopped5.startRecording_fname "REC.WAV".toList false 3).2.t_start_millis
        = stopped5.t_start_millis ∧
      (stopped5.startRecording_fname "REC.WAV".toList false 3).2.buffSDWriter =
        stopped5.buffSDWriter.map
          (fun b => b.call (SinkCall.openAsWAV "REC.WAV".toList false))) ∧
    (int32 (stopped5.recording_count + 1) < 1000 ∧
      (stopped5.startRecording false 3).1 = -1 ∧
      (stopped5.startRecording false 3).2.current_SD_state = STATE.STOPPED ∧
      (stopped5.startRecording false 3).2.t_start_millis = stopped5.t_start_millis ∧
      (stopped5.startRecording false 3).2.buffSDWriter =
        stopped5.buffSDWriter.map (fun b => b.call (SinkCall.openAsWAV
          (fname_of_count (int32 (stopped5.recording_count + 1))) false))) :=
  ⟨by decide,
    (startRecording_open_fails stopped5 "REC.WAV".toList false 3 (by decide) (Or.inr rfl)).1,
    by decide,
    (startRecording_open_fails stopped5 "REC.WAV".toList false 3 (by decide) (Or.inr rfl)).2
      (by decide)⟩

/-- C10, counterexample: from `stopped5` with a sink that refuses the open,
`startRecording()` returns -1 and `recording_count` has gone from 5 to 6. -/
theorem startRecording_failure_changes_count :
    (stopped5.startRecording false 0).1 = -1 ∧
    stopped5.recording_count = 5 ∧
    (stopped5.startRecording false 0).2.recording_count = 6 ∧
    (stopped5.startRecording false 0).2.recording_count ≠ stopped5.recording_count := by
  decide

/-- C10, amended: when `startRecording()` returns a non-zero value, the data
type, channel count, serial target and start timestamp are as before; if the
state was `RECORDING`, so are the state, `recording_count` and the sink;
otherwise the open failed: the state is `STOPPED`, the sink has seen (after
`init()` when the call started in `UNPREPARED`) only the failed `openAsWAV`,
and `recording_count` has been incremented. -/
theorem startRecording_failure_frame (s : AudioSDWriter_F32) (openRet : Bool) (now : Nat)
    (hfail : (s.startRecording openRet now).1 ≠ 0) :
    (s.startRecording openRet now).2.writeDataType = s.writeDataType ∧
    (s.startRecording openRet now).2.numWriteChannels = s.numWriteChannels ∧
    (s.startRecording openRet now).2.serial_ptr = s.serial_ptr ∧
    (s.startRecording openRet now).2.t_start_millis = s.t_start_millis ∧
    (s.current_SD_state = STATE.RECORDING →
      (s.startRecording openRet now).2.current_SD_state = STATE.RECORDING ∧
      (s.startRecording openRet now).2.recording_count = s.recording_count ∧
      (s.startRecording openRet now).2.buffSDWriter = s.buffSDWriter) ∧
    (s.current_SD_state ≠ STATE.RECORDING →
      (s.startRecording openRet now).2.current_SD_state = STATE.STOPPED ∧
      (s.startRecording openRet now).2.recording_count = int32 (s.recording_count + 1) ∧
      (s.startRecording openRet now).2.buffSDWriter =
        s.prepareSDforRecording.buffSDWriter.map (fun b => b.call (SinkCall.openAsWAV
          (fname_of_count (int32 (s.recording_count + 1))) false))) := by
  obtain ⟨st, wd, rc, nw, bs, sp, ts, so⟩ := s
  revert hfail
  by_cases hc : int32 (rc + 1) < 1000 <;>
    cases st <;> cases bs <;> cases sp <;> cases openRet <;>
    simp [startRecording, startRecording_fname, prepareSDforRecording, openAsWAV, print,
      println, resetBuffer, setStartTimeMillis, PRINT_FULL_SD_TIMING, hc]

/-- Witness for C10, amended, at `stopped5` (open refused) and `recording1`. -/
theorem startRecording_failure_frame_witness :
    ((stopped5.startRecording false 0).1 ≠ 0 ∧
      (stopped5.startRecording false 0).2.current_SD_state = STATE.STOPPED ∧
      (stopped5.startRecording false 0).2.recording_count
        = int32 (stopped5.recording_count + 1) ∧
      (stopped5.startRecording false 0).2.t_start_millis = stopped5.t_start_millis) ∧
    ((recording1.startRecording true 0).1 ≠ 0 ∧
      (recording1.startRecording true 0).2.current_SD_state = STATE.RECORDING ∧
      (recording1.startRecording true 0).2.recording_count = recording1.recording_count ∧
      (recording1.startRecording true 0).2.buffSDWriter = recording1.buffSDWriter) :=
  ⟨⟨by decide,
      ((startRecording_failure_frame stopped5 false 0 (by decide)).2.2.2.2.2 (by decide)).1,
      ((startRecording_failure_frame stopped5 false 0 (by decide)).2.2.2.2.2 (by decide)).2.1,
      (startRecording_failure_frame stopped5 false 0 (by decide)).2.2.2.1⟩,
    ⟨by decide,
      (startRecording_failure_frame recording1 true 0 (by decide)).2.2.2.2.1 (by decide)⟩⟩

end AudioSDWriter_F32

/-! ## File names (C11) -/

namespace AudioSDWriter_F32

theorem tdiv_natCast (n m : Nat) : Int.tdiv (n : Int) (m : Int) = ((n / m : Nat) : Int) := rfl

theorem toChar_digit (d : Nat) (h : d ≤ 9) : toChar ((d : Int) + 48) = Char.ofNat (48 + d) := by
  unfold toChar
  have : (((d : Int) + 48) % 256).toNat = 48 + d := by omega
  rw [this]

theorem fname_of_count_digits (n : Nat) (h : n ≤ 999) :
    fname_of_count (n : Int) =
      "AUDIO".toList ++ [Char.ofNat (48 + n / 100), Char.ofNat (48 + n / 10 % 10),
        Char.ofNat (48 + n % 10)] ++ ".WAV".toList := by
  have h100 : Int.tdiv (n : Int) 100 = ((n / 100 : Nat) : Int) := tdiv_natCast n 100
  have e1 : (n : Int) - ((n / 100 : Nat) : Int) * 100 = ((n % 100 : Nat) : Int) := by omega
  have h10 : Int.tdiv ((n % 100 : Nat) : Int) 10 = ((n % 100 / 10 : Nat) : Int) :=
    tdiv_natCast (n % 100) 10
  have e2 : (n : Int) - ((n % 100 / 10 : Nat) : Int) * 10 - ((n / 100 : Nat) : Int) * 100
      = ((n % 10 : Nat) : Int) := by omega
  have e3 : n % 100 / 10 = n / 10 % 10 := by omega
  unfold fname_of_count
  simp only [h100, e1, h10, e2]
  rw [toChar_digit _ (by omega), toChar_digit _ (by omega), toChar_digit _ (by omega), e3]
  rfl

set_option maxRecDepth 100000 in
theorem fname_of_count_eq_deriveName_below :
    ∀ n : Nat, n < 1000 → fname_of_count (n : Int) = deriveName n := by
  decide

/-- C11: for every counter value `n` from 0 to 999 the name built by
`startRecording()` is `AUDIO`, then the characters of the hundreds, tens and
ones digits of `n`, then `.WAV`: 12 characters, equal to the specification's
zero-padded `deriveName n`; the three digit computations give the decimal
digits of `n`. -/
theorem fname_of_count_spec (n : Nat) (h : n ≤ 999) :
    fname_of_count (n : Int) =
      "AUDIO".toList ++ [Char.ofNat (48 + n / 100), Char.ofNat (48 + n / 10 % 10),
        Char.ofNat (48 + n % 10)] ++ ".WAV".toList ∧
    fname_of_count (n : Int) = deriveName n ∧
    (fname_of_count (n : Int)).length = 12 ∧
    (n / 100 ≤ 9 ∧ n / 10 % 10 ≤ 9 ∧ n % 10 ≤ 9 ∧
      n = 100 * (n / 100) + 10 * (n / 10 % 10) + n % 10) := by
  refine ⟨fname_of_count_digits n h, fname_of_count_eq_deriveName_below n (by omega), ?_, ?_⟩
  · rw [fname_of_count_digits n h]
    rfl
  · omega

/-- Witness for C11 at the counters 7 and 999. -/
theorem fname_of_count_spec_witness :
    ((7 : Nat) ≤ 999 ∧ fname_of_count ((7 : Nat) : Int) = deriveName 7 ∧
      deriveName 7 = "AUDIO007.WAV".toList) ∧
    ((999 : Nat) ≤ 999 ∧ fname_of_count ((999 : Nat) : Int) = deriveName 999 ∧
      deriveName 999 = "AUDIO999.WAV".toList) :=
  ⟨⟨by decide, (fname_of_count_spec 7 (by decide)).2.1, by decide⟩,
    ⟨by decide, (fname_of_count_spec 999 (by decide)).2.1, by decide⟩⟩

end AudioSDWriter_F32

/-! ## `update`, `serviceSD` and the two setters (C14, C15, C16) -/

namespace AudioSDWriter_F32

/-- C14: `update()` in state `RECORDING` hands the received blocks and
`numWriteChannels` to the sink's `copyToWriteBuffer` and changes nothing else;
in state `UNPREPARED` or `STOPPED` it returns the controller unchanged; in
every state the state and `recording_count` are as before and every received
block is released. -/
theorem update_spec (s : AudioSDWriter_F32)
    (receiveReadOnly_f32 : Nat → Option audio_block_f32_t) :
    (s.current_SD_state = STATE.RECORDING → ∀ b, s.buffSDWriter = some b →
      (s.update receiveReadOnly_f32).1 =
        { s with buffSDWriter := some (b.call (SinkCall.copyToWriteBuffer
            ((List.range s.numWriteChannels.toNat).map receiveReadOnly_f32)
            s.numWriteChannels)) }) ∧
    (s.current_SD_state ≠ STATE.RECORDING → (s.update receiveReadOnly_f32).1 = s) ∧
    (s.update receiveReadOnly_f32).1.current_SD_state = s.current_SD_state ∧
    (s.update receiveReadOnly_f32).1.recording_count = s.recording_count ∧
    (s.update receiveReadOnly_f32).2 =
      ((List.range s.numWriteChannels.toNat).map receiveReadOnly_f32).filterMap id := by
  refine ⟨?_, ?_, ?_, ?_, rfl⟩
  · intro h b hb
    simp [update, h, hb]
  · intro h
    simp [update, h]
  · cases hb : s.buffSDWriter <;> cases hs : s.current_SD_state <;> simp [update, hb, hs]
  · cases hb : s.buffSDWriter <;> cases hs : s.current_SD_state <;> simp [update, hb, hs]

/-- Witness for C14 at `recording1` and `stopped5`, with one block of two
samples on every channel. -/
theorem update_spec_witness :
    (recording1.current_SD_state = STATE.RECORDING ∧
      (recording1.update (fun _ => some ⟨[0, 0], 2⟩)).1 =
        { recording1 with buffSDWriter := some (BufferedSDWriter.call
            ⟨some Print.Serial, 512,
              [SinkCall.resetBuffer, SinkCall.openAsWAV "AUDIO001.WAV".toList true,
                SinkCall.init]⟩
            (SinkCall.copyToWriteBuffer
              ((List.range recording1.numWriteChannels.toNat).map
                (fun _ => some ⟨[0, 0], 2⟩))
              recording1.numWriteChannels)) }) ∧
    (stopped5.current_SD_state ≠ STATE.RECORDING ∧
      (stopped5.update (fun _ => some ⟨[0, 0], 2⟩)).1 = stopped5) :=
  ⟨⟨by decide, (update_spec recording1 _).1 (by decide) _ (by decide)⟩,
    ⟨by decide, (update_spec stopped5 _).2.1 (by decide)⟩⟩

/-- C15, counterexample: in state `STOPPED` (`stopped5`) and in state
`UNPREPARED` (`fresh`) `serviceSD()` calls `writeBufferedData()` on the sink. -/
theorem serviceSD_calls_sink_when_not_recording :
    (stopped5.current_SD_state = STATE.STOPPED ∧
      (stopped5.serviceSD 0).2.buffSDWriter =
        some ⟨some Print.Serial, 512, [SinkCall.writeBufferedData 0, SinkCall.init]⟩ ∧
      (stopped5.serviceSD 0).2.buffSDWriter ≠ stopped5.buffSDWriter) ∧
    (fresh.current_SD_state = STATE.UNPREPARED ∧
      (fresh.serviceSD 0).2.buffSDWriter =
        some ⟨some Print.Serial, 512, [SinkCall.writeBufferedData 0]⟩ ∧
      (fresh.serviceSD 0).2.buffSDWriter ≠ fresh.buffSDWriter) := by
  decide

/-- C15, amended: `serviceSD()` does not look at the state.  With a sink it
makes one `writeBufferedData()` call on it and returns the sink's answer,
whatever `current_SD_state` is; without a sink it returns 0 and changes
nothing.  No controller field other than the sink's call history changes. -/
theorem serviceSD_ignores_state (s : AudioSDWriter_F32) (ret : Int) :
    (∀ b, s.buffSDWriter = some b →
      s.serviceSD ret =
        (ret, { s with buffSDWriter := some (b.call (SinkCall.writeBufferedData ret)) })) ∧
    (s.buffSDWriter = none → s.serviceSD ret = (0, s)) ∧
    (s.serviceSD ret).2 = { s with buffSDWriter := (s.serviceSD ret).2.buffSDWriter } ∧
    (∀ st : STATE,
      ({ s with current_SD_state := st }.serviceSD ret).1 = (s.serviceSD ret).1 ∧
      ({ s with current_SD_state := st }.serviceSD ret).2.buffSDWriter
        = (s.serviceSD ret).2.buffSDWriter) := by
  refine ⟨?_, ?_, ?_, ?_⟩
  · intro b hb
    simp [serviceSD, hb]
  · intro hb
    simp [serviceSD, hb]
  · obtain ⟨st, wd, rc, nw, bs, sp, ts, so⟩ := s
    cases bs <;> simp [serviceSD]
  · intro st
    cases hb : s.buffSDWriter <;> simp [serviceSD, hb]

/-- Witness for C15, amended, at `stopped5`. -/
theorem serviceSD_ignores_state_witness :
    stopped5.buffSDWriter = some ⟨some Print.Serial, 512, [SinkCall.init]⟩ ∧
    stopped5.serviceSD 1 =
      (1, { stopped5 with buffSDWriter := some (BufferedSDWriter.call
        ⟨some Print.Serial, 512, [SinkCall.init]⟩ (SinkCall.writeBufferedData 1)) }) :=
  ⟨by decide, (serviceSD_ignores_state stopped5 1).1 _ (by decide)⟩

/-- C16, counterexample: while `recording1` is in state `RECORDING`,
`setNumWriteChannels(1)` and `setSampleRate_Hz(fs)` each pass their argument
on to the sink (`setNChanWAV(1)`, `setSampleRateWAV(fs)`). -/
theorem setters_forward_while_recording :
    recording1.current_SD_state = STATE.RECORDING ∧
    (recording1.setNumWriteChannels 1 1).2.buffSDWriter =
      some ⟨some Print.Serial, 512,
        [SinkCall.setNChanWAV 1 1, SinkCall.resetBuffer,
          SinkCall.openAsWAV "AUDIO001.WAV".toList true, SinkCall.init]⟩ ∧
    (recording1.setSampleRate_Hz 1194083328 1194083328).2.buffSDWriter =
      some ⟨some Print.Serial, 512,
        [SinkCall.setSampleRateWAV 1194083328 1194083328, SinkCall.resetBuffer,
          SinkCall.openAsWAV "AUDIO001.WAV".toList true, SinkCall.init]⟩ := by
  decide

/-- C16, amended: `setNumWriteChannels(n)` and `setSampleRate_Hz(fs)` make no
state check: in every state, `RECORDING` included, a controller with a sink
forwards the argument to `setNChanWAV` / `setSampleRateWAV` and returns the
sink's answer. -/
theorem setters_forward_in_every_state (s : AudioSDWriter_F32) (b : BufferedSDWriter)
    (n ret : Int) (fs_Hz fsRet : float32) (hb : s.buffSDWriter = some b) :
    (s.setNumWriteChannels n ret).1 = ret ∧
    (s.setNumWriteChannels n ret).2.buffSDWriter =
      some (b.call (SinkCall.setNChanWAV n ret)) ∧
    (s.setSampleRate_Hz fs_Hz fsRet).1 = fsRet ∧
    (s.setSampleRate_Hz fs_Hz fsRet).2.buffSDWriter =
      some (b.call (SinkCall.setSampleRateWAV fs_Hz fsRet)) := by
  simp [setNumWriteChannels, setSampleRate_Hz, hb]

/-- Witness for C16, amended, at `recording1`. -/
theorem setters_forward_in_every_state_witness :
    recording1.current_SD_state = STATE.RECORDING ∧
    recording1.buffSDWriter = some ⟨some Print.Serial, 512,
      [SinkCall.resetBuffer, SinkCall.openAsWAV "AUDIO001.WAV".toList true, SinkCall.init]⟩ ∧
    (recording1.setNumWriteChannels 1 1).1 = 1 ∧
    (recording1.setNumWriteChannels 1 1).2.buffSDWriter =
      some (BufferedSDWriter.call
        ⟨some Print.Serial, 512,
          [SinkCall.resetBuffer, SinkCall.openAsWAV "AUDIO001.WAV".toList true,
            SinkCall.init]⟩ (SinkCall.setNChanWAV 1 1)) ∧
    (recording1.setSampleRate_Hz 1194083328 1194083328).1 = 1194083328 ∧
    (recording1.setSampleRate_Hz 1194083328 1194083328).2.buffSDWriter =
      some (BufferedSDWriter.call
        ⟨some Print.Serial, 512,
          [SinkCall.resetBuffer, SinkCall.openAsWAV "AUDIO001.WAV".toList true,
            SinkCall.init]⟩ (SinkCall.setSampleRateWAV 1194083328 1194083328)) :=
  ⟨by decide, by decide,
    setters_forward_in_every_state recording1 _ 1 1 1194083328 1194083328 (by decide)⟩

end AudioSDWriter_F32

/-! ## The counter over long runs (C12, C13) -/

namespace AudioSDWriter_F32

set_option maxHeartbeats 1600000 in
theorem step_frame (s : AudioSDWriter_F32) (op : Op) :
    ((s.step op).current_SD_state = STATE.UNPREPARED → s.current_SD_state = STATE.UNPREPARED) ∧
    ((s.step op).recording_count = s.recording_count ∨
      ∃ o t, op = Op.startRecording o t ∧
        s.current_SD_state ≠ STATE.RECORDING ∧
        (s.step op).recording_count = int32 (s.recording_count + 1)) := by
  obtain ⟨st, wd, rc, nw, bs, sp, ts, so⟩ := s
  cases op
  case startRecording o t =>
    by_cases hc : int32 (rc + 1) < 1000 <;>
      cases st <;> cases bs <;> cases sp <;> cases o <;>
      simp [step, AudioSDWriter_F32.startRecording, AudioSDWriter_F32.startRecording_fname,
        AudioSDWriter_F32.prepareSDforRecording, AudioSDWriter_F32.openAsWAV,
        AudioSDWriter_F32.print, AudioSDWriter_F32.println, AudioSDWriter_F32.resetBuffer,
        AudioSDWriter_F32.setStartTimeMillis, PRINT_FULL_SD_TIMING, hc]
  case startRecording_fname f o t =>
    cases st <;> cases bs <;> cases sp <;> cases o <;>
      simp [step, AudioSDWriter_F32.startRecording_fname, AudioSDWriter_F32.openAsWAV,
        AudioSDWriter_F32.print, AudioSDWriter_F32.println, AudioSDWriter_F32.resetBuffer,
        AudioSDWriter_F32.setStartTimeMillis]
  all_goals
    cases st <;> cases bs <;> cases sp <;>
    simp [step, AudioSDWriter_F32.setup, AudioSDWriter_F32.setup_serial,
      AudioSDWriter_F32.setup_serial_size, AudioSDWriter_F32.setSerial,
      AudioSDWriter_F32.setWriteDataType_type, AudioSDWriter_F32.setWriteDataType,
      AudioSDWriter_F32.setWriteSizeBytes, AudioSDWriter_F32.setNumWriteChannels,
      AudioSDWriter_F32.setSampleRate_Hz, AudioSDWriter_F32.prepareSDforRecording,
      AudioSDWriter_F32.stopRecording, AudioSDWriter_F32.update, AudioSDWriter_F32.serviceSD,
      AudioSDWriter_F32.resetNBlocksWritten, AudioSDWriter_F32.setStartTimeMillis,
      AudioSDWriter_F32.close, AudioSDWriter_F32.resetBuffer, AudioSDWriter_F32.openAsWAV,
      AudioSDWriter_F32.print, AudioSDWriter_F32.println, PRINT_FULL_SD_TIMING]

theorem run_cons (s : AudioSDWriter_F32) (op : Op) (ops : List Op) :
    s.run (op :: ops) = (s.step op).run ops := rfl

theorem run_append (a b : List Op) (s : AudioSDWriter_F32) :
    s.run (a ++ b) = (s.run a).run b := by
  simp [run, List.foldl_append]

/-- What `startRecording()` does to a controller that is not `UNPREPARED`
once the incremented counter is 1000 or more: nothing but the increment and
the printed line. -/
theorem startRecording_at_or_above_ceiling (s : AudioSDWriter_F32) (o : Bool) (now : Nat)
    (hs : s.current_SD_state ≠ STATE.UNPREPARED) (hc : 1000 ≤ int32 (s.recording_count + 1)) :
    (s.startRecording o now).2.current_SD_state = s.current_SD_state ∧
    (s.startRecording o now).2.buffSDWriter = s.buffSDWriter ∧
    (s.current_SD_state = STATE.STOPPED →
      (s.startRecording o now).1 = 0 ∧
      (s.startRecording o now).2.recording_count = int32 (s.recording_count + 1)) := by
  obtain ⟨st, wd, rc, nw, bs, sp, ts, so⟩ := s
  have hc' : ¬ int32 (rc + 1) < 1000 := by simpa using hc
  cases st <;> cases sp <;>
    first
    | exact absurd rfl hs
    | simp [startRecording, println, hc']

theorem startRecording_refused_at_ceiling (s0 : AudioSDWriter_F32) (o : Bool) (now : Nat)
    (h0 : s0.current_SD_state ≠ STATE.RECORDING)
    (hceil : 1000 ≤ int32 (s0.recording_count + 1)) :
    (s0.startRecording o now).2.current_SD_state = STATE.STOPPED ∧
    (s0.startRecording o now).2.recording_count = int32 (s0.recording_count + 1) := by
  obtain ⟨st, wd, rc, nw, bs, sp, ts, so⟩ := s0
  have hc' : ¬ int32 (rc + 1) < 1000 := by simpa using hceil
  cases st <;> cases sp <;> cases bs <;>
    first
    | exact absurd rfl h0
    | simp [startRecording, prepareSDforRecording, println, hc']

theorem autoNames_startRecording (s : AudioSDWriter_F32) (o : Bool) (t : Nat) :
    (newCalls s (s.startRecording o t).2).filterMap openedName =
      if s.current_SD_state ≠ STATE.RECORDING ∧ int32 (s.recording_count + 1) < 1000 ∧
          s.buffSDWriter.isSome = true
      then [fname_of_count (int32 (s.recording_count + 1))] else [] := by
  obtain ⟨st, wd, rc, nw, bs, sp, ts, so⟩ := s
  have e1 : ∀ n : Nat, n + 1 - n = 1 := fun n => by omega
  have e2 : ∀ n : Nat, n + 1 + 1 - n = 2 := fun n => by omega
  have e3 : ∀ n : Nat, n + 1 + 1 + 1 - n = 3 := fun n => by omega
  by_cases hc : int32 (rc + 1) < 1000 <;>
    cases st <;> cases bs <;> cases sp <;> cases o <;>
    simp [newCalls, callsOf, openedName, startRecording, startRecording_fname,
      prepareSDforRecording, openAsWAV, print, println, resetBuffer, setStartTimeMillis,
      PRINT_FULL_SD_TIMING, BufferedSDWriter.call, hc, e1, e2, e3, List.take]

theorem startRecording_count (s : AudioSDWriter_F32) (o : Bool) (t : Nat) :
    (s.startRecording o t).2.recording_count =
      if s.current_SD_state = STATE.RECORDING then s.recording_count
      else int32 (s.recording_count + 1) := by
  obtain ⟨st, wd, rc, nw, bs, sp, ts, so⟩ := s
  by_cases hc : int32 (rc + 1) < 1000 <;>
    cases st <;> cases bs <;> cases sp <;> cases o <;>
    simp [startRecording, startRecording_fname,
      prepareSDforRecording, openAsWAV, print, println, resetBuffer, setStartTimeMillis,
      PRINT_FULL_SD_TIMING, hc]

theorem autoNames_cons_other (s : AudioSDWriter_F32) (op : Op) (ops : List Op)
    (h : ∀ o t, op ≠ Op.startRecording o t) :
    autoNames s (op :: ops) = autoNames (s.step op) ops := by
  cases op <;> first | rfl | exact absurd rfl (h _ _)

theorem digitChar_inj : ∀ a : Nat, a < 10 → ∀ b : Nat, b < 10 →
    Char.ofNat (48 + a) = Char.ofNat (48 + b) → a = b := by
  decide

theorem fname_of_count_inj (a b : Nat) (ha : a ≤ 999) (hb : b ≤ 999)
    (h : fname_of_count (a : Int) = fname_of_count (b : Int)) : a = b := by
  rw [fname_of_count_digits a ha, fname_of_count_digits b hb] at h
  simp only [List.append_assoc, List.append_cancel_left_eq, List.cons_append, List.nil_append,
    List.cons.injEq] at h
  obtain ⟨h1, h2, h3, _⟩ := h
  have d1 := digitChar_inj _ (by omega) _ (by omega) h1
  have d2 := digitChar_inj _ (by omega) _ (by omega) h2
  have d3 := digitChar_inj _ (by omega) _ (by omega) h3
  omega

theorem overflows_cons_start (s : AudioSDWriter_F32) (o : Bool) (t : Nat) (ops : List Op)
    (h : overflows s (Op.startRecording o t :: ops) = false) :
    (s.current_SD_state ≠ STATE.RECORDING → s.recording_count ≠ 2147483647) ∧
    overflows (s.startRecording o t).2 ops = false := by
  simp only [overflows, Bool.or_eq_false_iff, decide_eq_false_iff_not, not_and] at h
  exact ⟨h.1, h.2⟩

theorem overflows_cons_other (s : AudioSDWriter_F32) (op : Op) (ops : List Op)
    (hop : ∀ o t, op ≠ Op.startRecording o t)
    (h : overflows s (op :: ops) = false) : overflows (s.step op) ops = false := by
  simp only [overflows, Bool.or_eq_false_iff] at h
  exact h.2

theorem overflows_append (a : List Op) : ∀ (s : AudioSDWriter_F32) (b : List Op),
    overflows s (a ++ b) = (overflows s a || overflows (s.run a) b) := by
  induction a with
  | nil => intro s b; simp [overflows, run]
  | cons op a ih =>
    intro s b
    simp only [List.cons_append, overflows, run_cons, Bool.or_assoc]
    exact congrArg (_ || ·) (ih _ b)

theorem autoNames_counts_defined (ops : List Op) : ∀ (s : AudioSDWriter_F32) (c : Nat),
    s.recording_count = c → c ≤ 2147483647 → overflows s ops = false →
    ∃ counts : List Nat,
      autoNames s ops = counts.map (fun k : Nat => fname_of_count (k : Int)) ∧
      counts.Pairwise (· < ·) ∧ ∀ k ∈ counts, c < k ∧ k ≤ 999 := by
  induction ops with
  | nil => intro s c _ _ _; exact ⟨[], by simp [autoNames]⟩
  | cons op ops ih =>
    intro s c hc hb hno
    by_cases h : ∃ o t, op = Op.startRecording o t
    · obtain ⟨o, t, rfl⟩ := h
      obtain ⟨hno1, hno2⟩ := overflows_cons_start s o t ops hno
      have hcount := startRecording_count s o t
      have hnames := autoNames_startRecording s o t
      by_cases hrec : s.current_SD_state = STATE.RECORDING
      · rw [if_pos hrec, hc] at hcount
        rw [if_neg (by simp [hrec])] at hnames
        obtain ⟨counts, i1, i2, i3⟩ := ih (s.startRecording o t).2 c hcount hb hno2
        refine ⟨counts, ?_, i2, i3⟩
        simp only [autoNames, hnames, List.nil_append, i1]
      · have hne := hno1 hrec
        rw [hc] at hne
        have hlt : c < 2147483647 := by omega
        have hw : int32 ((c : Int) + 1) = ((c + 1 : Nat) : Int) := by
          rw [int32_of_small _ (by omega) (by omega)]; push_cast; rfl
        rw [hc, hw] at hcount hnames
        rw [if_neg hrec] at hcount
        obtain ⟨counts, i1, i2, i3⟩ := ih (s.startRecording o t).2 (c + 1) hcount (by omega)
          hno2
        by_cases hcond : ((c + 1 : Nat) : Int) < 1000 ∧ s.buffSDWriter.isSome = true
        · rw [if_pos ⟨hrec, hcond⟩] at hnames
          refine ⟨(c + 1) :: counts, ?_, ?_, ?_⟩
          · simp only [autoNames, hnames, i1, List.map_cons, List.singleton_append]
          · exact List.pairwise_cons.mpr ⟨fun k hk => (i3 k hk).1, i2⟩
          · intro k hk
            rcases List.mem_cons.mp hk with rfl | hk
            · have := hcond.1
              omega
            · have := i3 k hk
              omega
        · rw [if_neg (fun hh => hcond hh.2)] at hnames
          refine ⟨counts, ?_, i2, fun k hk => ?_⟩
          · simp only [autoNames, hnames, List.nil_append, i1]
          · have := i3 k hk
            omega
    · have h' : ∀ o t, op ≠ Op.startRecording o t := fun o t e => h ⟨o, t, e⟩
      have hcount : (s.step op).recording_count = c := by
        rcases (step_frame s op).2 with h2 | ⟨o, t, e, _⟩
        · rw [h2, hc]
        · exact absurd e (h' o t)
      obtain ⟨counts, i1, i2, i3⟩ := ih (s.step op) c hcount hb
        (overflows_cons_other s op ops h' hno)
      exact ⟨counts, by rw [autoNames_cons_other _ _ _ h', i1], i2, i3⟩

/-- Above the ceiling, in a run without overflow, the controller never falls
back to `UNPREPARED` and the counter stays between 1000 and 2147483647. -/
theorem run_at_ceiling_defined (ops : List Op) :
    ∀ s : AudioSDWriter_F32, s.current_SD_state ≠ STATE.UNPREPARED →
      1000 ≤ s.recording_count → s.recording_count ≤ 2147483647 →
      overflows s ops = false →
      (s.run ops).current_SD_state ≠ STATE.UNPREPARED ∧
      1000 ≤ (s.run ops).recording_count ∧ (s.run ops).recording_count ≤ 2147483647 := by
  induction ops with
  | nil => intro s hs h1 h2 _; exact ⟨by simpa [run] using hs, by simpa [run] using h1,
      by simpa [run] using h2⟩
  | cons op ops ih =>
    intro s hs hc1 hc2 hno
    obtain ⟨f1, f2⟩ := step_frame s op
    have hs' : (s.step op).current_SD_state ≠ STATE.UNPREPARED := fun h => hs (f1 h)
    rw [run_cons]
    rcases f2 with f2 | ⟨o, t, e, hrec, f2⟩
    · have hno' : overflows (s.step op) ops = false := by
        simp only [overflows, Bool.or_eq_false_iff] at hno
        exact hno.2
      exact ih (s.step op) hs' (by rw [f2]; exact hc1) (by rw [f2]; exact hc2) hno'
    · subst e
      obtain ⟨hno1, hno2⟩ := overflows_cons_start s o t ops hno
      have hne := hno1 hrec
      have hw : int32 (s.recording_count + 1) = s.recording_count + 1 :=
        int32_of_small _ (by omega) (by omega)
      rw [hw] at f2
      exact ih _ hs' (by rw [f2]; omega) (by rw [f2]; omega) hno2

theorem startRecording_in_recording (s : AudioSDWriter_F32) (o : Bool) (t : Nat)
    (h : s.current_SD_state = STATE.RECORDING) :
    (s.startRecording o t).2.current_SD_state = s.current_SD_state ∧
    (s.startRecording o t).2.buffSDWriter = s.buffSDWriter := by
  obtain ⟨st, wd, rc, nw, bs, sp, ts, so⟩ := s
  simp only at h
  subst h
  cases sp <;> simp [startRecording, println]

/-- C12: in every sequence of operations on a constructed controller in which
no `recording_count++` overflows the `int` (the sequences for which C++
defines what the controller does), the names that the `startRecording()`
calls pass to the sink are the names `AUDIOnnn.WAV` of a strictly increasing
list of numbers between 1 and 999, hence pairwise distinct: no name is used
twice. -/
theorem autoNames_strictly_increasing (s0 : AudioSDWriter_F32) (ops : List Op)
    (h0 : Constructed s0) (hdef : overflows s0 ops = false) :
    ∃ counts : List Nat,
      s0.autoNames ops = counts.map (fun k : Nat => fname_of_count (k : Int)) ∧
      s0.autoNames ops = counts.map deriveName ∧
      counts.Pairwise (· < ·) ∧ (∀ k ∈ counts, 1 ≤ k ∧ k ≤ 999) ∧
      (s0.autoNames ops).Nodup := by
  have hc : s0.recording_count = ((0 : Nat) : Int) := (betweenSessions_constructed s0 h0).2.1
  obtain ⟨counts, i1, i2, i3⟩ := autoNames_counts_defined ops s0 0 hc (by omega) hdef
  refine ⟨counts, i1, ?_, i2, fun k hk => ⟨by have := i3 k hk; omega, (i3 k hk).2⟩, ?_⟩
  · rw [i1]
    apply List.map_congr_left
    intro k hk
    exact fname_of_count_eq_deriveName_below k (by have := i3 k hk; omega)
  · rw [i1]
    apply List.Nodup.map_on
    · intro a ha b hb hab
      exact fname_of_count_inj a b (i3 a ha).2 (i3 b hb).2 hab
    · exact i2.imp (fun h => Nat.ne_of_lt h)

/-- Two sessions on a fresh controller. -/
theorem autoNames_strictly_increasing_witness :
    Constructed fresh ∧
    overflows fresh [Op.startRecording true 0, Op.stopRecording 0, Op.startRecording true 5,
      Op.stopRecording 0] = false ∧
    ∃ counts : List Nat,
      fresh.autoNames [Op.startRecording true 0, Op.stopRecording 0,
        Op.startRecording true 5, Op.stopRecording 0]
          = counts.map (fun k : Nat => fname_of_count (k : Int)) ∧
      fresh.autoNames [Op.startRecording true 0, Op.stopRecording 0,
        Op.startRecording true 5, Op.stopRecording 0] = counts.map deriveName ∧
      counts.Pairwise (· < ·) ∧ (∀ k ∈ counts, 1 ≤ k ∧ k ≤ 999) ∧
      (fresh.autoNames [Op.startRecording true 0, Op.stopRecording 0,
        Op.startRecording true 5, Op.stopRecording 0]).Nodup :=
  ⟨Or.inl ⟨512, rfl⟩, by decide,
    autoNames_strictly_increasing fresh _ (Or.inl ⟨512, rfl⟩) (by decide)⟩

/-- C13: once a `startRecording()` has been refused at the ceiling (it ran in
a state other than `RECORDING` with the counter at 999 or more, so that the
incremented counter was 1000 or more), then in every continuation in which no
`recording_count++` overflows the `int`, every later `startRecording()`
leaves the state as it is, so it does not enter `RECORDING`, and makes no
call on the sink, so it opens no file. -/
theorem ceiling_is_permanent (s0 : AudioSDWriter_F32) (o0 : Bool) (t0 : Nat)
    (ops : List Op) (o : Bool) (t : Nat)
    (h0 : s0.current_SD_state ≠ STATE.RECORDING)
    (hceil : 999 ≤ s0.recording_count) (hint : s0.recording_count ≤ 2147483647)
    (hdef : overflows s0 (Op.startRecording o0 t0 :: ops ++ [Op.startRecording o t]) = false) :
    (((s0.startRecording o0 t0).2.run ops).startRecording o t).2.current_SD_state
      = ((s0.startRecording o0 t0).2.run ops).current_SD_state ∧
    (((s0.startRecording o0 t0).2.run ops).startRecording o t).2.buffSDWriter
      = ((s0.startRecording o0 t0).2.run ops).buffSDWriter := by
  obtain ⟨d1, d2⟩ := overflows_cons_start s0 o0 t0 _ hdef
  have hne := d1 h0
  have hw0 : int32 (s0.recording_count + 1) = s0.recording_count + 1 :=
    int32_of_small _ (by omega) (by omega)
  obtain ⟨a1, a2⟩ := startRecording_refused_at_ceiling s0 o0 t0 h0 (by rw [hw0]; omega)
  rw [hw0] at a2
  have d2' : overflows (s0.startRecording o0 t0).2 (ops ++ [Op.startRecording o t]) = false :=
    d2
  rw [overflows_append, Bool.or_eq_false_iff] at d2'
  obtain ⟨d3, d4⟩ := d2'
  obtain ⟨b1, b2, b3⟩ := run_at_ceiling_defined ops (s0.startRecording o0 t0).2
    (by simp [a1]) (by rw [a2]; omega) (by rw [a2]; omega) d3
  by_cases hrec : ((s0.startRecording o0 t0).2.run ops).current_SD_state = STATE.RECORDING
  · exact startRecording_in_recording _ o t hrec
  · obtain ⟨e1, _⟩ := overflows_cons_start _ o t [] d4
    have hne' := e1 hrec
    have hw : int32 (((s0.startRecording o0 t0).2.run ops).recording_count + 1)
        = ((s0.startRecording o0 t0).2.run ops).recording_count + 1 :=
      int32_of_small _ (by omega) (by omega)
    obtain ⟨c1, c2, _⟩ := startRecording_at_or_above_ceiling
      ((s0.startRecording o0 t0).2.run ops) o t b1 (by rw [hw]; omega)
    exact ⟨c1, c2⟩

/-- The controller `stopped999`, refused at the ceiling, then a stop, a named
session and another `startRecording()`. -/
theorem ceiling_is_permanent_witness :
    stopped999.current_SD_state ≠ STATE.RECORDING ∧
    999 ≤ stopped999.recording_count ∧ stopped999.recording_count ≤ 2147483647 ∧
    overflows stopped999 (Op.startRecording true 0 ::
      [Op.stopRecording 0, Op.startRecording_fname "REC.WAV".toList true 3,
        Op.stopRecording 0] ++ [Op.startRecording true 9]) = false ∧
    (((stopped999.startRecording true 0).2.run
      [Op.stopRecording 0, Op.startRecording_fname "REC.WAV".toList true 3,
        Op.stopRecording 0]).startRecording true 9).2.current_SD_state
      = ((stopped999.startRecording true 0).2.run
        [Op.stopRecording 0, Op.startRecording_fname "REC.WAV".toList true 3,
          Op.stopRecording 0]).current_SD_state ∧
    (((stopped999.startRecording true 0).2.run
      [Op.stopRecording 0, Op.startRecording_fname "REC.WAV".toList true 3,
        Op.stopRecording 0]).startRecording true 9).2.buffSDWriter
      = ((stopped999.startRecording true 0).2.run
        [Op.stopRecording 0, Op.startRecording_fname "REC.WAV".toList true 3,
          Op.stopRecording 0]).buffSDWriter ∧
    ((stopped999.startRecording true 0).2.run
        [Op.stopRecording 0, Op.startRecording_fname "REC.WAV".toList true 3,
          Op.stopRecording 0]).current_SD_state = STATE.STOPPED :=
  ⟨by decide, by decide, by decide, by decide,
    (ceiling_is_permanent stopped999 true 0
      [Op.stopRecording 0, Op.startRecording_fname "REC.WAV".toList true 3,
        Op.stopRecording 0] true 9 (by decide) (by decide) (by decide) (by decide)).1,
    (ceiling_is_permanent stopped999 true 0
      [Op.stopRecording 0, Op.startRecording_fname "REC.WAV".toList true 3,
        Op.stopRecording 0] true 9 (by decide) (by decide) (by decide) (by decide)).2,
    by decide⟩

end AudioSDWriter_F32

/-! ## Bytes of a session (C17) -/

namespace AudioSDWriter_F32

end AudioSDWriter_F32

/-! ## The stream framer of `SerialManager` (C18, C19, C20) -/

namespace WDRC_3Band
namespace SerialManager

theorem scanTag_no_separator (data : Nat → char) (fuel : Nat) : ∀ idx : Nat,
    (∀ j, idx ≤ j → j < idx + fuel → data j ≠ DATASTREAM_SEPARATOR) →
    scanTag data idx fuel = Except.error (Fault.read_out_of_bounds ((idx + fuel : Nat) : Int)) := by
  induction fuel with
  | zero => intro idx _; simp [scanTag]
  | succ fuel ih =>
    intro idx h
    have h0 := h idx (le_refl _) (by omega)
    have h1 := ih (idx + 1) (fun j hj1 hj2 => h j (by omega) (by omega))
    simp only [scanTag, h0, if_false, h1]
    have e : idx + 1 + fuel = idx + (fuel + 1) := by omega
    rw [e]
    rfl

theorem scanTag_finds (data : Nat → char) (fuel : Nat) : ∀ idx : Nat,
    (∃ j, idx ≤ j ∧ j < idx + fuel ∧ data j = DATASTREAM_SEPARATOR) →
    ∃ t i, scanTag data idx fuel = Except.ok (t, i) ∧ i = idx + t.length ∧ i < idx + fuel ∧
      data i = DATASTREAM_SEPARATOR := by
  induction fuel with
  | zero => intro idx ⟨j, h1, h2, _⟩; omega
  | succ fuel ih =>
    intro idx ⟨j, h1, h2, h3⟩
    by_cases h0 : data idx = DATASTREAM_SEPARATOR
    · exact ⟨[], idx, by simp [scanTag, h0], by simp, by omega, h0⟩
    · have hj : idx + 1 ≤ j := by
        rcases Nat.eq_or_lt_of_le h1 with e | e
        · exact absurd (e ▸ h3) h0
        · exact e
      obtain ⟨t, i, e1, e2, e3, e4⟩ := ih (idx + 1) ⟨j, hj, by omega, h3⟩
      refine ⟨data idx :: t, i, ?_, ?_, by omega, e4⟩
      · simp only [scanTag, h0, if_false, e1]
        rfl
      · simp only [List.length_cons]; omega


theorem read32_ok (s : SerialManager) (idx : Int) (h0 : 0 ≤ idx) (h1 : idx + 4 ≤ 1024) :
    ∃ w, s.read32 idx = Except.ok w := by
  simp [read32, MAX_DATASTREAM_LENGTH, h0, h1]

theorem readFloat_ok (s : SerialManager) (idx : Int) (h0 : 0 ≤ idx) (h1 : idx + 4 ≤ 1024) :
    ∃ w, s.readFloat idx = Except.ok w := read32_ok s idx h0 h1

theorem readInt_ok (s : SerialManager) (idx : Int) (h0 : 0 ≤ idx) (h1 : idx + 4 ≤ 1024) :
    ∃ w, s.readInt idx = Except.ok w := by
  obtain ⟨w, hw⟩ := read32_ok s idx h0 h1
  exact ⟨int32 w, by simp [readInt, hw, Except.map]⟩

theorem readStreamFloatArray_ok (s : SerialManager) (len : Nat) : ∀ idx : Int,
    0 ≤ idx → idx + 4 * len ≤ 1024 →
    ∃ arr, s.readStreamFloatArray idx len = Except.ok (arr, idx + 4 * len) := by
  induction len with
  | zero => intro idx _ _; exact ⟨[], by simp [readStreamFloatArray]⟩
  | succ len ih =>
    intro idx h0 h1
    push_cast at h1
    obtain ⟨x, hx⟩ := readFloat_ok s idx h0 (by omega)
    obtain ⟨arr, harr⟩ := ih (idx + 4) (by omega) (by omega)
    refine ⟨x :: arr, ?_⟩
    simp only [readStreamFloatArray, hx, harr, bind, Except.bind, pure, Except.pure]
    congr 2
    push_cast
    ring

theorem sameFramer_log (s : SerialManager) (e : Event) : SameFramer s (s.log e) := by
  simp [SameFramer, log]

theorem processStreamCalls_log (s : SerialManager) (e : Event) :
    (s.log e).processStreamCalls =
      s.processStreamCalls + (if isProcessStream e then 1 else 0) := by
  simp [processStreamCalls, log, List.countP_cons]

theorem interpretStreamGHA_ok (s : SerialManager) (idx : Int) (h0 : 0 ≤ idx)
    (h1 : idx + 40 ≤ 1024) :
    ∃ s', s.interpretStreamGHA idx = Except.ok s' ∧ SameFramer s s' ∧
      s'.processStreamCalls = s.processStreamCalls := by
  obtain ⟨x0, e0⟩ := readFloat_ok s idx h0 (by omega)
  obtain ⟨x1, e1⟩ := readFloat_ok s (idx + 4) (by omega) (by omega)
  obtain ⟨x2, e2⟩ := readFloat_ok s (idx + 8) (by omega) (by omega)
  obtain ⟨x3, e3⟩ := readFloat_ok s (idx + 12) (by omega) (by omega)
  obtain ⟨x4, e4⟩ := readFloat_ok s (idx + 16) (by omega) (by omega)
  obtain ⟨x5, e5⟩ := readFloat_ok s (idx + 20) (by omega) (by omega)
  obtain ⟨x6, e6⟩ := readFloat_ok s (idx + 24) (by omega) (by omega)
  obtain ⟨x7, e7⟩ := readFloat_ok s (idx + 28) (by omega) (by omega)
  obtain ⟨x8, e8⟩ := readFloat_ok s (idx + 32) (by omega) (by omega)
  obtain ⟨x9, e9⟩ := readFloat_ok s (idx + 36) (by omega) (by omega)
  refine ⟨_, by simp only [interpretStreamGHA, e0, e1, e2, e3, e4, e5, e6, e7, e8, e9, bind,
    Except.bind, pure, Except.pure]; rfl, ?_, ?_⟩
  · simp [SameFramer, log]
  · simp [processStreamCalls, log, isProcessStream]

theorem interpretStreamAFC_ok (s : SerialManager) (idx : Int) (h0 : 0 ≤ idx)
    (h1 : idx + 20 ≤ 1024) :
    ∃ s', s.interpretStreamAFC idx = Except.ok s' ∧ SameFramer s s' ∧
      s'.processStreamCalls = s.processStreamCalls := by
  obtain ⟨x0, e0⟩ := readInt_ok s idx h0 (by omega)
  obtain ⟨x1, e1⟩ := readInt_ok s (idx + 4) (by omega) (by omega)
  obtain ⟨x2, e2⟩ := readFloat_ok s (idx + 8) (by omega) (by omega)
  obtain ⟨x3, e3⟩ := readFloat_ok s (idx + 12) (by omega) (by omega)
  obtain ⟨x4, e4⟩ := readFloat_ok s (idx + 16) (by omega) (by omega)
  refine ⟨_, by simp only [interpretStreamAFC, e0, e1, e2, e3, e4, bind,
    Except.bind, pure, Except.pure]; rfl, ?_, ?_⟩
  · simp [SameFramer, log]
  · simp [processStreamCalls, log, isProcessStream]

theorem processStreamCalls_printFloats (l : List float32) :
    (printFloats l).countP isProcessStream = 0 := by
  cases l with
  | nil => simp [printFloats]
  | cons x xs =>
    simp only [printFloats]
    suffices h : ∀ (ys : List float32) (evs : List Event), evs.countP isProcessStream = 0 →
        (ys.foldl (fun evs y =>
          Event.myTympan (Printed.flt y) false :: Event.myTympan (Printed.str ", ") false :: evs)
          evs).countP isProcessStream = 0 from h xs _ (by simp [isProcessStream])
    intro ys
    induction ys with
    | nil => intro evs h; simpa using h
    | cons y ys ih =>
      intro evs h
      simp only [List.foldl_cons]
      exact ih _ (by simp [List.countP_cons, isProcessStream, h])

theorem interpretStreamDSL_ok (s : SerialManager) (idx : Int) (h0 : 0 ≤ idx)
    (h1 : idx + 240 ≤ 1024) :
    ∃ s', s.interpretStreamDSL idx = Except.ok s' ∧ SameFramer s s' ∧
      s'.processStreamCalls = s.processStreamCalls := by
  obtain ⟨x0, e0⟩ := readFloat_ok s idx h0 (by omega)
  obtain ⟨x1, e1⟩ := readFloat_ok s (idx + 4) (by omega) (by omega)
  obtain ⟨x2, e2⟩ := readInt_ok s (idx + 8) (by omega) (by omega)
  obtain ⟨x3, e3⟩ := readFloat_ok s (idx + 12) (by omega) (by omega)
  obtain ⟨a0, f0⟩ := readStreamFloatArray_ok s 8 (idx + 16) (by omega) (by push_cast; omega)
  obtain ⟨a1, f1⟩ := readStreamFloatArray_ok s 8 (idx + 16 + 4 * (8 : Nat)) (by push_cast; omega)
    (by push_cast; omega)
  obtain ⟨a2, f2⟩ := readStreamFloatArray_ok s 8 (idx + 16 + 4 * (8 : Nat) + 4 * (8 : Nat))
    (by push_cast; omega) (by push_cast; omega)
  obtain ⟨a3, f3⟩ := readStreamFloatArray_ok s 8
    (idx + 16 + 4 * (8 : Nat) + 4 * (8 : Nat) + 4 * (8 : Nat))
    (by push_cast; omega) (by push_cast; omega)
  obtain ⟨a4, f4⟩ := readStreamFloatArray_ok s 8
    (idx + 16 + 4 * (8 : Nat) + 4 * (8 : Nat) + 4 * (8 : Nat) + 4 * (8 : Nat))
    (by push_cast; omega) (by push_cast; omega)
  obtain ⟨a5, f5⟩ := readStreamFloatArray_ok s 8
    (idx + 16 + 4 * (8 : Nat) + 4 * (8 : Nat) + 4 * (8 : Nat) + 4 * (8 : Nat) + 4 * (8 : Nat))
    (by push_cast; omega) (by push_cast; omega)
  obtain ⟨a6, f6⟩ := readStreamFloatArray_ok s 8
    (idx + 16 + 4 * (8 : Nat) + 4 * (8 : Nat) + 4 * (8 : Nat) + 4 * (8 : Nat) + 4 * (8 : Nat)
      + 4 * (8 : Nat))
    (by push_cast; omega) (by push_cast; omega)
  refine ⟨_, by simp only [interpretStreamDSL, e0, e1, e2, e3, f0, f1, f2, f3, f4, f5, f6, bind,
    Except.bind, pure, Except.pure]; rfl, ?_, ?_⟩
  · simp [SameFramer, log]
  · simp [processStreamCalls, log, isProcessStream, List.countP_append,
      processStreamCalls_printFloats]


theorem sameFramer_trans {a b c : SerialManager} (h1 : SameFramer a b) (h2 : SameFramer b c) :
    SameFramer a c := by
  obtain ⟨a1, a2, a3, a4, a5⟩ := h1
  obtain ⟨b1, b2, b3, b4, b5⟩ := h2
  exact ⟨b1.trans a1, b2.trans a2, b3.trans a3, b4.trans a4, b5.trans a5⟩

theorem except_bind_ok {ε α β : Type} (a : α) (f : α → Except ε β) :
    (Except.ok a >>= f) = f a := rfl

theorem cstr_length_gha : (cstr "gha").length = 3 := by decide
theorem cstr_length_dsl : (cstr "dsl").length = 3 := by decide
theorem cstr_length_afc : (cstr "afc").length = 3 := by decide
theorem cstr_length_test : (cstr "test").length = 4 := by decide

/-- When `stream_data` holds a separator, `processStream()` returns, leaves
the framer fields alone and is counted once. -/
theorem processStream_ok (s : SerialManager)
    (h : ∃ j, j < MAX_DATASTREAM_LENGTH ∧ s.stream_data j = DATASTREAM_SEPARATOR) :
    ∃ s', s.processStream = Except.ok s' ∧ SameFramer s s' ∧
      s'.processStreamCalls = s.processStreamCalls + 1 := by
  obtain ⟨j, hj1, hj2⟩ := h
  obtain ⟨t, i, e1, e2, e3, _⟩ := scanTag_finds s.stream_data MAX_DATASTREAM_LENGTH 0
    ⟨j, Nat.zero_le _, by omega, hj2⟩
  have e1' : scanTag (s.log Event.processStream).stream_data 0 MAX_DATASTREAM_LENGTH
      = Except.ok (t, i) := e1
  have hcalls : (s.log Event.processStream).processStreamCalls = s.processStreamCalls + 1 := by
    simp [processStreamCalls_log, isProcessStream]
  have hsame : SameFramer s (s.log Event.processStream) := sameFramer_log _ _
  simp only [Nat.zero_add] at e2
  unfold processStream
  dsimp only
  rw [e1', except_bind_ok]
  dsimp only
  by_cases g1 : t = cstr "gha"
  · have hi : ((i : Nat) : Int) + 1 = 4 := by rw [e2, g1, cstr_length_gha]; rfl
    obtain ⟨s', k1, k2, k3⟩ := interpretStreamGHA_ok
      ((s.log Event.processStream).log
        (Event.myTympan (Printed.str "Stream is of type 'gha'.") true)) 4 (by decide) (by decide)
    refine ⟨s', by rw [if_pos g1, hi, k1],
      sameFramer_trans (sameFramer_trans hsame (sameFramer_log _ _)) k2, ?_⟩
    rw [k3, processStreamCalls_log, hcalls]
    rfl
  by_cases g2 : t = cstr "dsl"
  · have hi : ((i : Nat) : Int) + 1 = 4 := by rw [e2, g2, cstr_length_dsl]; rfl
    obtain ⟨s', k1, k2, k3⟩ := interpretStreamDSL_ok
      ((s.log Event.processStream).log
        (Event.myTympan (Printed.str "Stream is of type 'dsl'.") true)) 4 (by decide) (by decide)
    refine ⟨s', by rw [if_neg g1, if_pos g2, hi, k1],
      sameFramer_trans (sameFramer_trans hsame (sameFramer_log _ _)) k2, ?_⟩
    rw [k3, processStreamCalls_log, hcalls]
    rfl
  by_cases g3 : t = cstr "afc"
  · have hi : ((i : Nat) : Int) + 1 = 4 := by rw [e2, g3, cstr_length_afc]; rfl
    obtain ⟨s', k1, k2, k3⟩ := interpretStreamAFC_ok
      ((s.log Event.processStream).log
        (Event.myTympan (Printed.str "Stream is of type 'afc'.") true)) 4 (by decide) (by decide)
    refine ⟨s', by rw [if_neg g1, if_neg g2, if_pos g3, hi, k1],
      sameFramer_trans (sameFramer_trans hsame (sameFramer_log _ _)) k2, ?_⟩
    rw [k3, processStreamCalls_log, hcalls]
    rfl
  by_cases g4 : t = cstr "test"
  · have hi : ((i : Nat) : Int) + 1 = 5 := by rw [e2, g4, cstr_length_test]; rfl
    obtain ⟨x0, r0⟩ := readInt_ok ((s.log Event.processStream).log
        (Event.myTympan (Printed.str "Stream is of type 'test'.") true)) 5 (by decide) (by decide)
    obtain ⟨x1, r1⟩ := readFloat_ok ((((s.log Event.processStream).log
        (Event.myTympan (Printed.str "Stream is of type 'test'.") true)).log
          (Event.myTympan (Printed.str "int is ") false)).log
            (Event.myTympan (Printed.int x0) true)) (5 + 4) (by decide) (by decide)
    refine ⟨_, by rw [if_neg g1, if_neg g2, if_neg g3, if_pos g4, hi, r0, except_bind_ok, r1]; rfl,
      ?_, ?_⟩
    · simp [SameFramer, log]
    · simp [processStreamCalls, log, isProcessStream]
  · refine ⟨_, by rw [if_neg g1, if_neg g2, if_neg g3, if_neg g4]; rfl, ?_, ?_⟩
    · simp [SameFramer, log]
    · simp [processStreamCalls, log, isProcessStream]


theorem respondToBytes_append (a : List char) : ∀ (s : SerialManager) (b : List char),
    s.respondToBytes (a ++ b) = (s.respondToBytes a >>= fun s1 => s1.respondToBytes b) := by
  induction a with
  | nil => intro s b; rfl
  | cons c cs ih =>
    intro s b
    simp only [List.cons_append, respondToBytes]
    cases h : s.respondToByte c with
    | error e => rfl
    | ok s1 =>
      rw [except_bind_ok, except_bind_ok]
      exact ih s1 b

theorem respondToBytes_cons_ok (s s1 : SerialManager) (c : char) (cs : List char)
    (h : s.respondToByte c = Except.ok s1) :
    s.respondToBytes (c :: cs) = s1.respondToBytes cs := by
  simp only [respondToBytes, h]
  rfl

theorem respondToBytes_single (s : SerialManager) (c : char) :
    s.respondToBytes [c] = s.respondToByte c := by
  simp only [respondToBytes]
  cases h : s.respondToByte c with
  | error e => rfl
  | ok s1 => rfl

theorem respondToByte_start (s : SerialManager) (h : s.serial_read_state = SINGLE_CHAR) :
    s.respondToByte DATASTREAM_START_CHAR =
      Except.ok { s.log (Event.Serial (Printed.str "Start data stream.") true) with
        serial_read_state := STREAM_LENGTH, stream_chars_received := 0 } := by
  simp [respondToByte, h]
  rfl

theorem respondToByte_length_byte (s : SerialManager) (c : char) (k : Nat)
    (h : s.serial_read_state = STREAM_LENGTH) (hc : c ≠ DATASTREAM_SEPARATOR)
    (hk : s.stream_chars_received = k) (hk2 : k < MAX_DATASTREAM_LENGTH) :
    s.respondToByte c =
      Except.ok { s with
        stream_data := Function.update s.stream_data k c
        stream_chars_received := ((k + 1 : Nat) : Int) } := by
  have hw : int32 ((k : Int) + 1) = ((k + 1 : Nat) : Int) := by
    unfold MAX_DATASTREAM_LENGTH at hk2
    rw [AudioSDWriter_F32.int32_of_small _ (by omega) (by omega)]
    push_cast; rfl
  have hb : (0 : Int) ≤ k ∧ (k : Int) < (MAX_DATASTREAM_LENGTH : Nat) := by
    constructor <;> omega
  simp [respondToByte, h, hc, store, hk, hb, hw, STREAM_LENGTH, SINGLE_CHAR]

theorem respondToByte_data_byte (s : SerialManager) (c : char) (k : Nat)
    (h : s.serial_read_state = STREAM_DATA)
    (hk : s.stream_chars_received = k) (hk2 : k < MAX_DATASTREAM_LENGTH)
    (hl : (k : Int) < s.stream_length) :
    s.respondToByte c =
      Except.ok { s with
        stream_data := Function.update s.stream_data k c
        stream_chars_received := ((k + 1 : Nat) : Int) } := by
  have hw : int32 ((k : Int) + 1) = ((k + 1 : Nat) : Int) := by
    unfold MAX_DATASTREAM_LENGTH at hk2
    rw [AudioSDWriter_F32.int32_of_small _ (by omega) (by omega)]
    push_cast; rfl
  have hb : (0 : Int) ≤ k ∧ (k : Int) < (MAX_DATASTREAM_LENGTH : Nat) := by
    constructor <;> omega
  simp [respondToByte, h, store, hk, hb, hw, hl, STREAM_LENGTH, STREAM_DATA, SINGLE_CHAR]

theorem respondToByte_data_overflow (s : SerialManager) (c : char)
    (h : s.serial_read_state = STREAM_DATA)
    (hk : s.stream_chars_received = (MAX_DATASTREAM_LENGTH : Nat))
    (hl : ((MAX_DATASTREAM_LENGTH : Nat) : Int) < s.stream_length) :
    s.respondToByte c = Except.error (Fault.store_out_of_bounds 1024) := by
  unfold respondToByte
  rw [if_neg (by rw [h]; decide), if_neg (by rw [h]; decide), if_pos h, if_pos (by rw [hk]; exact hl)]
  unfold store
  rw [if_neg (by rw [hk]; simp), hk]
  rfl

/-- Payload bytes fed in state `STREAM_DATA` while fewer than `stream_length`
bytes have been received and the array is not full: every byte is stored at
the next index and nothing else changes. -/
theorem respondToBytes_payload (p : List char) : ∀ (s : SerialManager) (k : Nat),
    s.serial_read_state = STREAM_DATA → s.stream_chars_received = k →
    k + p.length ≤ MAX_DATASTREAM_LENGTH → ((k + p.length : Nat) : Int) ≤ s.stream_length →
    ∃ s', s.respondToBytes p = Except.ok s' ∧
      s'.serial_read_state = STREAM_DATA ∧
      s'.stream_chars_received = ((k + p.length : Nat) : Int) ∧
      s'.stream_length = s.stream_length ∧ s'.events = s.events ∧ s'.N_CHAN = s.N_CHAN ∧
      (∀ i (h : i < p.length), s'.stream_data (k + i) = p.get ⟨i, h⟩) ∧
      (∀ i, (i < k ∨ k + p.length ≤ i) → s'.stream_data i = s.stream_data i) := by
  induction p with
  | nil =>
    intro s k h1 h2 _ _
    exact ⟨s, rfl, h1, by simpa using h2, rfl, rfl, rfl, fun i h => absurd h (by simp),
      fun _ _ => rfl⟩
  | cons c cs ih =>
    intro s k h1 h2 h3 h4
    simp only [List.length_cons] at h3 h4
    have hstep := respondToByte_data_byte s c k h1 h2 (by omega) (by omega)
    obtain ⟨s', e1, e2, e3, e4, e5, e6, e7, e8⟩ := ih
      { s with
        stream_data := Function.update s.stream_data k c
        stream_chars_received := ((k + 1 : Nat) : Int) } (k + 1) h1 rfl (by omega)
      (by simp only []; push_cast at h4 ⊢; omega)
    refine ⟨s', ?_, e2, ?_, e4, e5, e6, ?_, ?_⟩
    · simp only [respondToBytes, hstep]
      exact e1
    · rw [e3]; simp only [List.length_cons]; push_cast; ring
    · intro i hi
      cases i with
      | zero =>
        rw [Nat.add_zero, e8 k (Or.inl (by omega))]
        simp
      | succ i =>
        have := e7 i (by simpa using hi)
        rw [show k + (i + 1) = k + 1 + i by omega, this]
        rfl
    · intro i hi
      rw [e8 i (by simp only [List.length_cons] at hi; omega)]
      simp only [Function.update]
      have : i ≠ k := by simp only [List.length_cons] at hi; omega
      simp [this]


theorem respondToByte_separator (s : SerialManager) (h : s.serial_read_state = STREAM_LENGTH) :
    s.respondToByte DATASTREAM_SEPARATOR =
      Except.ok ((({ s with
        stream_length := int32 ((s.stream_data 0).val + 256 * (s.stream_data 1).val
          + 65536 * (s.stream_data 2).val + 16777216 * (s.stream_data 3).val : Nat)
        serial_read_state := STREAM_DATA
        stream_chars_received := 0 } : SerialManager).log
          (Event.Serial (Printed.str "Stream length = ") false)).log
          (Event.Serial (Printed.int (int32 ((s.stream_data 0).val + 256 * (s.stream_data 1).val
          + 65536 * (s.stream_data 2).val + 16777216 * (s.stream_data 3).val : Nat))) true)) := by
  simp [respondToByte, h, readInt, read32, MAX_DATASTREAM_LENGTH, STREAM_LENGTH, SINGLE_CHAR,
    Except.map, bind, Except.bind, pure, Except.pure]

/-- The length field: four bytes other than the separator, then the separator,
fed in state `STREAM_LENGTH` with nothing received yet. -/
theorem respondToBytes_length (s : SerialManager) (b0 b1 b2 b3 : char)
    (h : s.serial_read_state = STREAM_LENGTH) (hk : s.stream_chars_received = 0)
    (h0 : b0 ≠ DATASTREAM_SEPARATOR) (h1 : b1 ≠ DATASTREAM_SEPARATOR)
    (h2 : b2 ≠ DATASTREAM_SEPARATOR) (h3 : b3 ≠ DATASTREAM_SEPARATOR) :
    ∃ s', s.respondToBytes [b0, b1, b2, b3, DATASTREAM_SEPARATOR] = Except.ok s' ∧
      s'.serial_read_state = STREAM_DATA ∧ s'.stream_chars_received = 0 ∧
      s'.stream_length =
        int32 (b0.val + 256 * b1.val + 65536 * b2.val + 16777216 * b3.val : Nat) ∧
      s'.processStreamCalls = s.processStreamCalls ∧
      s'.decodedRecords = s.decodedRecords ∧
      s'.stream_data 0 = b0 ∧ s'.stream_data 1 = b1 ∧ s'.stream_data 2 = b2 ∧
      s'.stream_data 3 = b3 ∧ (∀ i, 4 ≤ i → s'.stream_data i = s.stream_data i) ∧
      s'.events =
        Event.Serial (Printed.int
          (int32 (b0.val + 256 * b1.val + 65536 * b2.val + 16777216 * b3.val : Nat))) true ::
        Event.Serial (Printed.str "Stream length = ") false :: s.events := by
  have e0 := respondToByte_length_byte s b0 0 h h0 (by simpa using hk) (by decide)
  have e1 := respondToByte_length_byte ({ s with
        stream_data := Function.update s.stream_data 0 b0
        stream_chars_received := ((0 + 1 : Nat) : Int) } : SerialManager) b1 1 h h1 rfl
          (by decide)
  have e2 := respondToByte_length_byte ({ s with
        stream_data := Function.update (Function.update s.stream_data 0 b0) 1 b1
        stream_chars_received := ((1 + 1 : Nat) : Int) } : SerialManager) b2 2 h h2 rfl
          (by decide)
  have e3 := respondToByte_length_byte ({ s with
        stream_data :=
          Function.update (Function.update (Function.update s.stream_data 0 b0) 1 b1) 2 b2
        stream_chars_received := ((2 + 1 : Nat) : Int) } : SerialManager) b3 3 h h3 rfl
          (by decide)
  have e4 := respondToByte_separator ({ s with
        stream_data := Function.update (Function.update (Function.update
          (Function.update s.stream_data 0 b0) 1 b1) 2 b2) 3 b3
        stream_chars_received := ((3 + 1 : Nat) : Int) } : SerialManager) h
  rw [respondToBytes_cons_ok _ _ _ _ e0, respondToBytes_cons_ok _ _ _ _ e1,
    respondToBytes_cons_ok _ _ _ _ e2, respondToBytes_cons_ok _ _ _ _ e3,
    respondToBytes_single, e4]
  refine ⟨_, rfl, ?_⟩
  · refine ⟨rfl, rfl, ?_, ?_, ?_, ?_, ?_, ?_, ?_, ?_, ?_⟩
    · simp [log, Function.update]
    · simp [processStreamCalls, log, isProcessStream]
    · simp [decodedRecords, log, isUpdate]
    · simp [log, Function.update]
    · simp [log, Function.update]
    · simp [log, Function.update]
    · simp [log, Function.update]
    · intro i hi
      have a0 : i ≠ 0 := by omega
      have a1 : i ≠ 1 := by omega
      have a2 : i ≠ 2 := by omega
      have a3 : i ≠ 3 := by omega
      simp [log, Function.update, a0, a1, a2, a3]
    · simp [log, Function.update]


theorem respondToByte_end (s : SerialManager) (h : s.serial_read_state = STREAM_DATA)
    (hr : ¬ s.stream_chars_received < s.stream_length) :
    s.respondToByte DATASTREAM_END_CHAR =
      ((s.log (Event.Serial (Printed.str "Time to process stream!") true)).processStream >>=
        fun s1 => Except.ok
          { s1 with serial_read_state := SINGLE_CHAR, stream_chars_received := 0 }) := by
  unfold respondToByte
  rw [if_neg (by rw [h]; decide), if_neg (by rw [h]; decide), if_pos h, if_neg hr, if_pos rfl]
  rfl

theorem respondToByte_not_end (s : SerialManager) (c : char)
    (h : s.serial_read_state = STREAM_DATA)
    (hr : ¬ s.stream_chars_received < s.stream_length) (hc : c ≠ DATASTREAM_END_CHAR) :
    s.respondToByte c =
      Except.ok { s with
        serial_read_state := SINGLE_CHAR
        stream_chars_received := 0
        events :=
          Event.myTympan (Printed.str " instead.") true ::
          Event.myTympan (Printed.hex c.val) false ::
          Event.myTympan (Printed.str "; found ") false ::
          Event.myTympan (Printed.hex DATASTREAM_END_CHAR.val) false ::
          Event.myTympan (Printed.str "ERROR: Expected string terminator ") false ::
          s.events } := by
  unfold respondToByte
  rw [if_neg (by rw [h]; decide), if_neg (by rw [h]; decide), if_pos h, if_neg hr, if_neg hc]
  rfl

theorem processStream_fault (s : SerialManager)
    (h : ∀ j, j < MAX_DATASTREAM_LENGTH → s.stream_data j ≠ DATASTREAM_SEPARATOR) :
    s.processStream = Except.error (Fault.read_out_of_bounds 1024) := by
  have e := scanTag_no_separator s.stream_data MAX_DATASTREAM_LENGTH 0
    (fun j _ hj => h j (by omega))
  have e' : scanTag (s.log Event.processStream).stream_data 0 MAX_DATASTREAM_LENGTH
      = Except.error (Fault.read_out_of_bounds 1024) := e
  unfold processStream
  dsimp only
  rw [e']
  rfl

theorem respondToByte_end_ok (s : SerialManager) (h : s.serial_read_state = STREAM_DATA)
    (hr : ¬ s.stream_chars_received < s.stream_length)
    (hsep : ∃ j, j < MAX_DATASTREAM_LENGTH ∧ s.stream_data j = DATASTREAM_SEPARATOR) :
    ∃ s', s.respondToByte DATASTREAM_END_CHAR = Except.ok s' ∧
      s'.serial_read_state = SINGLE_CHAR ∧ s'.stream_chars_received = 0 ∧
      s'.stream_data = s.stream_data ∧ s'.stream_length = s.stream_length ∧
      s'.processStreamCalls = s.processStreamCalls + 1 := by
  obtain ⟨s1, k1, k2, k3⟩ := processStream_ok
    (s.log (Event.Serial (Printed.str "Time to process stream!") true)) hsep
  rw [respondToByte_end s h hr, k1, except_bind_ok]
  refine ⟨_, rfl, rfl, rfl, k2.2.2.1, k2.2.2.2.1, ?_⟩
  show s1.processStreamCalls = _
  rw [k3, processStreamCalls_log]
  rfl

theorem respondToByte_end_fault (s : SerialManager) (h : s.serial_read_state = STREAM_DATA)
    (hr : ¬ s.stream_chars_received < s.stream_length)
    (hno : ∀ j, j < MAX_DATASTREAM_LENGTH → s.stream_data j ≠ DATASTREAM_SEPARATOR) :
    s.respondToByte DATASTREAM_END_CHAR = Except.error (Fault.read_out_of_bounds 1024) := by
  rw [respondToByte_end s h hr, processStream_fault
    (s.log (Event.Serial (Printed.str "Time to process stream!") true)) hno]
  rfl

/-- C19 (amended): in state `STREAM_DATA` with the declared number of payload
bytes received (`stream_length ≤ stream_chars_received`), for every next byte
`c`: if `c` is not `0x04`, `respondToByte` returns with the state `SINGLE_CHAR`
and the counter 0, prints the five parts of the terminator error on `myTympan`,
and neither calls `processStream()` nor hands a record to the DSP; if `c` is
`0x04` and `stream_data` holds a `0x03` below `MAX_DATASTREAM_LENGTH`,
`processStream()` is called exactly once and `respondToByte` returns with the
state `SINGLE_CHAR` and the counter 0; if `c` is `0x04` and `stream_data` holds
no `0x03`, the tag scan of `processStream()` reads `stream_data[1024]`, outside
the buffer, and the reset is not reached. -/
theorem streamData_terminator (s : SerialManager) (c : char)
    (hstate : s.serial_read_state = STREAM_DATA)
    (hrecv : s.stream_length ≤ s.stream_chars_received) :
    (c ≠ DATASTREAM_END_CHAR →
      ∃ s', s.respondToByte c = Except.ok s' ∧
        s'.serial_read_state = SINGLE_CHAR ∧ s'.stream_chars_received = 0 ∧
        s'.processStreamCalls = s.processStreamCalls ∧
        s'.decodedRecords = s.decodedRecords ∧
        s'.events =
          Event.myTympan (Printed.str " instead.") true ::
          Event.myTympan (Printed.hex c.val) false ::
          Event.myTympan (Printed.str "; found ") false ::
          Event.myTympan (Printed.hex DATASTREAM_END_CHAR.val) false ::
          Event.myTympan (Printed.str "ERROR: Expected string terminator ") false ::
          s.events) ∧
    (c = DATASTREAM_END_CHAR →
      (∃ j, j < MAX_DATASTREAM_LENGTH ∧ s.stream_data j = DATASTREAM_SEPARATOR) →
      ∃ s', s.respondToByte c = Except.ok s' ∧
        s'.serial_read_state = SINGLE_CHAR ∧ s'.stream_chars_received = 0 ∧
        s'.processStreamCalls = s.processStreamCalls + 1) ∧
    (c = DATASTREAM_END_CHAR →
      (∀ j, j < MAX_DATASTREAM_LENGTH → s.stream_data j ≠ DATASTREAM_SEPARATOR) →
      s.respondToByte c = Except.error (Fault.read_out_of_bounds 1024)) := by
  have hr : ¬ s.stream_chars_received < s.stream_length := by omega
  refine ⟨?_, ?_, ?_⟩
  · intro hc
    refine ⟨_, respondToByte_not_end s c hstate hr hc, rfl, rfl, ?_, ?_, rfl⟩
    · simp [processStreamCalls, isProcessStream]
    · simp [decodedRecords, isUpdate]
  · intro hc hsep
    subst hc
    obtain ⟨s', k1, k2, k3, _, _, k6⟩ := respondToByte_end_ok s hstate hr hsep
    exact ⟨s', k1, k2, k3, k6⟩
  · intro hc hno
    subst hc
    exact respondToByte_end_fault s hstate hr hno

theorem le32_zero : le32 0 = [0, 0, 0, 0] := by decide

/-- C19 (counterexample): on a manager whose buffer is all zero, the empty frame
`0x02 00 00 00 00 0x03` leaves the state `STREAM_DATA` with declared length 0
and 0 bytes received; the next byte `0x04` starts `processStream()`, whose tag
scan finds no `0x03` and reads `stream_data[1024]`: the call does not return to
`SINGLE_CHAR`. -/
theorem empty_frame_faults :
    ∃ s, zeroed.respondToBytes ([DATASTREAM_START_CHAR] ++ le32 0 ++ [DATASTREAM_SEPARATOR])
        = Except.ok s ∧
      s.serial_read_state = STREAM_DATA ∧ s.stream_length ≤ s.stream_chars_received ∧
      s.stream_length = 0 ∧ s.stream_chars_received = 0 ∧
      s.respondToByte DATASTREAM_END_CHAR = Except.error (Fault.read_out_of_bounds 1024) := by
  have e0 := respondToByte_start zeroed rfl
  obtain ⟨s2, k1, k2, k3, k4, _, _, d0, d1, d2, d3, d4, _⟩ := respondToBytes_length
    ({ zeroed.log (Event.Serial (Printed.str "Start data stream.") true) with
        serial_read_state := STREAM_LENGTH, stream_chars_received := 0 } : SerialManager)
    0 0 0 0 rfl rfl (by decide) (by decide) (by decide) (by decide)
  have hl : s2.stream_length = 0 := by rw [k4]; decide
  refine ⟨s2, ?_, k2, by rw [hl, k3], hl, k3, ?_⟩
  · rw [le32_zero]
    exact (respondToBytes_cons_ok _ _ _ _ e0).trans k1
  · refine respondToByte_end_fault s2 k2 (by rw [hl, k3]; decide) ?_
    intro j _
    by_cases h4 : 4 ≤ j
    · rw [d4 j h4]; exact (by decide : (0 : char) ≠ DATASTREAM_SEPARATOR)
    · have : j = 0 ∨ j = 1 ∨ j = 2 ∨ j = 3 := by omega
      rcases this with rfl | rfl | rfl | rfl
      · rw [d0]; decide
      · rw [d1]; decide
      · rw [d2]; decide
      · rw [d3]; decide


theorem le32_word (n : Nat) (h : n < 4294967296) :
    ((Fin.ofNat (n % 256) : char).val + 256 * (Fin.ofNat (n / 256 % 256) : char).val
      + 65536 * (Fin.ofNat (n / 65536 % 256) : char).val
      + 16777216 * (Fin.ofNat (n / 16777216 % 256) : char).val : Nat) = n := by
  show n % 256 % 256 + 256 * (n / 256 % 256 % 256) + 65536 * (n / 65536 % 256 % 256)
    + 16777216 * (n / 16777216 % 256 % 256) = n
  omega

/-- C18 (amended): for every payload of `L ≤ MAX_DATASTREAM_LENGTH` bytes that
contains a `0x03` and whose length has no byte `0x03` among its four
little-endian bytes, feeding `respondToByte` from the state `SINGLE_CHAR` the
bytes `0x02`, the four bytes of `L`, `0x03`, the payload and `0x04` returns in
the state `SINGLE_CHAR` with the counter 0, `stream_length = L`, the payload in
`stream_data[0 .. L-1]`, and exactly one more call of `processStream()`. -/
theorem frame_decoded (s : SerialManager) (payload : List char)
    (hstate : s.serial_read_state = SINGLE_CHAR)
    (hlen : payload.length ≤ MAX_DATASTREAM_LENGTH)
    (hbytes : DATASTREAM_SEPARATOR ∉ le32 payload.length)
    (hsep : DATASTREAM_SEPARATOR ∈ payload) :
    ∃ s', s.respondToBytes ([DATASTREAM_START_CHAR] ++ le32 payload.length
        ++ [DATASTREAM_SEPARATOR] ++ payload ++ [DATASTREAM_END_CHAR]) = Except.ok s' ∧
      s'.serial_read_state = SINGLE_CHAR ∧ s'.stream_chars_received = 0 ∧
      s'.stream_length = payload.length ∧
      (∀ i (h : i < payload.length), s'.stream_data i = payload.get ⟨i, h⟩) ∧
      s'.processStreamCalls = s.processStreamCalls + 1 := by
  have hL : payload.length ≤ 1024 := hlen
  simp only [le32, List.mem_cons, List.mem_singleton, List.not_mem_nil, or_false, not_or]
    at hbytes
  obtain ⟨n0, n1, n2, n3⟩ := hbytes
  -- the start marker
  have e0 := respondToByte_start s hstate
  -- the length field
  obtain ⟨s2, k1, k2, k3, k4, k5, _, _, _, _, _, _, _⟩ := respondToBytes_length
    ({ s.log (Event.Serial (Printed.str "Start data stream.") true) with
        serial_read_state := STREAM_LENGTH, stream_chars_received := 0 } : SerialManager)
    (Fin.ofNat (payload.length % 256)) (Fin.ofNat (payload.length / 256 % 256))
    (Fin.ofNat (payload.length / 65536 % 256)) (Fin.ofNat (payload.length / 16777216 % 256))
    rfl rfl (Ne.symm n0) (Ne.symm n1) (Ne.symm n2) (Ne.symm n3)
  have hl2 : s2.stream_length = payload.length := by
    rw [k4, le32_word _ (by omega), AudioSDWriter_F32.int32_of_small _ (by omega) (by omega)]
  have hc2 : s2.processStreamCalls = s.processStreamCalls := by
    rw [k5]
    simp [processStreamCalls, log, isProcessStream]
  -- the payload
  obtain ⟨s3, p1, p2, p3, p4, p5, _, p7, _⟩ := respondToBytes_payload payload s2 0 k2
    (by simpa using k3) (by simpa using hlen) (by rw [hl2]; simp)
  simp only [Nat.zero_add] at p3 p7
  -- the end marker
  obtain ⟨i, hget⟩ := List.mem_iff_get.mp hsep
  obtain ⟨s4, q1, q2, q3, q4, q5, q6⟩ := respondToByte_end_ok s3 p2
    (by rw [p3, p4, hl2]; omega)
    ⟨i.val, by have := i.isLt; unfold MAX_DATASTREAM_LENGTH; omega,
      by rw [p7 i.val i.isLt]; exact hget⟩
  have hc3 : s3.processStreamCalls = s2.processStreamCalls := by
    simp only [processStreamCalls, p5]
  have hlist : [DATASTREAM_START_CHAR] ++ le32 payload.length ++ [DATASTREAM_SEPARATOR]
      ++ payload ++ [DATASTREAM_END_CHAR] =
      DATASTREAM_START_CHAR :: ([Fin.ofNat (payload.length % 256),
        Fin.ofNat (payload.length / 256 % 256), Fin.ofNat (payload.length / 65536 % 256),
        Fin.ofNat (payload.length / 16777216 % 256), DATASTREAM_SEPARATOR]
          ++ (payload ++ [DATASTREAM_END_CHAR])) := by
    simp [le32]
  refine ⟨s4, ?_, q2, q3, by rw [q5, p4, hl2], fun j hj => by rw [q4, p7 j hj],
    by rw [q6, hc3, hc2]⟩
  rw [hlist, respondToBytes_cons_ok _ _ _ _ e0, respondToBytes_append, k1, except_bind_ok,
    respondToBytes_append, p1, except_bind_ok, respondToBytes_single, q1]


/-- C20 (amended): in state `STREAM_LENGTH` with no length byte accumulated,
four bytes other than `0x03` that encode a length above
`MAX_DATASTREAM_LENGTH`, followed by `0x03`, are accepted: the state becomes
`STREAM_DATA`, `stream_length` is the declared length, the counter is 0 and the
only output is the two prints of the length.  Every following run of at most
`MAX_DATASTREAM_LENGTH` bytes is stored in `stream_data` from index 0 on, in
state `STREAM_DATA`, without any report; after `MAX_DATASTREAM_LENGTH` bytes
the next byte, whatever it is, is stored at index 1024, outside the buffer. -/
theorem oversize_length_accepted (s : SerialManager) (b0 b1 b2 b3 : char)
    (hstate : s.serial_read_state = STREAM_LENGTH) (hk : s.stream_chars_received = 0)
    (h0 : b0 ≠ DATASTREAM_SEPARATOR) (h1 : b1 ≠ DATASTREAM_SEPARATOR)
    (h2 : b2 ≠ DATASTREAM_SEPARATOR) (h3 : b3 ≠ DATASTREAM_SEPARATOR)
    (hbig : (MAX_DATASTREAM_LENGTH : Int) <
      int32 (b0.val + 256 * b1.val + 65536 * b2.val + 16777216 * b3.val : Nat)) :
    ∃ s2, s.respondToBytes [b0, b1, b2, b3, DATASTREAM_SEPARATOR] = Except.ok s2 ∧
      s2.serial_read_state = STREAM_DATA ∧ s2.stream_chars_received = 0 ∧
      s2.stream_length =
        int32 (b0.val + 256 * b1.val + 65536 * b2.val + 16777216 * b3.val : Nat) ∧
      s2.events =
        Event.Serial (Printed.int
          (int32 (b0.val + 256 * b1.val + 65536 * b2.val + 16777216 * b3.val : Nat))) true ::
        Event.Serial (Printed.str "Stream length = ") false :: s.events ∧
      ∀ p : List char, p.length ≤ MAX_DATASTREAM_LENGTH →
        ∃ s3, s2.respondToBytes p = Except.ok s3 ∧
          s3.serial_read_state = STREAM_DATA ∧ s3.stream_chars_received = p.length ∧
          s3.events = s2.events ∧
          (∀ i (h : i < p.length), s3.stream_data i = p.get ⟨i, h⟩) ∧
          (p.length = MAX_DATASTREAM_LENGTH →
            ∀ c : char, s3.respondToByte c = Except.error (Fault.store_out_of_bounds 1024)) := by
  obtain ⟨s2, k1, k2, k3, k4, _, _, _, _, _, _, _, k12⟩ :=
    respondToBytes_length s b0 b1 b2 b3 hstate hk h0 h1 h2 h3
  refine ⟨s2, k1, k2, k3, k4, k12, ?_⟩
  intro p hp
  have hbig' : ((MAX_DATASTREAM_LENGTH : Nat) : Int) < s2.stream_length := by rw [k4]; exact hbig
  obtain ⟨s3, p1, p2, p3, p4, p5, _, p7, _⟩ := respondToBytes_payload p s2 0 k2
    (by simpa using k3) (by simpa using hp) (by simp only [Nat.zero_add]; omega)
  simp only [Nat.zero_add] at p3 p7
  refine ⟨s3, p1, p2, p3, p5, p7, ?_⟩
  intro hfull c
  exact respondToByte_data_overflow s3 c p2 (by rw [p3, hfull]) (by rw [p4]; exact hbig')

theorem toOption_map_eq_some {α : Type} {r : Except Fault SerialManager}
    {f : SerialManager → α} {v : α} (h : r.toOption.map f = some v) :
    ∃ s, r = Except.ok s ∧ f s = v := by
  cases r with
  | error e => simp [Except.toOption] at h
  | ok s => exact ⟨s, rfl, by simpa [Except.toOption] using h⟩

/-- C18 (counterexample): for the three-byte payload `5A 03 5A` the frame
`0x02 03 00 00 00 0x03 5A 03 5A 0x04`, fed from the state `SINGLE_CHAR`, is
consumed without any call of `processStream()`: the first length byte is
`0x03` and ends the length field at once. -/
theorem frame_of_length_three_not_decoded :
    ([90, 3, 90] : List char).length ≤ MAX_DATASTREAM_LENGTH ∧
    zeroed.serial_read_state = SINGLE_CHAR ∧
    ∃ s', zeroed.respondToBytes ([DATASTREAM_START_CHAR] ++ le32 ([90, 3, 90] : List char).length
        ++ [DATASTREAM_SEPARATOR] ++ [90, 3, 90] ++ [DATASTREAM_END_CHAR]) = Except.ok s' ∧
      s'.processStreamCalls = zeroed.processStreamCalls := by
  refine ⟨by decide, rfl, ?_⟩
  have key : (zeroed.respondToBytes ([DATASTREAM_START_CHAR]
      ++ le32 ([90, 3, 90] : List char).length
      ++ [DATASTREAM_SEPARATOR] ++ [90, 3, 90] ++ [DATASTREAM_END_CHAR])).toOption.map
      (fun s => s.processStreamCalls) = some zeroed.processStreamCalls := by decide
  exact toOption_map_eq_some key

/-- The frame of the payload `74 03` (the tag `t` and the separator) on the
zeroed manager. -/
theorem frame_decoded_witness :
    zeroed.serial_read_state = SINGLE_CHAR ∧
    ([116, 3] : List char).length ≤ MAX_DATASTREAM_LENGTH ∧
    DATASTREAM_SEPARATOR ∉ le32 ([116, 3] : List char).length ∧
    DATASTREAM_SEPARATOR ∈ ([116, 3] : List char) ∧
    ∃ s', zeroed.respondToBytes ([DATASTREAM_START_CHAR] ++ le32 ([116, 3] : List char).length
        ++ [DATASTREAM_SEPARATOR] ++ [116, 3] ++ [DATASTREAM_END_CHAR]) = Except.ok s' ∧
      s'.serial_read_state = SINGLE_CHAR ∧ s'.stream_chars_received = 0 ∧
      s'.stream_length = 2 ∧ s'.stream_data 0 = 116 ∧ s'.stream_data 1 = 3 ∧
      s'.processStreamCalls = zeroed.processStreamCalls + 1 := by
  obtain ⟨s', k1, k2, k3, k4, k5, k6⟩ :=
    frame_decoded zeroed [116, 3] rfl (by decide) (by decide) (by decide)
  exact ⟨rfl, by decide, by decide, by decide, s', k1, k2, k3, k4,
    k5 0 (by decide), k5 1 (by decide), k6⟩

/-- The bytes `0x05` and `0x04` after the complete payload `74 03`. -/
theorem streamData_terminator_witness :
    tagReceived.serial_read_state = STREAM_DATA ∧
    tagReceived.stream_length ≤ tagReceived.stream_chars_received ∧
    (∃ s', tagReceived.respondToByte 5 = Except.ok s' ∧
        s'.serial_read_state = SINGLE_CHAR ∧ s'.stream_chars_received = 0 ∧
        s'.processStreamCalls = tagReceived.processStreamCalls ∧
        s'.decodedRecords = tagReceived.decodedRecords ∧
        s'.events =
          Event.myTympan (Printed.str " instead.") true ::
          Event.myTympan (Printed.hex (5 : char).val) false ::
          Event.myTympan (Printed.str "; found ") false ::
          Event.myTympan (Printed.hex DATASTREAM_END_CHAR.val) false ::
          Event.myTympan (Printed.str "ERROR: Expected string terminator ") false ::
          tagReceived.events) ∧
    (∃ s', tagReceived.respondToByte DATASTREAM_END_CHAR = Except.ok s' ∧
        s'.serial_read_state = SINGLE_CHAR ∧ s'.stream_chars_received = 0 ∧
        s'.processStreamCalls = tagReceived.processStreamCalls + 1) :=
  ⟨rfl, by decide,
   (streamData_terminator tagReceived 5 rfl (by decide)).1 (by decide),
   (streamData_terminator tagReceived DATASTREAM_END_CHAR rfl (by decide)).2.1 rfl
     ⟨1, by decide, rfl⟩⟩

/-- C20 (counterexample): the declared length 1025 is above
`MAX_DATASTREAM_LENGTH`, yet after `0x02 01 04 00 00 0x03 5A` the state is
`STREAM_DATA` and not `SINGLE_CHAR`, `stream_length` is 1025, the payload byte
`5A` is stored in `stream_data[0]`, and nothing but the start notice and the
length was printed. -/
theorem oversize_length_not_rejected :
    (MAX_DATASTREAM_LENGTH : Int) < 1025 ∧
    ∃ s', zeroed.respondToBytes ([DATASTREAM_START_CHAR] ++ le32 1025
        ++ [DATASTREAM_SEPARATOR] ++ [90]) = Except.ok s' ∧
      s'.serial_read_state = STREAM_DATA ∧ s'.stream_length = 1025 ∧
      s'.stream_chars_received = 1 ∧ s'.stream_data 0 = 90 ∧
      s'.events =
        [Event.Serial (Printed.int 1025) true,
         Event.Serial (Printed.str "Stream length = ") false,
         Event.Serial (Printed.str "Start data stream.") true] := by
  refine ⟨by decide, ?_⟩
  have key : (zeroed.respondToBytes ([DATASTREAM_START_CHAR] ++ le32 1025
      ++ [DATASTREAM_SEPARATOR] ++ [90])).toOption.map
      (fun s => (s.serial_read_state, s.stream_length, s.stream_chars_received,
        s.stream_data 0, s.events)) =
      some (STREAM_DATA, 1025, 1, 90,
        [Event.Serial (Printed.int 1025) true,
         Event.Serial (Printed.str "Stream length = ") false,
         Event.Serial (Printed.str "Start data stream.") true]) := by decide
  obtain ⟨s, h1, h2⟩ := toOption_map_eq_some key
  simp only [Prod.mk.injEq] at h2
  exact ⟨s, h1, h2.1, h2.2.1, h2.2.2.1, h2.2.2.2.1, h2.2.2.2.2⟩

/-- The length bytes `01 04 00 00` (1025) and then 1024 payload bytes and one
more. -/
theorem oversize_length_accepted_witness :
    lengthPending.serial_read_state = STREAM_LENGTH ∧
    lengthPending.stream_chars_received = 0 ∧
    ∃ s2 s3, lengthPending.respondToBytes [1, 4, 0, 0, DATASTREAM_SEPARATOR] = Except.ok s2 ∧
      s2.serial_read_state = STREAM_DATA ∧ s2.stream_chars_received = 0 ∧
      s2.stream_length = 1025 ∧
      s2.respondToBytes (List.replicate MAX_DATASTREAM_LENGTH 90) = Except.ok s3 ∧
      s3.stream_chars_received = 1024 ∧
      s3.respondToByte 90 = Except.error (Fault.store_out_of_bounds 1024) := by
  obtain ⟨s2, k1, k2, k3, k4, _, k6⟩ := oversize_length_accepted lengthPending 1 4 0 0
    rfl rfl (by decide) (by decide) (by decide) (by decide) (by decide)
  have hlen : (List.replicate MAX_DATASTREAM_LENGTH (90 : char)).length
      = MAX_DATASTREAM_LENGTH := List.length_replicate _ _
  obtain ⟨s3, p1, _, p3, _, _, p6⟩ := k6 (List.replicate MAX_DATASTREAM_LENGTH 90)
    (le_of_eq hlen)
  refine ⟨rfl, rfl, s2, s3, k1, k2, k3, by rw [k4]; decide, p1, ?_, p6 hlen 90⟩
  rw [p3, hlen]
  rfl

end SerialManager
end WDRC_3Band

/-! ## State and open file, the channel count, the counter and explicit names (C26, C27, C30) -/

namespace AudioSDWriter_F32

theorem fileInv_constructed (s : AudioSDWriter_F32) (h : Constructed s) : FileInv s := by
  rcases h with ⟨d, rfl⟩ | ⟨fs, d, r, rfl⟩ | ⟨fs, p, d, r, rfl⟩ | ⟨fs, p, n, r, rfl⟩ <;>
    simp [FileInv, openFiles, callsOf, openFilesAfter, AudioSDWriter_F32.new, new_settings,
      new_settings_serial, new_settings_serial_size, setup, setup_serial, setup_serial_size,
      setSerial, setWriteDataType, stopRecording, setSampleRate_Hz]

set_option maxHeartbeats 1600000 in
theorem fileInv_step (s : AudioSDWriter_F32) (op : Op) (h : FileInv s) : FileInv (s.step op) := by
  obtain ⟨st, wd, rc, nw, bs, sp, ts, so⟩ := s
  cases op
  case startRecording o t =>
    by_cases hc : int32 (rc + 1) < 1000 <;>
      cases st <;> cases bs <;> cases sp <;> cases o <;>
      simp_all [-not_lt, FileInv, openFiles, callsOf, openFilesAfter, BufferedSDWriter.call,
        step, AudioSDWriter_F32.startRecording, AudioSDWriter_F32.startRecording_fname,
        AudioSDWriter_F32.prepareSDforRecording, AudioSDWriter_F32.openAsWAV,
        AudioSDWriter_F32.print, AudioSDWriter_F32.println, AudioSDWriter_F32.resetBuffer,
        AudioSDWriter_F32.setStartTimeMillis, PRINT_FULL_SD_TIMING] <;> omega
  case startRecording_fname f o t =>
    cases st <;> cases bs <;> cases sp <;> cases o <;>
      simp_all [FileInv, openFiles, callsOf, openFilesAfter, BufferedSDWriter.call,
        step, AudioSDWriter_F32.startRecording_fname, AudioSDWriter_F32.openAsWAV,
        AudioSDWriter_F32.print, AudioSDWriter_F32.println, AudioSDWriter_F32.resetBuffer,
        AudioSDWriter_F32.setStartTimeMillis] <;> omega
  all_goals
    cases st <;> cases bs <;> cases sp <;>
    simp_all [FileInv, openFiles, callsOf, openFilesAfter, BufferedSDWriter.call,
      step, AudioSDWriter_F32.setup, AudioSDWriter_F32.setup_serial,
      AudioSDWriter_F32.setup_serial_size, AudioSDWriter_F32.setSerial,
      AudioSDWriter_F32.setWriteDataType_type, AudioSDWriter_F32.setWriteDataType,
      AudioSDWriter_F32.setWriteSizeBytes, AudioSDWriter_F32.setNumWriteChannels,
      AudioSDWriter_F32.setSampleRate_Hz, AudioSDWriter_F32.prepareSDforRecording,
      AudioSDWriter_F32.stopRecording, AudioSDWriter_F32.update, AudioSDWriter_F32.serviceSD,
      AudioSDWriter_F32.resetNBlocksWritten, AudioSDWriter_F32.setStartTimeMillis,
      AudioSDWriter_F32.close, AudioSDWriter_F32.resetBuffer, AudioSDWriter_F32.openAsWAV,
      AudioSDWriter_F32.print, AudioSDWriter_F32.println, PRINT_FULL_SD_TIMING]

theorem fileInv_run (ops : List Op) : ∀ s : AudioSDWriter_F32, FileInv s → FileInv (s.run ops) := by
  induction ops with
  | nil => intro s h; exact h
  | cons op ops ih => intro s h; exact ih _ (fileInv_step s op h)

/-- C26: in every state reached from a constructed controller through any
sequence of the public operations, with a file counted as open after an
`openAsWAV` that the sink answered with true and as closed after `close`, the
state is `RECORDING` if and only if one file is open, and at most one file is
open. -/
theorem recording_iff_file_open (s : AudioSDWriter_F32) (ops : List Op) (h : Constructed s) :
    ((s.run ops).current_SD_state = STATE.RECORDING ↔ (s.run ops).openFiles = 1) ∧
    (s.run ops).openFiles ≤ 1 :=
  fileInv_run ops s (fileInv_constructed s h)

/-- A recording session on the fresh controller, and the same session after
`stopRecording()`. -/
theorem recording_iff_file_open_witness :
    Constructed fresh ∧
    (((fresh.run [Op.startRecording true 0, Op.update (fun _ => none), Op.serviceSD 0]
        ).current_SD_state = STATE.RECORDING ↔
      (fresh.run [Op.startRecording true 0, Op.update (fun _ => none), Op.serviceSD 0]
        ).openFiles = 1) ∧
    (fresh.run [Op.startRecording true 0, Op.update (fun _ => none), Op.serviceSD 0]
      ).openFiles ≤ 1) ∧
    (fresh.run [Op.startRecording true 0, Op.update (fun _ => none), Op.serviceSD 0]
      ).current_SD_state = STATE.RECORDING :=
  ⟨Or.inl ⟨512, rfl⟩,
   recording_iff_file_open fresh
     [Op.startRecording true 0, Op.update (fun _ => none), Op.serviceSD 0] (Or.inl ⟨512, rfl⟩),
   by decide⟩

/-- C27 (code): after `setNumWriteChannels(1)` on a recording controller the
sink has been told `setNChanWAV(1)`, yet `getNumWriteChannels()` still returns
2 and the next `update()` hands two channels to `copyToWriteBuffer`; the
method of the base class would have stored `max(1, min(1, 2)) = 1`. -/
theorem setNumWriteChannels_keeps_numWriteChannels :
    (callsOf (recording1.setNumWriteChannels 1 1).2).head? = some (SinkCall.setNChanWAV 1 1) ∧
    (recording1.setNumWriteChannels 1 1).2.getNumWriteChannels = 2 ∧
    (callsOf ((recording1.setNumWriteChannels 1 1).2.update (fun _ => none)).1).head? =
      some (SinkCall.copyToWriteBuffer [none, none] 2) ∧
    (AudioSDWriter.setNumWriteChannels recording1 1).2.getNumWriteChannels = 1 := by
  decide

/-- C30: `startRecording(name)` neither reads nor writes `recording_count`:
for every controller and every counter value `rc`, the call on the controller
with its counter replaced by `rc` returns the same value and ends in the same
controller state as the call on the controller itself, the two results differ
in nothing but the counter, and the counter after the call is the counter
before it. -/
theorem startRecording_fname_ignores_count (s : AudioSDWriter_F32) (rc : Int)
    (fname : List Char) (openRet : Bool) (now : Nat) :
    (({ s with recording_count := rc } : AudioSDWriter_F32).startRecording_fname
        fname openRet now).1 = (s.startRecording_fname fname openRet now).1 ∧
    (({ s with recording_count := rc } : AudioSDWriter_F32).startRecording_fname
        fname openRet now).2.current_SD_state =
      (s.startRecording_fname fname openRet now).2.current_SD_state ∧
    (({ s with recording_count := rc } : AudioSDWriter_F32).startRecording_fname
        fname openRet now).2 =
      { (s.startRecording_fname fname openRet now).2 with recording_count := rc } ∧
    (s.startRecording_fname fname openRet now).2.recording_count = s.recording_count := by
  obtain ⟨st, wd, c, nw, bs, sp, ts, so⟩ := s
  cases st <;> cases bs <;> cases sp <;> cases openRet <;>
    simp [AudioSDWriter_F32.startRecording_fname, AudioSDWriter_F32.openAsWAV,
      AudioSDWriter_F32.print, AudioSDWriter_F32.println, AudioSDWriter_F32.resetBuffer,
      AudioSDWriter_F32.setStartTimeMillis]

end AudioSDWriter_F32

/-! ## The length field, the tag scan and the dispatch (C21, C22, C29) -/

namespace WDRC_3Band
namespace SerialManager

theorem respondToByte_length_overflow (s : SerialManager) (c : char)
    (h : s.serial_read_state = STREAM_LENGTH) (hc : c ≠ DATASTREAM_SEPARATOR)
    (hk : s.stream_chars_received = (MAX_DATASTREAM_LENGTH : Nat)) :
    s.respondToByte c = Except.error (Fault.store_out_of_bounds 1024) := by
  unfold respondToByte
  rw [if_neg (by rw [h]; decide), if_pos h, if_neg hc]
  unfold store
  rw [if_neg (by rw [hk]; simp), hk]
  rfl

theorem respondToBytes_cons_error (s : SerialManager) (c : char) (cs : List char) (e : Fault)
    (h : s.respondToByte c = Except.error e) :
    s.respondToBytes (c :: cs) = Except.error e := by
  simp only [respondToBytes, h]
  rfl

/-- Bytes other than the separator fed in state `STREAM_LENGTH` while the
array is not full: every byte is stored at the next index and nothing else
changes. -/
theorem respondToBytes_lengthBytes (p : List char) : ∀ (s : SerialManager) (k : Nat),
    s.serial_read_state = STREAM_LENGTH → s.stream_chars_received = k →
    (∀ c ∈ p, c ≠ DATASTREAM_SEPARATOR) →
    k + p.length ≤ MAX_DATASTREAM_LENGTH →
    ∃ s', s.respondToBytes p = Except.ok s' ∧
      s'.serial_read_state = STREAM_LENGTH ∧
      s'.stream_chars_received = ((k + p.length : Nat) : Int) ∧
      s'.stream_length = s.stream_length ∧ s'.events = s.events ∧ s'.N_CHAN = s.N_CHAN ∧
      (∀ i (h : i < p.length), s'.stream_data (k + i) = p.get ⟨i, h⟩) ∧
      (∀ i, (i < k ∨ k + p.length ≤ i) → s'.stream_data i = s.stream_data i) := by
  induction p with
  | nil =>
    intro s k h1 h2 _ _
    exact ⟨s, rfl, h1, by simpa using h2, rfl, rfl, rfl, fun i h => absurd h (by simp),
      fun _ _ => rfl⟩
  | cons c cs ih =>
    intro s k h1 h2 hne h3
    simp only [List.length_cons] at h3
    have hstep := respondToByte_length_byte s c k h1 (hne c (List.mem_cons_self _ _)) h2
      (by omega)
    obtain ⟨s', e1, e2, e3, e4, e5, e6, e7, e8⟩ := ih
      { s with
        stream_data := Function.update s.stream_data k c
        stream_chars_received := ((k + 1 : Nat) : Int) } (k + 1) h1 rfl
      (fun c' hc' => hne c' (List.mem_cons_of_mem _ hc')) (by omega)
    refine ⟨s', ?_, e2, ?_, e4, e5, e6, ?_, ?_⟩
    · simp only [respondToBytes, hstep]
      exact e1
    · rw [e3]; simp only [List.length_cons]; push_cast; ring
    · intro i hi
      cases i with
      | zero =>
        rw [Nat.add_zero, e8 k (Or.inl (by omega))]
        simp
      | succ i =>
        have := e7 i (by simpa using hi)
        rw [show k + (i + 1) = k + 1 + i by omega, this]
        rfl
    · intro i hi
      rw [e8 i (by simp only [List.length_cons] at hi; omega)]
      simp only [Function.update]
      have : i ≠ k := by simp only [List.length_cons] at hi; omega
      simp [this]

/-- C21 (amended): in state `STREAM_LENGTH` with no byte accumulated yet, for
every sequence `b0, b1, b2, b3, rest` of at least 4 and at most
`MAX_DATASTREAM_LENGTH` bytes none of which is `0x03`, followed by the
separator `0x03`: `respondToByte` returns for every byte, `stream_length`
becomes `b0 + 256*b1 + 65536*b2 + 16777216*b3` as a signed 32 bit value, the
state becomes `STREAM_DATA` and `stream_chars_received` is 0. -/
theorem length_field_decoded (s : SerialManager) (b0 b1 b2 b3 : char) (rest : List char)
    (hstate : s.serial_read_state = STREAM_LENGTH) (hk : s.stream_chars_received = 0)
    (hne : ∀ c ∈ b0 :: b1 :: b2 :: b3 :: rest, c ≠ DATASTREAM_SEPARATOR)
    (hfit : (b0 :: b1 :: b2 :: b3 :: rest).length ≤ MAX_DATASTREAM_LENGTH) :
    ∃ s', s.respondToBytes (b0 :: b1 :: b2 :: b3 :: rest ++ [DATASTREAM_SEPARATOR])
        = Except.ok s' ∧
      s'.stream_length =
        int32 (b0.val + 256 * b1.val + 65536 * b2.val + 16777216 * b3.val : Nat) ∧
      s'.serial_read_state = STREAM_DATA ∧ s'.stream_chars_received = 0 := by
  obtain ⟨s1, k1, k2, _, _, _, _, k7, _⟩ := respondToBytes_lengthBytes
    (b0 :: b1 :: b2 :: b3 :: rest) s 0 hstate (by simpa using hk) hne (by omega)
  have d0 : s1.stream_data 0 = b0 := k7 0 (by simp)
  have d1 : s1.stream_data 1 = b1 := k7 1 (by simp)
  have d2 : s1.stream_data 2 = b2 := k7 2 (by simp)
  have d3 : s1.stream_data 3 = b3 := k7 3 (by simp)
  have hres := respondToBytes_append (b0 :: b1 :: b2 :: b3 :: rest) s [DATASTREAM_SEPARATOR]
  rw [k1, except_bind_ok, respondToBytes_single, respondToByte_separator s1 k2] at hres
  refine ⟨_, hres, ?_, rfl, rfl⟩
  show int32 _ = _
  rw [d0, d1, d2, d3]

set_option maxRecDepth 10000 in
/-- The length bytes `01 02 00 00 05` and the separator after the start
marker. -/
theorem length_field_decoded_witness :
    lengthPending.serial_read_state = STREAM_LENGTH ∧
    lengthPending.stream_chars_received = 0 ∧
    (∀ c ∈ ([1, 2, 0, 0, 5] : List char), c ≠ DATASTREAM_SEPARATOR) ∧
    ([1, 2, 0, 0, 5] : List char).length ≤ MAX_DATASTREAM_LENGTH ∧
    ∃ s', lengthPending.respondToBytes ([1, 2, 0, 0, 5] ++ [DATASTREAM_SEPARATOR])
        = Except.ok s' ∧
      s'.stream_length = 513 ∧
      s'.serial_read_state = STREAM_DATA ∧ s'.stream_chars_received = 0 := by
  obtain ⟨s', k1, k2, k3, k4⟩ := length_field_decoded lengthPending 1 2 0 0 [5] rfl rfl
    (by decide) (by decide)
  exact ⟨rfl, rfl, by decide, by decide, s', k1, by rw [k2]; decide, k3, k4⟩

/-- C21 (counterexample): in state `STREAM_LENGTH` with no byte accumulated,
1025 bytes `5A` followed by the separator: the first 1024 bytes fill
`stream_data`, the next one is stored at index 1024, outside the array, and
`stream_length` is never assigned. -/
theorem length_field_overflows :
    lengthPending.serial_read_state = STREAM_LENGTH ∧
    4 ≤ (List.replicate 1025 (90 : char)).length ∧
    (∀ c ∈ List.replicate 1025 (90 : char), c ≠ DATASTREAM_SEPARATOR) ∧
    lengthPending.respondToBytes (List.replicate 1025 90 ++ [DATASTREAM_SEPARATOR])
      = Except.error (Fault.store_out_of_bounds 1024) := by
  refine ⟨rfl, by rw [List.length_replicate]; decide, ?_, ?_⟩
  · intro c hc
    rw [List.eq_of_mem_replicate hc]
    decide
  · obtain ⟨s1, k1, k2, k3, _⟩ := respondToBytes_lengthBytes
      (List.replicate 1024 (90 : char)) lengthPending 0 rfl rfl
      (fun c hc => by rw [List.eq_of_mem_replicate hc]; decide)
      (by rw [List.length_replicate]; decide)
    rw [List.length_replicate] at k3
    have e : List.replicate 1025 (90 : char) ++ [DATASTREAM_SEPARATOR]
        = List.replicate 1024 (90 : char) ++ (90 :: [DATASTREAM_SEPARATOR]) := by
      rw [show (1025 : Nat) = 1024 + 1 from rfl, List.replicate_succ', List.append_assoc]
      rfl
    rw [e, respondToBytes_append, k1, except_bind_ok]
    exact respondToBytes_cons_error s1 90 _ _
      (respondToByte_length_overflow s1 90 k2 (by decide) k3)

/-- What a successful tag scan returns: the bytes before the first separator
at or after `idx`, and the index of that separator. -/
theorem scanTag_spec (data : Nat → char) (fuel : Nat) : ∀ (idx : Nat) (t : List char) (i : Nat),
    scanTag data idx fuel = Except.ok (t, i) →
    i = idx + t.length ∧ i < idx + fuel ∧ data i = DATASTREAM_SEPARATOR ∧
      (∀ k (h : k < t.length), data (idx + k) = t.get ⟨k, h⟩) ∧
      (∀ c ∈ t, c ≠ DATASTREAM_SEPARATOR) := by
  induction fuel with
  | zero => intro idx t i h; simp [scanTag] at h
  | succ fuel ih =>
    intro idx t i h
    by_cases h0 : data idx = DATASTREAM_SEPARATOR
    · simp only [scanTag, h0, if_true, Except.ok.injEq, Prod.mk.injEq] at h
      obtain ⟨rfl, rfl⟩ := h
      exact ⟨by simp, by omega, h0, fun k hk => absurd hk (by simp), by simp⟩
    · simp only [scanTag, h0, if_false] at h
      cases hr : scanTag data (idx + 1) fuel with
      | error e => rw [hr] at h; simp [Except.map] at h
      | ok r =>
        obtain ⟨t', i'⟩ := r
        rw [hr] at h
        simp only [Except.map, Except.ok.injEq, Prod.mk.injEq] at h
        obtain ⟨rfl, rfl⟩ := h
        obtain ⟨a1, a2, a3, a4, a5⟩ := ih (idx + 1) t' i' hr
        refine ⟨by simp only [List.length_cons]; omega, by omega, a3, ?_, ?_⟩
        · intro k hk
          cases k with
          | zero => rfl
          | succ k =>
            have := a4 k (by simpa using hk)
            rw [show idx + (k + 1) = idx + 1 + k by omega, this]
            rfl
        · intro c hc
          rcases List.mem_cons.mp hc with rfl | hc
          · exact h0
          · exact a5 c hc

/-- The tag scan on a buffer that holds the tag `t` (no separator in it) from
`idx` on, followed by a separator. -/
theorem scanTag_tag (data : Nat → char) (t : List char) : ∀ (idx fuel : Nat),
    (∀ k (h : k < t.length), data (idx + k) = t.get ⟨k, h⟩) →
    data (idx + t.length) = DATASTREAM_SEPARATOR →
    (∀ c ∈ t, c ≠ DATASTREAM_SEPARATOR) → t.length < fuel →
    scanTag data idx fuel = Except.ok (t, idx + t.length) := by
  induction t with
  | nil =>
    intro idx fuel _ hsep _ hf
    cases fuel with
    | zero => simp at hf
    | succ fuel =>
      have : data idx = DATASTREAM_SEPARATOR := by simpa using hsep
      simp [scanTag, this]
  | cons c cs ih =>
    intro idx fuel hdata hsep hne hf
    cases fuel with
    | zero => simp at hf
    | succ fuel =>
      have hc : data idx = c := by simpa using hdata 0 (by simp)
      have h0 : data idx ≠ DATASTREAM_SEPARATOR := by
        rw [hc]; exact hne c (List.mem_cons_self _ _)
      have hrec := ih (idx + 1) fuel
        (fun k hk => by
          have := hdata (k + 1) (by simpa using hk)
          rw [show idx + 1 + k = idx + (k + 1) by omega, this]
          rfl)
        (by rw [show idx + 1 + cs.length = idx + (c :: cs).length by
            simp only [List.length_cons]; omega]; exact hsep)
        (fun c' hc' => hne c' (List.mem_cons_of_mem _ hc'))
        (by simpa using hf)
      have e : idx + 1 + cs.length = idx + (c :: cs).length := by
        simp only [List.length_cons]; omega
      rw [e] at hrec
      have h0' : c ≠ DATASTREAM_SEPARATOR := hc ▸ h0
      simp only [scanTag, hrec, Except.map, hc, if_neg h0']

/-- `processStream()` after its tag scan returned the tag `t` and the index
`i` of the separator. -/
theorem processStream_of_scan (s : SerialManager) (t : List char) (i : Nat)
    (h : scanTag s.stream_data 0 MAX_DATASTREAM_LENGTH = Except.ok (t, i)) :
    s.processStream =
      if t = cstr "gha" then
        ((s.log Event.processStream).log
          (Event.myTympan (Printed.str "Stream is of type 'gha'.") true)).interpretStreamGHA
            ((i : Int) + 1)
      else if t = cstr "dsl" then
        ((s.log Event.processStream).log
          (Event.myTympan (Printed.str "Stream is of type 'dsl'.") true)).interpretStreamDSL
            ((i : Int) + 1)
      else if t = cstr "afc" then
        ((s.log Event.processStream).log
          (Event.myTympan (Printed.str "Stream is of type 'afc'.") true)).interpretStreamAFC
            ((i : Int) + 1)
      else if t = cstr "test" then
        (do
          let s1 := (s.log Event.processStream).log
            (Event.myTympan (Printed.str "Stream is of type 'test'.") true)
          let tmpInt ← s1.readInt ((i : Int) + 1)
          let s2 := (s1.log (Event.myTympan (Printed.str "int is ") false)).log
            (Event.myTympan (Printed.int tmpInt) true)
          let tmpFloat ← s2.readFloat ((i : Int) + 1 + 4)
          pure ((s2.log (Event.myTympan (Printed.str "float is ") false)).log
            (Event.myTympan (Printed.flt tmpFloat) true)))
      else
        Except.ok (((s.log Event.processStream).log
          (Event.myTympan (Printed.str "Unknown stream type: ") false)).log
          (Event.myTympan (Printed.str (toText t)) true)) := by
  have h' : scanTag (s.log Event.processStream).stream_data 0 MAX_DATASTREAM_LENGTH
      = Except.ok (t, i) := h
  unfold processStream
  dsimp only
  rw [h', except_bind_ok]
  rfl


/-- C22: when `stream_data` holds a tag without `0x03` and without NUL from
index 0 on, followed by `0x03`, all inside the array, `processStream()`
dispatches on the tag: for `gha`, `dsl`, `afc` it announces the type and is
the call of `interpretStreamGHA`, `interpretStreamDSL`, `interpretStreamAFC`
at the index just past the separator; for every other tag except `test` it
returns after printing `Unknown stream type: ` and the tag, and hands no
record to `updateGHA`, `updateDSL` or `updateAFC`. -/
theorem processStream_dispatch (s : SerialManager) (tag : List char)
    (hfit : tag.length < MAX_DATASTREAM_LENGTH)
    (htag : ∀ k (h : k < tag.length), s.stream_data k = tag.get ⟨k, h⟩)
    (hsep : s.stream_data tag.length = DATASTREAM_SEPARATOR)
    (hascii : ∀ c ∈ tag, c ≠ DATASTREAM_SEPARATOR ∧ c ≠ 0) :
    (tag = cstr "gha" → s.processStream =
      ((s.log Event.processStream).log
        (Event.myTympan (Printed.str "Stream is of type 'gha'.") true)).interpretStreamGHA
          ((tag.length : Int) + 1)) ∧
    (tag = cstr "dsl" → s.processStream =
      ((s.log Event.processStream).log
        (Event.myTympan (Printed.str "Stream is of type 'dsl'.") true)).interpretStreamDSL
          ((tag.length : Int) + 1)) ∧
    (tag = cstr "afc" → s.processStream =
      ((s.log Event.processStream).log
        (Event.myTympan (Printed.str "Stream is of type 'afc'.") true)).interpretStreamAFC
          ((tag.length : Int) + 1)) ∧
    (tag ≠ cstr "gha" → tag ≠ cstr "dsl" → tag ≠ cstr "afc" → tag ≠ cstr "test" →
      ∃ s', s.processStream = Except.ok s' ∧
        s'.events =
          Event.myTympan (Printed.str (toText tag)) true ::
          Event.myTympan (Printed.str "Unknown stream type: ") false ::
          Event.processStream :: s.events ∧
        s'.decodedRecords = s.decodedRecords ∧ SameFramer s s') := by
  have hscan := scanTag_tag s.stream_data tag 0 MAX_DATASTREAM_LENGTH
    (fun k hk => by rw [Nat.zero_add]; exact htag k hk)
    (by rw [Nat.zero_add]; exact hsep) (fun c hc => (hascii c hc).1) hfit
  rw [Nat.zero_add] at hscan
  have hp := processStream_of_scan s tag tag.length hscan
  have n1 : cstr "dsl" ≠ cstr "gha" := by decide
  have n2 : cstr "afc" ≠ cstr "gha" := by decide
  have n3 : cstr "afc" ≠ cstr "dsl" := by decide
  refine ⟨?_, ?_, ?_, ?_⟩
  · intro g
    rw [hp, if_pos g]
  · intro g
    rw [hp, if_neg (g ▸ n1), if_pos g]
  · intro g
    rw [hp, if_neg (g ▸ n2), if_neg (g ▸ n3), if_pos g]
  · intro g1 g2 g3 g4
    refine ⟨_, by rw [hp, if_neg g1, if_neg g2, if_neg g3, if_neg g4], rfl, ?_, ?_⟩
    · simp [decodedRecords, log, isUpdate]
    · simp [SameFramer, log]

set_option maxRecDepth 10000 in
/-- The tag `t` in `tagReceived` is unknown; the tag `dsl` in `dslReceived` is
dispatched to the DSL decoder at index 4. -/
theorem processStream_dispatch_witness :
    (∃ s', tagReceived.processStream = Except.ok s' ∧
        s'.events =
          Event.myTympan (Printed.str (toText [116])) true ::
          Event.myTympan (Printed.str "Unknown stream type: ") false ::
          Event.processStream :: tagReceived.events ∧
        s'.decodedRecords = tagReceived.decodedRecords ∧ SameFramer tagReceived s') ∧
    dslReceived.processStream =
      ((dslReceived.log Event.processStream).log
        (Event.myTympan (Printed.str "Stream is of type 'dsl'.") true)).interpretStreamDSL
          (((cstr "dsl").length : Int) + 1) :=
  ⟨(processStream_dispatch tagReceived [116] (by decide)
      (fun k hk => by
        have : k = 0 := by simpa using hk
        subst this; rfl) rfl (by decide)).2.2.2
      (by decide) (by decide) (by decide) (by decide),
   (processStream_dispatch dslReceived (cstr "dsl") (by decide)
      (fun k hk => by
        have : k = 0 ∨ k = 1 ∨ k = 2 := by
          have : k < 3 := hk
          omega
        rcases this with rfl | rfl | rfl <;> rfl) rfl (by decide)).2.1 rfl⟩

/-- C29 (amended): when the declared payload length is at most
`MAX_DATASTREAM_LENGTH` and `stream_data` holds a `0x03` below the declared
length, the tag scan of `processStream()` terminates at the first `0x03`: it
returns the bytes before it as the tag and its index, which is below the
declared length, and it reads only indices below the declared length, since
it returns the same on every buffer that agrees with `stream_data` below the
declared length. -/
theorem tag_scan_within_frame (s : SerialManager)
    (hfit : s.stream_length ≤ (MAX_DATASTREAM_LENGTH : Nat))
    (hsep : ∃ j : Nat, (j : Int) < s.stream_length ∧ s.stream_data j = DATASTREAM_SEPARATOR) :
    ∃ t i, scanTag s.stream_data 0 MAX_DATASTREAM_LENGTH = Except.ok (t, i) ∧
      (i : Int) < s.stream_length ∧ i = t.length ∧
      s.stream_data i = DATASTREAM_SEPARATOR ∧
      (∀ k, k < i → s.stream_data k ≠ DATASTREAM_SEPARATOR) ∧
      ∀ data : Nat → char, (∀ k : Nat, (k : Int) < s.stream_length → data k = s.stream_data k) →
        scanTag data 0 MAX_DATASTREAM_LENGTH = Except.ok (t, i) := by
  obtain ⟨j, hj1, hj2⟩ := hsep
  have hj : j < MAX_DATASTREAM_LENGTH := by omega
  obtain ⟨t, i, e1, _, _, _⟩ := scanTag_finds s.stream_data MAX_DATASTREAM_LENGTH 0
    ⟨j, Nat.zero_le _, by omega, hj2⟩
  obtain ⟨a1, a2, a3, a4, a5⟩ := scanTag_spec s.stream_data MAX_DATASTREAM_LENGTH 0 t i e1
  simp only [Nat.zero_add] at a1 a2 a4
  have hfirst : ∀ k, k < i → s.stream_data k ≠ DATASTREAM_SEPARATOR := by
    intro k hk
    have hk' : k < t.length := by omega
    rw [a4 k hk']
    exact a5 _ (List.get_mem t k hk')
  have hij : i ≤ j := by
    by_contra hlt
    exact hfirst j (by omega) hj2
  refine ⟨t, i, e1, by omega, a1, a3, hfirst, ?_⟩
  intro data hagree
  have := scanTag_tag data t 0 MAX_DATASTREAM_LENGTH
    (fun k hk => by
      rw [Nat.zero_add, hagree k (by omega)]
      exact a4 k hk)
    (by rw [Nat.zero_add, ← a1, hagree i (by omega)]; exact a3) a5 (by omega)
  rw [Nat.zero_add, ← a1] at this
  exact this

/-- The tag scan on `tagReceived`, whose two payload bytes are `t` and the
separator. -/
theorem tag_scan_within_frame_witness :
    tagReceived.stream_length ≤ (MAX_DATASTREAM_LENGTH : Nat) ∧
    (∃ j : Nat, (j : Int) < tagReceived.stream_length ∧
      tagReceived.stream_data j = DATASTREAM_SEPARATOR) ∧
    ∃ t i, scanTag tagReceived.stream_data 0 MAX_DATASTREAM_LENGTH = Except.ok (t, i) ∧
      (i : Int) < tagReceived.stream_length ∧ i = t.length ∧
      tagReceived.stream_data i = DATASTREAM_SEPARATOR ∧
      (∀ k, k < i → tagReceived.stream_data k ≠ DATASTREAM_SEPARATOR) ∧
      ∀ data : Nat → char,
        (∀ k : Nat, (k : Int) < tagReceived.stream_length → data k = tagReceived.stream_data k) →
        scanTag data 0 MAX_DATASTREAM_LENGTH = Except.ok (t, i) :=
  ⟨by decide, ⟨1, by decide, rfl⟩,
   tag_scan_within_frame tagReceived (by decide) ⟨1, by decide, rfl⟩⟩

/-- C29 (counterexample): on a manager whose buffer is all zero, the frame
`0x02 01 00 00 00 0x03 5A` declares one payload byte, `5A`, and is complete;
the byte `0x04` then starts `processStream()`, whose tag scan finds no `0x03`
in the frame, reads on to the end of `stream_data` and then index 1024. -/
theorem tag_scan_leaves_frame :
    ∃ s, zeroed.respondToBytes ([DATASTREAM_START_CHAR] ++ le32 1 ++ [DATASTREAM_SEPARATOR]
        ++ [90]) = Except.ok s ∧
      s.serial_read_state = STREAM_DATA ∧ s.stream_length = 1 ∧ s.stream_chars_received = 1 ∧
      s.respondToByte DATASTREAM_END_CHAR = Except.error (Fault.read_out_of_bounds 1024) := by
  have e0 := respondToByte_start zeroed rfl
  obtain ⟨s2, k1, k2, k3, k4, _, _, d0, d1, d2, d3, d4, _⟩ := respondToBytes_length
    ({ zeroed.log (Event.Serial (Printed.str "Start data stream.") true) with
        serial_read_state := STREAM_LENGTH, stream_chars_received := 0 } : SerialManager)
    1 0 0 0 rfl rfl (by decide) (by decide) (by decide) (by decide)
  have hl : s2.stream_length = 1 := by rw [k4]; decide
  obtain ⟨s3, p1, p2, p3, p4, _, _, p7, p8⟩ := respondToBytes_payload [90] s2 0 k2
    (by simpa using k3) (by decide) (by rw [hl]; decide)
  have h3 : s3.stream_chars_received = 1 := by rw [p3]; rfl
  refine ⟨s3, ?_, p2, by rw [p4, hl], h3, ?_⟩
  · have hlist : [DATASTREAM_START_CHAR] ++ le32 1 ++ [DATASTREAM_SEPARATOR] ++ [90]
        = DATASTREAM_START_CHAR :: ([1, 0, 0, 0, DATASTREAM_SEPARATOR] ++ [90]) := by decide
    rw [hlist, respondToBytes_cons_ok _ _ _ _ e0, respondToBytes_append, k1, except_bind_ok, p1]
  · refine respondToByte_end_fault s3 p2 (by rw [h3, p4, hl]; decide) ?_
    intro j _
    by_cases hj0 : j = 0
    · subst hj0
      have := p7 0 (by decide)
      rw [Nat.zero_add] at this
      rw [this]
      decide
    · rw [p8 j (Or.inr (by simp only [List.length_cons, List.length_nil]; omega))]
      by_cases h4 : 4 ≤ j
      · rw [d4 j h4]; exact (by decide : (0 : char) ≠ DATASTREAM_SEPARATOR)
      · have : j = 1 ∨ j = 2 ∨ j = 3 := by omega
        rcases this with rfl | rfl | rfl
        · rw [d1]; decide
        · rw [d2]; decide
        · rw [d3]; decide

end SerialManager
end WDRC_3Band

/-! ## Stores into `stream_data` and the record of a `dsl` payload (C28, C23) -/

namespace WDRC_3Band
namespace SerialManager

set_option maxRecDepth 100000 in
/-- C23 (code): for the `dsl` payload of `dslReceived`, whose record starts at
offset 4, the record handed to `updateDSL` has `attack`, `release`, `nchannel`
and `maxdB` from offsets 4, 8, 12 and 16, but `cross_freq` holds the first
elements of the seven arrays (offsets 20, 52, 84, 116, 148, 180, 212) and a
zero, and the other six arrays are all zero, although the wire holds other
values there: the second element of `cross_freq` on the wire (offset 24)
differs from the element forwarded, and the first element of `exp_cr` on the
wire (offset 52) is not zero. -/
theorem interpretStreamDSL_forwards_first_elements :
    (dslReceived.processStream).toOption.map (fun s => lastDSL s.events) =
      some (some
        { attack := wordAt dslReceived.stream_data 4
          release := wordAt dslReceived.stream_data 8
          maxdB := wordAt dslReceived.stream_data 16
          ear := 0
          nchannel := int32 (wordAt dslReceived.stream_data 12)
          cross_freq := [wordAt dslReceived.stream_data 20, wordAt dslReceived.stream_data 52,
            wordAt dslReceived.stream_data 84, wordAt dslReceived.stream_data 116,
            wordAt dslReceived.stream_data 148, wordAt dslReceived.stream_data 180,
            wordAt dslReceived.stream_data 212, 0]
          exp_cr := [0, 0, 0, 0, 0, 0, 0, 0]
          exp_end_knee := [0, 0, 0, 0, 0, 0, 0, 0]
          tkgain := [0, 0, 0, 0, 0, 0, 0, 0]
          cr := [0, 0, 0, 0, 0, 0, 0, 0]
          tk := [0, 0, 0, 0, 0, 0, 0, 0]
          bolt := [0, 0, 0, 0, 0, 0, 0, 0] }) ∧
    wordAt dslReceived.stream_data 24 ≠ wordAt dslReceived.stream_data 52 ∧
    wordAt dslReceived.stream_data 52 ≠ 0 := by
  decide

end SerialManager
end WDRC_3Band

/-! ## Sending and decoding a `dsl` record (C24) -/

namespace WDRC_3Band
namespace SerialManager

end SerialManager
end WDRC_3Band

/-! ## The command set of the nRF52840 treble-boost sketch (C25) -/

namespace TrebleBoost_nRF52840
namespace SerialManager

theorem processCharacter_outside (s : SerialManager) (a : Answers) (c : char)
    (h : c ∉ recognizedCommands) : s.processCharacter a c = (false, s) := by
  simp only [recognizedCommands, List.mem_cons, List.mem_singleton, List.not_mem_nil,
    or_false, not_or] at h
  obtain ⟨h1, h2, h3, h4, h5, h6, h7, h8, h9, h10, h11, h12, h13, h14, h15, h16, h17, h18,
    h19⟩ := h
  unfold processCharacter
  rw [if_neg h1, if_neg (not_or.mpr ⟨h2, h3⟩), if_neg h4, if_neg h5, if_neg h6, if_neg h7,
    if_neg h8, if_neg h9, if_neg h10, if_neg h11, if_neg h12, if_neg h13, if_neg h14,
    if_neg h15, if_neg h16, if_neg h17, if_neg h18, if_neg h19]

theorem processCharacter_inside (s : SerialManager) (a : Answers) (c : char)
    (h : c ∈ recognizedCommands) : (s.processCharacter a c).1 = true := by
  simp only [recognizedCommands, List.mem_cons, List.mem_singleton, List.not_mem_nil,
    or_false] at h
  rcases h with rfl | rfl | rfl | rfl | rfl | rfl | rfl | rfl | rfl | rfl | rfl | rfl | rfl |
    rfl | rfl | rfl | rfl | rfl | rfl
  · unfold processCharacter
    rw [if_pos (show ch 'h' = ch 'h' by decide)]
  · unfold processCharacter
    rw [if_neg (show ¬ (ch 'J' = ch 'h') by decide),
      if_pos (show ch 'J' = ch 'J' ∨ ch 'J' = ch 'j' by decide)]
  · unfold processCharacter
    rw [if_neg (show ¬ (ch 'j' = ch 'h') by decide),
      if_pos (show ch 'j' = ch 'J' ∨ ch 'j' = ch 'j' by decide)]
  · unfold processCharacter
    rw [if_neg (show ¬ (ch 'v' = ch 'h') by decide),
      if_neg (show ¬ (ch 'v' = ch 'J' ∨ ch 'v' = ch 'j') by decide),
      if_pos (show ch 'v' = ch 'v' by decide)]
  · unfold processCharacter
    rw [if_neg (show ¬ (ch 'n' = ch 'h') by decide),
      if_neg (show ¬ (ch 'n' = ch 'J' ∨ ch 'n' = ch 'j') by decide),
      if_neg (show ¬ (ch 'n' = ch 'v') by decide),
      if_pos (show ch 'n' = ch 'n' by decide)]
  · unfold processCharacter
    rw [if_neg (show ¬ (ch 'N' = ch 'h') by decide),
      if_neg (show ¬ (ch 'N' = ch 'J' ∨ ch 'N' = ch 'j') by decide),
      if_neg (show ¬ (ch 'N' = ch 'v') by decide),
      if_neg (show ¬ (ch 'N' = ch 'n') by decide),
      if_pos (show ch 'N' = ch 'N' by decide)]
  · unfold processCharacter
    rw [if_neg (show ¬ (ch 'g' = ch 'h') by decide),
      if_neg (show ¬ (ch 'g' = ch 'J' ∨ ch 'g' = ch 'j') by decide),
      if_neg (show ¬ (ch 'g' = ch 'v') by decide),
      if_neg (show ¬ (ch 'g' = ch 'n') by decide),
      if_neg (show ¬ (ch 'g' = ch 'N') by decide),
      if_pos (show ch 'g' = ch 'g' by decide)]
  · unfold processCharacter
    rw [if_neg (show ¬ (ch 'f' = ch 'h') by decide),
      if_neg (show ¬ (ch 'f' = ch 'J' ∨ ch 'f' = ch 'j') by decide),
      if_neg (show ¬ (ch 'f' = ch 'v') by decide),
      if_neg (show ¬ (ch 'f' = ch 'n') by decide),
      if_neg (show ¬ (ch 'f' = ch 'N') by decide),
      if_neg (show ¬ (ch 'f' = ch 'g') by decide),
      if_pos (show ch 'f' = ch 'f' by decide)]
  · unfold processCharacter
    rw [if_neg (show ¬ (ch 'F' = ch 'h') by decide),
      if_neg (show ¬ (ch 'F' = ch 'J' ∨ ch 'F' = ch 'j') by decide),
      if_neg (show ¬ (ch 'F' = ch 'v') by decide),
      if_neg (show ¬ (ch 'F' = ch 'n') by decide),
      if_neg (show ¬ (ch 'F' = ch 'N') by decide),
      if_neg (show ¬ (ch 'F' = ch 'g') by decide),
      if_neg (show ¬ (ch 'F' = ch 'f') by decide),
      if_pos (show ch 'F' = ch 'F' by decide)]
  · unfold processCharacter
    rw [if_neg (show ¬ (ch 'G' = ch 'h') by decide),
      if_neg (show ¬ (ch 'G' = ch 'J' ∨ ch 'G' = ch 'j') by decide),
      if_neg (show ¬ (ch 'G' = ch 'v') by decide),
      if_neg (show ¬ (ch 'G' = ch 'n') by decide),
      if_neg (show ¬ (ch 'G' = ch 'N') by decide),
      if_neg (show ¬ (ch 'G' = ch 'g') by decide),
      if_neg (show ¬ (ch 'G' = ch 'f') by decide),
      if_neg (show ¬ (ch 'G' = ch 'F') by decide),
      if_pos (show ch 'G' = ch 'G' by decide)]
  · unfold processCharacter
    rw [if_neg (show ¬ (ch 'm' = ch 'h') by decide),
      if_neg (show ¬ (ch 'm' = ch 'J' ∨ ch 'm' = ch 'j') by decide),
      if_neg (show ¬ (ch 'm' = ch 'v') by decide),
      if_neg (show ¬ (ch 'm' = ch 'n') by decide),
      if_neg (show ¬ (ch 'm' = ch 'N') by decide),
      if_neg (show ¬ (ch 'm' = ch 'g') by decide),
      if_neg (show ¬ (ch 'm' = ch 'f') by decide),
      if_neg (show ¬ (ch 'm' = ch 'F') by decide),
      if_neg (show ¬ (ch 'm' = ch 'G') by decide),
      if_pos (show ch 'm' = ch 'm' by decide)]
  · unfold processCharacter
    rw [if_neg (show ¬ (ch 'b' = ch 'h') by decide),
      if_neg (show ¬ (ch 'b' = ch 'J' ∨ ch 'b' = ch 'j') by decide),
      if_neg (show ¬ (ch 'b' = ch 'v') by decide),
      if_neg (show ¬ (ch 'b' = ch 'n') by decide),
      if_neg (show ¬ (ch 'b' = ch 'N') by decide),
      if_neg (show ¬ (ch 'b' = ch 'g') by decide),
      if_neg (show ¬ (ch 'b' = ch 'f') by decide),
      if_neg (show ¬ (ch 'b' = ch 'F') by decide),
      if_neg (show ¬ (ch 'b' = ch 'G') by decide),
      if_neg (show ¬ (ch 'b' = ch 'm') by decide),
      if_pos (show ch 'b' = ch 'b' by decide)]
  · unfold processCharacter
    rw [if_neg (show ¬ (ch 'B' = ch 'h') by decide),
      if_neg (show ¬ (ch 'B' = ch 'J' ∨ ch 'B' = ch 'j') by decide),
      if_neg (show ¬ (ch 'B' = ch 'v') by decide),
      if_neg (show ¬ (ch 'B' = ch 'n') by decide),
      if_neg (show ¬ (ch 'B' = ch 'N') by decide),
      if_neg (show ¬ (ch 'B' = ch 'g') by decide),
      if_neg (show ¬ (ch 'B' = ch 'f') by decide),
      if_neg (show ¬ (ch 'B' = ch 'F') by decide),
      if_neg (show ¬ (ch 'B' = ch 'G') by decide),
      if_neg (show ¬ (ch 'B' = ch 'm') by decide),
      if_neg (show ¬ (ch 'B' = ch 'b') by decide),
      if_pos (show ch 'B' = ch 'B' by decide)]
  · unfold processCharacter
    rw [if_neg (show ¬ (ch 'k' = ch 'h') by decide),
      if_neg (show ¬ (ch 'k' = ch 'J' ∨ ch 'k' = ch 'j') by decide),
      if_neg (show ¬ (ch 'k' = ch 'v') by decide),
      if_neg (show ¬ (ch 'k' = ch 'n') by decide),
      if_neg (show ¬ (ch 'k' = ch 'N') by decide),
      if_neg (show ¬ (ch 'k' = ch 'g') by decide),
      if_neg (show ¬ (ch 'k' = ch 'f') by decide),
      if_neg (show ¬ (ch 'k' = ch 'F') by decide),
      if_neg (show ¬ (ch 'k' = ch 'G') by decide),
      if_neg (show ¬ (ch 'k' = ch 'm') by decide),
      if_neg (show ¬ (ch 'k' = ch 'b') by decide),
      if_neg (show ¬ (ch 'k' = ch 'B') by decide),
      if_pos (show ch 'k' = ch 'k' by decide)]
  · unfold processCharacter
    rw [if_neg (show ¬ (ch 'K' = ch 'h') by decide),
      if_neg (show ¬ (ch 'K' = ch 'J' ∨ ch 'K' = ch 'j') by decide),
      if_neg (show ¬ (ch 'K' = ch 'v') by decide),
      if_neg (show ¬ (ch 'K' = ch 'n') by decide),
      if_neg (show ¬ (ch 'K' = ch 'N') by decide),
      if_neg (show ¬ (ch 'K' = ch 'g') by decide),
      if_neg (show ¬ (ch 'K' = ch 'f') by decide),
      if_neg (show ¬ (ch 'K' = ch 'F') by decide),
      if_neg (show ¬ (ch 'K' = ch 'G') by decide),
      if_neg (show ¬ (ch 'K' = ch 'm') by decide),
      if_neg (show ¬ (ch 'K' = ch 'b') by decide),
      if_neg (show ¬ (ch 'K' = ch 'B') by decide),
      if_neg (show ¬ (ch 'K' = ch 'k') by decide),
      if_pos (show ch 'K' = ch 'K' by decide)]
  · unfold processCharacter
    rw [if_neg (show ¬ (ch 't' = ch 'h') by decide),
      if_neg (show ¬ (ch 't' = ch 'J' ∨ ch 't' = ch 'j') by decide),
      if_neg (show ¬ (ch 't' = ch 'v') by decide),
      if_neg (show ¬ (ch 't' = ch 'n') by decide),
      if_neg (show ¬ (ch 't' = ch 'N') by decide),
      if_neg (show ¬ (ch 't' = ch 'g') by decide),
      if_neg (show ¬ (ch 't' = ch 'f') by decide),
      if_neg (show ¬ (ch 't' = ch 'F') by decide),
      if_neg (show ¬ (ch 't' = ch 'G') by decide),
      if_neg (show ¬ (ch 't' = ch 'm') by decide),
      if_neg (show ¬ (ch 't' = ch 'b') by decide),
      if_neg (show ¬ (ch 't' = ch 'B') by decide),
      if_neg (show ¬ (ch 't' = ch 'k') by decide),
      if_neg (show ¬ (ch 't' = ch 'K') by decide),
      if_pos (show ch 't' = ch 't' by decide)]
  · unfold processCharacter
    rw [if_neg (show ¬ (ch 'T' = ch 'h') by decide),
      if_neg (show ¬ (ch 'T' = ch 'J' ∨ ch 'T' = ch 'j') by decide),
      if_neg (show ¬ (ch 'T' = ch 'v') by decide),
      if_neg (show ¬ (ch 'T' = ch 'n') by decide),
      if_neg (show ¬ (ch 'T' = ch 'N') by decide),
      if_neg (show ¬ (ch 'T' = ch 'g') by decide),
      if_neg (show ¬ (ch 'T' = ch 'f') by decide),
      if_neg (show ¬ (ch 'T' = ch 'F') by decide),
      if_neg (show ¬ (ch 'T' = ch 'G') by decide),
      if_neg (show ¬ (ch 'T' = ch 'm') by decide),
      if_neg (show ¬ (ch 'T' = ch 'b') by decide),
      if_neg (show ¬ (ch 'T' = ch 'B') by decide),
      if_neg (show ¬ (ch 'T' = ch 'k') by decide),
      if_neg (show ¬ (ch 'T' = ch 'K') by decide),
      if_neg (show ¬ (ch 'T' = ch 't') by decide),
      if_pos (show ch 'T' = ch 'T' by decide)]
  · unfold processCharacter
    rw [if_neg (show ¬ (ch 'c' = ch 'h') by decide),
      if_neg (show ¬ (ch 'c' = ch 'J' ∨ ch 'c' = ch 'j') by decide),
      if_neg (show ¬ (ch 'c' = ch 'v') by decide),
      if_neg (show ¬ (ch 'c' = ch 'n') by decide),
      if_neg (show ¬ (ch 'c' = ch 'N') by decide),
      if_neg (show ¬ (ch 'c' = ch 'g') by decide),
      if_neg (show ¬ (ch 'c' = ch 'f') by decide),
      if_neg (show ¬ (ch 'c' = ch 'F') by decide),
      if_neg (show ¬ (ch 'c' = ch 'G') by decide),
      if_neg (show ¬ (ch 'c' = ch 'm') by decide),
      if_neg (show ¬ (ch 'c' = ch 'b') by decide),
      if_neg (show ¬ (ch 'c' = ch 'B') by decide),
      if_neg (show ¬ (ch 'c' = ch 'k') by decide),
      if_neg (show ¬ (ch 'c' = ch 'K') by decide),
      if_neg (show ¬ (ch 'c' = ch 't') by decide),
      if_neg (show ¬ (ch 'c' = ch 'T') by decide),
      if_pos (show ch 'c' = ch 'c' by decide)]
  · unfold processCharacter
    rw [if_neg (show ¬ (ch 'C' = ch 'h') by decide),
      if_neg (show ¬ (ch 'C' = ch 'J' ∨ ch 'C' = ch 'j') by decide),
      if_neg (show ¬ (ch 'C' = ch 'v') by decide),
      if_neg (show ¬ (ch 'C' = ch 'n') by decide),
      if_neg (show ¬ (ch 'C' = ch 'N') by decide),
      if_neg (show ¬ (ch 'C' = ch 'g') by decide),
      if_neg (show ¬ (ch 'C' = ch 'f') by decide),
      if_neg (show ¬ (ch 'C' = ch 'F') by decide),
      if_neg (show ¬ (ch 'C' = ch 'G') by decide),
      if_neg (show ¬ (ch 'C' = ch 'm') by decide),
      if_neg (show ¬ (ch 'C' = ch 'b') by decide),
      if_neg (show ¬ (ch 'C' = ch 'B') by decide),
      if_neg (show ¬ (ch 'C' = ch 'k') by decide),
      if_neg (show ¬ (ch 'C' = ch 'K') by decide),
      if_neg (show ¬ (ch 'C' = ch 't') by decide),
      if_neg (show ¬ (ch 'C' = ch 'T') by decide),
      if_neg (show ¬ (ch 'C' = ch 'c') by decide),
      if_pos (show ch 'C' = ch 'C' by decide)]

/-- C25: for every byte `c`, `respondToByte(c)` is `processCharacter(c)`, it
returns true if and only if `c` is one of `h, J, j, v, n, N, g, f, F, G, m, b,
B, k, K, t, T, c, C`, and for every other byte it returns false, calls no
collaborator and leaves the manager and `myState` as they were. -/
theorem processCharacter_recognized (s : SerialManager) (a : Answers) (c : char) :
    s.respondToByte a c = s.processCharacter a c ∧
    ((s.processCharacter a c).1 = true ↔ c ∈ recognizedCommands) ∧
    (c ∉ recognizedCommands → s.processCharacter a c = (false, s)) := by
  refine ⟨rfl, ⟨?_, processCharacter_inside s a c⟩, processCharacter_outside s a c⟩
  intro h
  by_contra hc
  rw [processCharacter_outside s a c hc] at h
  cases h

end SerialManager
end TrebleBoost_nRF52840
